import Mathlib

/-!
# VFd request interface (`src/vfd/vfd_rif.c`): configuration store, admission and removal

A shallow embedding of the configuration-management functions of `vfd_rif.c`
(`check_tcs`, `vfd_add_vf`, `vfd_del_vf`) and of its request dispatcher (`vfd_req_if`),
together with the properties of the specification that concern them.

Modelling conventions
* C strings are `String`s, a `char*` that may be `NULL` is an `Option String`.
* The fixed-capacity arrays of the store (`ports[]`, `vfs[]`, `vlans[]`, `macs[]`,
  `tc_pctgs[]`) are total functions on indices; the code guards every write with
  the capacity of the array.
* The variable-length arrays of a parsed descriptor (`vlans`/`nvlans`,
  `macs`/`nmacs`, `tcpctgs`) are lists, the count being the length of the list.
* Counters that the code only zeroes and increments are `Nat`; every other `int`
  is an `Int`.
* The header that declares the structures and the constants is not part of the
  sources: the structures carry exactly the fields the code touches and the
  constants are collected in `consts`.
* Functions of the daemon that live in other files (`read_config`,
  `is_valid_mac_str`, the file system calls) are collected in `env_t`.
-/

namespace Vfd

/-! ## Data model -/

/-- Compile-time constants used by `vfd_rif.c`; their defining header is not among the sources,
so every result is stated for arbitrary values. -/
structure consts where
  MAX_PORTS : Nat
  MAX_VFS : Nat
  MAX_TCS : Nat
  MAX_VF_VLANS : Nat
  MAX_VF_MACS : Nat
  MAX_PF_VLANS : Nat
  MAX_PF_MACS : Nat
  BUF_1K : Nat
  ADDED : Int
  DELETED : Int
  PF_LOOPBACK : Nat
  PF_OVERSUB : Nat
  PFF_LOOP_BACK : Nat
  PFF_VF_OVERSUB : Nat

/-- One VF slot of a port (`struct vf_s`), with the fields `vfd_rif.c` reads or writes. -/
structure vf_s where
  num : Int
  last_updated : Int
  owner : Int
  strip_stag : Int
  insert_stag : Int
  allow_bcast : Int
  allow_mcast : Int
  allow_un_ucast : Int
  allow_untagged : Int
  vlan_anti_spoof : Int
  mac_anti_spoof : Int
  rate : Int
  start_cb : Option String
  stop_cb : Option String
  link : Int
  num_vlans : Int
  num_macs : Int
  vlans : Nat → Int
  macs : Nat → String
  tc_pctgs : Nat → Nat

/-- One physical function (`struct sriov_port_s`). -/
structure sriov_port_s where
  name : String
  pciid : String
  last_updated : Int
  mtu : Int
  flags : Nat
  nvfs_config : Int
  num_mirrors : Int
  num_vfs : Nat
  vfs : Nat → vf_s

/-- The configuration store (`sriov_conf_t`). Besides the port table the code reads
`conf->flags` (line 364) and `conf->vfs[i]` (`check_tcs`, lines 55-57). -/
structure sriov_conf_t where
  num_ports : Nat
  flags : Nat
  ports : Nat → sriov_port_s
  vfs : Nat → vf_s

/-- A parsed VF descriptor (`vf_config_t`), as produced by `read_config`. -/
structure vf_config_t where
  name : String
  pciid : Option String
  vfid : Int
  owner : Int
  strip_stag : Int
  allow_bcast : Int
  allow_mcast : Int
  allow_un_ucast : Int
  rate : Int
  start_cb : Option String
  stop_cb : Option String
  link_status : String
  vlans : List Int
  macs : List String
  tcpctgs : List Nat

/-- The field `nvlans` of a descriptor: the number of entries of its `vlans` array. -/
def vf_config_t.nvlans (vfc : vf_config_t) : Int := vfc.vlans.length

/-- The field `nmacs` of a descriptor: the number of entries of its `macs` array. -/
def vf_config_t.nmacs (vfc : vf_config_t) : Int := vfc.macs.length

/-- One entry of `parms->pciids[]`: a device identifier, its mtu and its `PFF_*` flags. -/
structure pciid_t where
  id : String
  mtu : Int
  flags : Nat

/-- Run-time parameters (`parms_t`), with the fields the configuration functions read;
`npciids` is the length of `pciids`. -/
structure parms_t where
  config_dir : String
  delete_keep : Int
  forreal : Int
  pciids : List pciid_t := []

/-- The collaborators of `vfd_rif.c` that live in other files.
`read_config` yields the parsed descriptor, or the sub-reason text built from `errno`;
`rename` and `unlink` yield the return code of the system call; `strerror` is the text
of `strerror( errno )` after a failed system call. -/
structure env_t where
  read_config : String → Except String vf_config_t
  is_valid_mac_str : String → Int
  rename : String → String → Int
  unlink : String → Int
  strerror : String

/-- What a call of `vfd_add_vf` or `vfd_del_vf` leaves behind: the return code, the
string stored through `reason` (`none` for `NULL`) and the store. -/
structure add_result where
  rc : Int
  reason : Option String
  conf : sriov_conf_t

/-! ## Helpers -/

/-- The text `snprintf( buf, size, ... )` leaves in `buf`: at most `size - 1` characters. -/
def snprintf (size : Nat) (s : String) : String := String.mk (s.data.take (size - 1))

/-- The conversion of an `int` by `%d`. -/
def fmt_d (n : Int) : String := toString n

/-- A failing return of `vfd_add_vf`/`vfd_del_vf`: code 0, the message buffer duplicated
into `reason`, the store as it was passed in. -/
def fail (K : consts) (conf : sriov_conf_t) (msg : String) : add_result :=
  { rc := 0, reason := some (snprintf K.BUF_1K msg), conf := conf }

/-- Lines 174-179 (and 569-574): index of the first port whose pciid matches, scanning
`i, i+1, ...` for `n` more iterations. -/
def find_port (conf : sriov_conf_t) (pciid : String) : Nat → Nat → Option Nat
  | 0, _ => none
  | n + 1, i =>
    if (conf.ports i).pciid = pciid then some i else find_port conf pciid n (i + 1)

/-- The locals that the scan of lines 191-210 maintains (`hole = none` stands for -1). -/
structure scan_t where
  hole : Option Nat
  tot_vlans : Int
  tot_macs : Int

/-- The locals at loop entry. -/
def scan_init : scan_t := { hole := none, tot_vlans := 0, tot_macs := 0 }

/-- Lines 191-210: the loop over the slots `i, i+1, ...` for `n` more iterations.
`none` is the early return on a duplicate id. -/
def scan_vfs (port : sriov_port_s) (vfid : Int) : Nat → Nat → scan_t → Option scan_t
  | 0, _, st => some st
  | n + 1, i, st =>
    if (port.vfs i).num < 0 then
      scan_vfs port vfid n (i + 1)
        (if st.hole = none then { st with hole := some i } else st)
    else if (port.vfs i).num = vfid then none
    else
      scan_vfs port vfid n (i + 1)
        { st with tot_vlans := st.tot_vlans + (port.vfs i).num_vlans,
                  tot_macs := st.tot_macs + (port.vfs i).num_macs }

/-- Lines 212-216: the slot index chosen after a complete scan. -/
def vidx_of (port : sriov_port_s) (st : scan_t) : Nat :=
  match st.hole with
  | some h => h
  | none => port.num_vfs

/-- The message of a VLAN id out of range. -/
def msg_invalid_vlan (v : Int) : String := "invalid vlan id: " ++ fmt_d v

/-- The message of a repeated VLAN id. -/
def msg_dup_vlan (v : Int) : String := "dupliate vlan in list: " ++ fmt_d v

/-- Lines 314-324: the inner loop `for( j = ...; j < nvlans; j++ )`, `n` more iterations;
true when `vlans[i] == vlans[j]` is met. -/
def vlan_dup_loop (vlans : List Int) (i : Nat) : Nat → Nat → Bool
  | 0, _ => false
  | n + 1, j =>
    if vlans.getD i 0 = vlans.getD j 0 then true else vlan_dup_loop vlans i n (j + 1)

/-- Lines 303-325: the outer loop `for( i = ...; i < nvlans-1; i++ )`, `n` more iterations;
the message of the first failure, if any. -/
def vlan_loop (vlans : List Int) : Nat → Nat → Option String
  | 0, _ => none
  | n + 1, i =>
    if vlans.getD i 0 < 1 ∨ vlans.getD i 0 > 4095 then some (msg_invalid_vlan (vlans.getD i 0))
    else if vlan_dup_loop vlans i (vlans.length - (i + 1)) (i + 1) then
      some (msg_dup_vlan (vlans.getD i 0))
    else vlan_loop vlans n (i + 1)

/-- Lines 292-326: the check of the VLAN array; the message of the first failure, if any. -/
def check_vlans (vlans : List Int) : Option String :=
  if vlans.length = 1 then
    if vlans.getD 0 0 < 1 ∨ vlans.getD 0 0 > 4095 then some (msg_invalid_vlan (vlans.getD 0 0))
    else none
  else vlan_loop vlans (vlans.length - 1) 0

/-- The message of a malformed MAC string. -/
def msg_invalid_mac (m : String) : String := "invalid mac in list: " ++ m

/-- The message of a repeated MAC string. -/
def msg_dup_mac (m : String) : String := "dupliate mac in list: " ++ m

/-- Lines 350-360: the inner loop `for( j = ...; j < nmacs; j++ )`, `n` more iterations;
true when `strcmp( macs[i], macs[j] ) == 0` is met. -/
def mac_dup_loop (macs : List String) (i : Nat) : Nat → Nat → Bool
  | 0, _ => false
  | n + 1, j =>
    if macs.getD i "" = macs.getD j "" then true else mac_dup_loop macs i n (j + 1)

/-- Lines 339-361: the outer loop `for( i = ...; i < nmacs-1; i++ )`, `n` more iterations;
the message of the first failure, if any. -/
def mac_loop (E : env_t) (macs : List String) : Nat → Nat → Option String
  | 0, _ => none
  | n + 1, i =>
    if E.is_valid_mac_str (macs.getD i "") < 0 then some (msg_invalid_mac (macs.getD i ""))
    else if mac_dup_loop macs i (macs.length - (i + 1)) (i + 1) then
      some (msg_dup_mac (macs.getD i ""))
    else mac_loop E macs n (i + 1)

/-- Lines 328-362: the check of the MAC array; the message of the first failure, if any. -/
def check_macs (E : env_t) (macs : List String) : Option String :=
  if macs.length = 1 then
    if E.is_valid_mac_str (macs.getD 0 "") < 0 then some (msg_invalid_mac (macs.getD 0 ""))
    else none
  else mac_loop E macs (macs.length - 1) 0

/-- Lines 56-58: `for( j = ...; j < MAX_TCS; j++ ) totals[j] += vf.tc_pctgs[j]`,
`n` more iterations. -/
def add_pctgs (vf : vf_s) : Nat → Nat → (Nat → Int) → (Nat → Int)
  | 0, _, totals => totals
  | n + 1, j, totals =>
    add_pctgs vf n (j + 1) (Function.update totals j (totals j + (vf.tc_pctgs j : Int)))

/-- Lines 54-60: the loop over `conf->vfs[i]`, `i < MAX_VFS`, `n` more iterations. -/
def sum_tcs (K : consts) (conf : sriov_conf_t) : Nat → Nat → (Nat → Int) → (Nat → Int)
  | 0, _, totals => totals
  | n + 1, i, totals =>
    sum_tcs K conf n (i + 1)
      (if (conf.vfs i).num ≥ 0 then add_pctgs (conf.vfs i) K.MAX_TCS 0 totals else totals)

/-- Lines 62-67: the loop that compares each total with 100, `n` more iterations,
threading the return code `rc`. -/
def tc_limit_loop (totals : Nat → Int) (tcpctgs : List Nat) : Nat → Nat → Int → Int
  | 0, _, rc => rc
  | n + 1, i, rc =>
    tc_limit_loop totals tcpctgs n (i + 1)
      (if totals i + (tcpctgs.getD i 0 : Int) > 100 then 0 else rc)

/-- The function `check_tcs` (lines 46-70). Its second parameter `port` is never used
by the body and is left out. -/
def check_tcs (K : consts) (conf : sriov_conf_t) (tcpctgs : List Nat) : Int :=
  tc_limit_loop (sum_tcs K conf K.MAX_VFS 0 (fun _ => 0)) tcpctgs K.MAX_TCS 0 1

/-- Line 364: the value of `! conf->flags & PF_OVERSUB`, which C parses as
`(!conf->flags) & PF_OVERSUB`. -/
def tc_gate (K : consts) (conf : sriov_conf_t) : Nat :=
  Nat.land (if conf.flags = 0 then 1 else 0) K.PF_OVERSUB

/-- The test `cb != NULL && strchr( cb, ';' ) != NULL` of lines 375 and 384. -/
def has_semicolon (cb : Option String) : Bool :=
  match cb with
  | none => false
  | some s => s.data.contains ';'

/-- Lines 424-444: the link policy selected by the first character of `link_status`
(the terminating NUL of an empty string selects the default). -/
def link_of (link_status : String) : Int :=
  match link_status.data.head? with
  | some 'a' => 0
  | some 'A' => 0
  | some 'd' => -1
  | some 'D' => -1
  | some 'u' => 1
  | some 'U' => 1
  | _ => 0

/-- Lines 446-448: `for( i = ...; i < nvlans; i++ ) vf->vlans[i] = vfc->vlans[i]`,
`n` more iterations. -/
def copy_vlans (src : List Int) : Nat → Nat → (Nat → Int) → (Nat → Int)
  | 0, _, dst => dst
  | n + 1, i, dst => copy_vlans src n (i + 1) (Function.update dst i (src.getD i 0))

/-- Lines 451-453: `for( i = ...; i < nmacs; i++ ) strcpy( vf->macs[i], vfc->macs[i] )`,
`n` more iterations. The copy is an assignment: the slot holds the string whole, also when
it is longer than the array `macs[i]` of the program (see `strcpy_excess`). -/
def copy_macs (src : List String) : Nat → Nat → (Nat → String) → (Nat → String)
  | 0, _, dst => dst
  | n + 1, i, dst => copy_macs src n (i + 1) (Function.update dst i (src.getD i ""))

/-- Line 400: the slot after `memset( vf, 0, sizeof( *vf ) )`. -/
def zero_vf : vf_s :=
  { num := 0, last_updated := 0, owner := 0, strip_stag := 0, insert_stag := 0,
    allow_bcast := 0, allow_mcast := 0, allow_un_ucast := 0, allow_untagged := 0,
    vlan_anti_spoof := 0, mac_anti_spoof := 0, rate := 0, start_cb := none, stop_cb := none,
    link := 0, num_vlans := 0, num_macs := 0, vlans := fun _ => 0, macs := fun _ => "",
    tc_pctgs := fun _ => 0 }

/-- Lines 400-454: the record written into the chosen slot. -/
def new_vf (K : consts) (vfc : vf_config_t) : vf_s :=
  { zero_vf with
    owner := vfc.owner
    num := vfc.vfid
    last_updated := K.ADDED
    strip_stag := vfc.strip_stag
    insert_stag := vfc.strip_stag
    allow_bcast := vfc.allow_bcast
    allow_mcast := vfc.allow_mcast
    allow_un_ucast := vfc.allow_un_ucast
    allow_untagged := 0
    vlan_anti_spoof := 1
    mac_anti_spoof := 1
    rate := vfc.rate
    start_cb := vfc.start_cb
    stop_cb := vfc.stop_cb
    link := link_of vfc.link_status
    vlans := copy_vlans vfc.vlans vfc.vlans.length 0 zero_vf.vlans
    num_vlans := vfc.nvlans
    macs := copy_macs vfc.macs vfc.macs.length 0 zero_vf.macs
    num_macs := vfc.nmacs }

/-- Lines 394-454: the store after the descriptor has been installed in slot `vidx` of
port `p`; `num_vfs` is bumped only when the slot is the one just past the end. -/
def install_vf (K : consts) (conf : sriov_conf_t) (p vidx : Nat) (vfc : vf_config_t) :
    sriov_conf_t :=
  { conf with
    ports := Function.update conf.ports p
      { conf.ports p with
        num_vfs := if vidx = (conf.ports p).num_vfs then (conf.ports p).num_vfs + 1
                   else (conf.ports p).num_vfs
        vfs := Function.update (conf.ports p).vfs vidx (new_vf K vfc) } }

/-! ## The messages of `vfd_add_vf` -/

/-- Line 145. -/
def msg_nil : String := "internal mishap: config ptr was nil"

/-- Line 152; `sub` is the text derived from `errno`. -/
def msg_unreadable (fn sub : String) : String :=
  "unable to read config file: " ++ fn ++ ": " ++ sub

/-- Line 165. -/
def msg_unparsable (fn : String) : String := "unable to read or parse config file: " ++ fn

/-- Line 182. -/
def msg_no_port (name pciid : String) : String :=
  name ++ ": could not find port " ++ pciid ++ " in the config"

/-- Line 198. -/
def msg_dup_vfid (vfid : Int) (pciid : String) : String :=
  "vfid " ++ fmt_d vfid ++ " already exists on port " ++ pciid

/-- Line 219. -/
def msg_range (vfid : Int) : String :=
  "max VFs already defined or vfid " ++ fmt_d vfid ++ " is out of range"

/-- Line 230. -/
def msg_not_configured (vfid nvfs_config : Int) (pciid : String) : String :=
  "vf " ++ fmt_d vfid ++ " is out of range; only " ++ fmt_d nvfs_config
    ++ " VFs are configured on port " ++ pciid

/-- Lines 241 and 272; `what` is `vlans` or `macs`. -/
def msg_too_many (what : String) (n max : Int) : String :=
  "number of " ++ what ++ " supplied (" ++ fmt_d n ++ ") exceeds the maximum ("
    ++ fmt_d max ++ ")"

/-- Lines 251 and 261; `what` is `vlans` or `macs`. -/
def msg_pf_total (what : String) (n max : Int) : String :=
  "number of " ++ what ++ " supplied (" ++ fmt_d n
    ++ ") cauess total for PF to exceed the maximum (" ++ fmt_d max ++ ")"

/-- Line 282. -/
def msg_strip_stag : String :=
  "conflicting options: strip_stag may not be supplied with a list of vlan ids"

/-- Line 366. The format ends in a lone percent sign, which is kept as written. -/
def msg_tc : String := "TC percentages cause one or more total allocation to exceed 100%"

/-- Lines 376 and 385; `which` is `start_cb` or `stop_cb`. -/
def msg_cb (which : String) : String := which ++ " command contains invalid character: ;"

/-! ## `vfd_add_vf`

The function is one C function of some 330 lines; it is embedded as three consecutive
segments, each ending in the next one. -/

/-- Lines 291-463 of `vfd_add_vf`: the checks of the VLAN and MAC arrays, the traffic
class gate, the hook commands, and the installation into slot `vidx` of port `p`. -/
def add_vf_lists (K : consts) (E : env_t) (conf : sriov_conf_t) (p vidx : Nat)
    (vfc : vf_config_t) : add_result :=
  match check_vlans vfc.vlans with
  | some msg => fail K conf msg
  | none =>
  match check_macs E vfc.macs with
  | some msg => fail K conf msg
  | none =>
  if tc_gate K conf ≠ 0 ∧ check_tcs K conf vfc.tcpctgs = 0 then fail K conf msg_tc
  else if has_semicolon vfc.start_cb then fail K conf (msg_cb "start_cb")
  else if has_semicolon vfc.stop_cb then fail K conf (msg_cb "stop_cb")
  else { rc := 1, reason := none, conf := install_vf K conf p vidx vfc }

/-- Lines 212-289 of `vfd_add_vf`: the choice of the slot and the checks on the id and
on the counts, `st` being the locals left by the scan of the port `p`. -/
def add_vf_limits (K : consts) (E : env_t) (conf : sriov_conf_t) (p : Nat) (st : scan_t)
    (vfc : vf_config_t) : add_result :=
  if vidx_of (conf.ports p) st ≥ K.MAX_VFS ∨ vfc.vfid < 1 ∨ vfc.vfid > 31 then
    fail K conf (msg_range vfc.vfid)
  else if vfc.vfid ≥ (conf.ports p).nvfs_config then
    fail K conf (msg_not_configured vfc.vfid (conf.ports p).nvfs_config (conf.ports p).pciid)
  else if vfc.nvlans > K.MAX_VF_VLANS then
    fail K conf (msg_too_many "vlans" vfc.nvlans K.MAX_VF_VLANS)
  else if vfc.nvlans + st.tot_vlans > K.MAX_PF_VLANS then
    fail K conf (msg_pf_total "vlans" vfc.nvlans K.MAX_PF_VLANS)
  else if vfc.nmacs + st.tot_macs > K.MAX_PF_MACS then
    fail K conf (msg_pf_total "macs" vfc.nmacs K.MAX_PF_MACS)
  else if vfc.nmacs > K.MAX_VF_MACS then
    fail K conf (msg_too_many "macs" vfc.nmacs K.MAX_VF_MACS)
  else if vfc.strip_stag ≠ 0 ∧ vfc.nvlans > 1 then fail K conf msg_strip_stag
  else add_vf_lists K E conf p (vidx_of (conf.ports p) st) vfc

/-- The function `vfd_add_vf` (lines 129-463). `conf` is the store (a non-nil pointer),
`fname` the file name (`none` for a nil pointer); the caller is taken to pass a
non-nil `reason`. -/
def vfd_add_vf (K : consts) (E : env_t) (conf : sriov_conf_t) (fname : Option String) :
    add_result :=
  match fname with
  | none => fail K conf msg_nil
  | some fn =>
  match E.read_config fn with
  | Except.error sub => fail K conf (msg_unreadable fn sub)
  | Except.ok vfc =>
  match vfc.pciid with
  | none => fail K conf (msg_unparsable fn)
  | some pciid =>
  if vfc.vfid < 1 then fail K conf (msg_unparsable fn)
  else
  match find_port conf pciid conf.num_ports 0 with
  | none => fail K conf (msg_no_port vfc.name pciid)
  | some p =>
  match scan_vfs (conf.ports p) vfc.vfid (conf.ports p).num_vfs 0 scan_init with
  | none => fail K conf (msg_dup_vfid vfc.vfid pciid)
  | some st => add_vf_limits K E conf p st vfc

/-! ## `vfd_del_vf` -/

/-- Line 535. -/
def msg_rename (fn err : String) : String :=
  "unable to rename config file: " ++ fn ++ ": " ++ err

/-- Line 545. -/
def msg_unlink (fn err : String) : String :=
  "unable to delete config file: " ++ fn ++ ": " ++ err

/-- Line 560. -/
def msg_del_unreadable (fn : String) : String := "unable to read config file: " ++ fn

/-- Lines 586-592: index of the first slot whose `num` is `vfid`, scanning `i, i+1, ...`
for `n` more iterations (`none` stands for `vidx = -1`). -/
def find_vf (port : sriov_port_s) (vfid : Int) : Nat → Nat → Option Nat
  | 0, _ => none
  | n + 1, i => if (port.vfs i).num = vfid then some i else find_vf port vfid n (i + 1)

/-- Line 595: the store after slot `vidx` of port `p` has been marked `DELETED`. -/
def mark_deleted (K : consts) (conf : sriov_conf_t) (p vidx : Nat) : sriov_conf_t :=
  { conf with
    ports := Function.update conf.ports p
      { conf.ports p with
        vfs := Function.update (conf.ports p).vfs vidx
          { (conf.ports p).vfs vidx with last_updated := K.DELETED } } }

/-- The function `vfd_del_vf` (lines 507-605), with the conventions of `vfd_add_vf`.
The file is retired (renamed when `delete_keep` is set, unlinked otherwise) before the
descriptor is looked at. -/
def vfd_del_vf (K : consts) (E : env_t) (parms : parms_t) (conf : sriov_conf_t)
    (fname : Option String) : add_result :=
  match fname with
  | none => fail K conf msg_nil
  | some fn =>
  match E.read_config fn with
  | Except.error sub => fail K conf (msg_unreadable fn sub)
  | Except.ok vfc =>
  if parms.delete_keep ≠ 0 ∧ E.rename fn (snprintf K.BUF_1K (fn ++ "-")) < 0 then
    fail K conf (msg_rename fn E.strerror)
  else if parms.delete_keep = 0 ∧ E.unlink fn < 0 then
    fail K conf (msg_unlink fn E.strerror)
  else
  match vfc.pciid with
  | none => fail K conf (msg_del_unreadable fn)
  | some pciid =>
  if vfc.vfid < 1 then fail K conf (msg_del_unreadable fn)
  else
  match find_port conf pciid conf.num_ports 0 with
  | none => fail K conf (msg_no_port vfc.name pciid)
  | some p =>
  match find_vf (conf.ports p) vfc.vfid (conf.ports p).num_vfs 0 with
  | some vidx => { rc := 1, reason := none, conf := mark_deleted K conf p vidx }
  | none => { rc := 1, reason := none, conf := conf }

/-! ## Specification-level notions

The notions below restate, in the words of the specification, what the scan of
`vfd_add_vf` computes and what a well-formed store is; the theorems relate them to the
code. -/

/-- Number of VLANs that slot `vf` contributes to the total of its port: `num_vlans`
for an active VF, nothing for a hole. -/
def vlans_of (vf : vf_s) : Int := if vf.num < 0 then 0 else vf.num_vlans

/-- Number of MACs that slot `vf` contributes to the total of its port. -/
def macs_of (vf : vf_s) : Int := if vf.num < 0 then 0 else vf.num_macs

/-- Sum of `num_vlans` over the active VFs among the first `n` slots. -/
def vlan_total (vfs : Nat → vf_s) : Nat → Int
  | 0 => 0
  | n + 1 => vlan_total vfs n + vlans_of (vfs n)

/-- Sum of `num_macs` over the active VFs among the first `n` slots. -/
def mac_total (vfs : Nat → vf_s) : Nat → Int
  | 0 => 0
  | n + 1 => mac_total vfs n + macs_of (vfs n)

/-- Well-formedness of one port: the high-water mark is within the capacity, the active
VFs among the first `num_vfs` slots have ids in 1..31 that are pairwise distinct and
VLAN and MAC counts within the per-VF caps, and the totals are within the per-port caps. -/
def port_wf (K : consts) (port : sriov_port_s) : Prop :=
  port.num_vfs ≤ K.MAX_VFS ∧
  (∀ i, i < port.num_vfs → 0 ≤ (port.vfs i).num →
    1 ≤ (port.vfs i).num ∧ (port.vfs i).num ≤ 31 ∧
    (port.vfs i).num_vlans ≤ K.MAX_VF_VLANS ∧ (port.vfs i).num_macs ≤ K.MAX_VF_MACS) ∧
  (∀ i j, i < port.num_vfs → j < port.num_vfs → 0 ≤ (port.vfs i).num →
    (port.vfs i).num = (port.vfs j).num → i = j) ∧
  vlan_total port.vfs port.num_vfs ≤ K.MAX_PF_VLANS ∧
  mac_total port.vfs port.num_vfs ≤ K.MAX_PF_MACS

/-- Well-formedness of the store: every port of the table is well-formed. -/
def store_wf (K : consts) (conf : sriov_conf_t) : Prop :=
  ∀ p, p < conf.num_ports → port_wf K (conf.ports p)

/-- The descriptor passes checks 1 to 4 of the validation sequence on the store: it names
a device and an id of at least 1, the device is port `p` of the table, the scan of the
port ends without meeting the id and leaves the locals `st`, the slot chosen is within
the capacity and the id is at most 31. -/
structure passes_checks_1_4 (K : consts) (conf : sriov_conf_t) (vfc : vf_config_t)
    (pciid : String) (p : Nat) (st : scan_t) : Prop where
  has_pciid : vfc.pciid = some pciid
  id_min : 1 ≤ vfc.vfid
  port_found : find_port conf pciid conf.num_ports 0 = some p
  id_free : scan_vfs (conf.ports p) vfc.vfid (conf.ports p).num_vfs 0 scan_init = some st
  slot_in_range : vidx_of (conf.ports p) st < K.MAX_VFS
  id_max : vfc.vfid ≤ 31

/-- The descriptor passes checks 5 to 8: its id is below the number of configured VFs,
its VLAN and MAC counts are within the per-VF caps and, added to the totals `st` of the
port, within the per-port caps, and it does not combine `strip_stag` with several VLANs. -/
structure passes_checks_5_8 (K : consts) (port : sriov_port_s) (vfc : vf_config_t)
    (st : scan_t) : Prop where
  id_configured : vfc.vfid < port.nvfs_config
  vf_vlans : vfc.nvlans ≤ K.MAX_VF_VLANS
  pf_vlans : vfc.nvlans + st.tot_vlans ≤ K.MAX_PF_VLANS
  pf_macs : vfc.nmacs + st.tot_macs ≤ K.MAX_PF_MACS
  vf_macs : vfc.nmacs ≤ K.MAX_VF_MACS
  strip_single : ¬ (vfc.strip_stag ≠ 0 ∧ vfc.nvlans > 1)

/-- The descriptor passes checks 9 to 12: the checks of the VLAN and MAC arrays report
nothing, the traffic class check is not applied or succeeds, and neither hook command
holds a semicolon. -/
structure passes_checks_9_12 (K : consts) (E : env_t) (conf : sriov_conf_t)
    (vfc : vf_config_t) : Prop where
  vlans_ok : check_vlans vfc.vlans = none
  macs_ok : check_macs E vfc.macs = none
  tcs_ok : tc_gate K conf = 0 ∨ check_tcs K conf vfc.tcpctgs ≠ 0
  start_ok : has_semicolon vfc.start_cb = false
  stop_ok : has_semicolon vfc.stop_cb = false

/-- The file of the descriptor `fn` is retired: the rename succeeds when `delete_keep` is
set, the unlink succeeds otherwise. -/
def file_retired (K : consts) (E : env_t) (parms : parms_t) (fn : String) : Prop :=
  ¬ (parms.delete_keep ≠ 0 ∧ E.rename fn (snprintf K.BUF_1K (fn ++ "-")) < 0) ∧
  ¬ (parms.delete_keep = 0 ∧ E.unlink fn < 0)

/-! ## Example data

A store with the single port `0000:01:00.0`, configured for 4 VFs and holding none, and
a few descriptors; they are the concrete inputs at which the results are instantiated. -/

/-- Example values of the constants. -/
def K0 : consts :=
  { MAX_PORTS := 16, MAX_VFS := 32, MAX_TCS := 8, MAX_VF_VLANS := 64, MAX_VF_MACS := 64,
    MAX_PF_VLANS := 64, MAX_PF_MACS := 128, BUF_1K := 1024, ADDED := 1, DELETED := -1,
    PF_LOOPBACK := 1, PF_OVERSUB := 2, PFF_LOOP_BACK := 1, PFF_VF_OVERSUB := 2 }

/-- An empty slot. -/
def hole_vf : vf_s := { zero_vf with num := -1 }

/-- The example port: `0000:01:00.0`, 4 configured VFs, no VF yet. -/
def port0 : sriov_port_s :=
  { name := "port-0", pciid := "0000:01:00.0", last_updated := 1, mtu := 9000, flags := 0,
    nvfs_config := 4, num_mirrors := 0, num_vfs := 0, vfs := fun _ => hole_vf }

/-- The example store: one port. -/
def conf0 : sriov_conf_t :=
  { num_ports := 1, flags := 0, ports := fun _ => port0, vfs := fun _ => hole_vf }

/-- A descriptor for the example port with the given id, VLAN ids and MAC strings. -/
def mk_vfc (vfid : Int) (vlans : List Int) (macs : List String) : vf_config_t :=
  { name := "vf", pciid := some "0000:01:00.0", vfid := vfid, owner := 0, strip_stag := 0,
    allow_bcast := 1, allow_mcast := 1, allow_un_ucast := 0, rate := 0, start_cb := none,
    stop_cb := none, link_status := "auto", vlans := vlans, macs := macs,
    tcpctgs := [50, 0, 0, 0, 0, 0, 0, 0] }

/-- The descriptor of the basic admission scenario. -/
def vfc3 : vf_config_t := mk_vfc 3 [10, 20] ["aa:bb:cc:dd:ee:ff"]

/-- The descriptor files of the examples. -/
def example_files (fn : String) : Except String vf_config_t :=
  if fn = "vf3.json" then Except.ok vfc3
  else if fn = "vf3b.json" then Except.ok (mk_vfc 3 [30] ["aa:bb:cc:dd:ee:01"])
  else if fn = "vf1.json" then Except.ok (mk_vfc 1 [11] ["aa:bb:cc:dd:ee:11"])
  else if fn = "vf2.json" then Except.ok (mk_vfc 2 [12] ["aa:bb:cc:dd:ee:12"])
  else if fn = "vf4.json" then Except.ok (mk_vfc 4 [14] ["aa:bb:cc:dd:ee:14"])
  else if fn = "vf32.json" then Except.ok (mk_vfc 32 [15] ["aa:bb:cc:dd:ee:15"])
  else if fn = "vlan_last.json" then Except.ok (mk_vfc 3 [10, 5000] ["aa:bb:cc:dd:ee:ff"])
  else if fn = "vlan_dup.json" then Except.ok (mk_vfc 3 [10, 20, 10] ["aa:bb:cc:dd:ee:ff"])
  else if fn = "vlan_range_dup.json" then Except.ok (mk_vfc 3 [4096, 7, 7] ["aa:bb:cc:dd:ee:ff"])
  else if fn = "vlan_zero.json" then Except.ok (mk_vfc 3 [0] ["aa:bb:cc:dd:ee:ff"])
  else if fn = "mac_last.json" then Except.ok (mk_vfc 3 [10] ["aa:bb:cc:dd:ee:ff", "not-a-mac"])
  else Except.error "No such file or directory"

/-- A stand-in for `is_valid_mac_str` in the examples: 17 characters, each a hexadecimal
digit or a colon. -/
def example_mac_check (s : String) : Int :=
  if s.length = 17 ∧ s.data.all (fun c => c.isDigit || c = ':' || ('a' ≤ c ∧ c ≤ 'f')) then 0
  else -1

/-- The example environment: the files above, file system calls that succeed. -/
def E0 : env_t :=
  { read_config := example_files, is_valid_mac_str := example_mac_check,
    rename := fun _ _ => 0, unlink := fun _ => 0, strerror := "Permission denied" }

/-- Example run-time parameters: deleted descriptors are unlinked. -/
def parms0 : parms_t := { config_dir := "/var/lib/vfd/config", delete_keep := 0, forreal := 1 }

/-- The example store after VF 3 has been admitted. -/
def conf1 : sriov_conf_t := (vfd_add_vf K0 E0 conf0 (some "vf3.json")).conf

/-- The example store after VFs 1, 2 and 3 have been admitted, in this order. -/
def conf123 : sriov_conf_t :=
  (vfd_add_vf K0 E0
    (vfd_add_vf K0 E0 (vfd_add_vf K0 E0 conf0 (some "vf1.json")).conf (some "vf2.json")).conf
    (some "vf3.json")).conf

/-- The store `conf123` after `vfd_del_vf` has marked VF 2 for deletion. -/
def conf_marked : sriov_conf_t := (vfd_del_vf K0 E0 parms0 conf123 (some "vf2.json")).conf

/-- The store `conf_marked` once the slot of VF 2 (slot 1) has been cleared to a hole. -/
def conf_freed : sriov_conf_t :=
  { conf_marked with
    ports := Function.update conf_marked.ports 0
      { conf_marked.ports 0 with
        vfs := Function.update (conf_marked.ports 0).vfs 1 hole_vf } }

/-! ## The request dispatcher (`vfd_req_if`)

A request is taken as `vfd_read_request` returns it. The calls of `vfd_response` made while
requests are handled are recorded in order, each with the arguments passed, and so are
the file names passed to `vfd_add_vf` and `vfd_del_vf`. -/

/-- The request types (`RT_*`); `RT_OTHER` stands for any value that the `switch` of
line 815 does not name. -/
inductive rtype_t where
  | RT_PING
  | RT_ADD
  | RT_DEL
  | RT_DUMP
  | RT_SHOW
  | RT_VERBOSE
  | RT_OTHER
  deriving DecidableEq

/-- A request block (`req_t`); `resource` and `resp_fifo` are nil when the message did not
carry them. -/
structure req_t where
  rtype : rtype_t
  resource : Option String
  resp_fifo : Option String
  log_level : Int

/-- One call `vfd_response( rpipe, state, msg )`. -/
structure response_t where
  rpipe : Option String
  state : Int
  msg : String
  deriving DecidableEq

/-- The collaborators of the dispatcher that live in other files: the reconciliation call
`vfd_update_nic` (its return code and the store it leaves), `gen_stats` (nil when no
text could be generated) and the global `version`. -/
structure rif_env_t where
  vfd_update_nic : sriov_conf_t → Int × sriov_conf_t
  gen_stats : sriov_conf_t → Int → Option String
  version : String

/-- What `vfd_req_if` carries from one pass of its loop to the next: the store, the locals
`rc` and `req_handled`, and the record of the calls made so far. -/
structure rif_state where
  conf : sriov_conf_t
  rc : Int
  req_handled : Int
  responses : List response_t
  handed : List (Option String)

/-- Line 669: the text of the `state` field of a reply, `state ? "ERROR" : "OK"`. -/
def state_text (state : Int) : String := if state ≠ 0 then "ERROR" else "OK"

/-- Lines 822-826 and 852-856: the file name built in `mbuf`, the resource itself when it
holds a slant, the configuration directory joined with it otherwise. -/
def resolve_path (parms : parms_t) (resource : String) : String :=
  if resource.data.contains '/' then resource
  else snprintf 2048 (parms.config_dir ++ "/" ++ resource)

/-- The state after one more call `vfd_response( req->resp_fifo, state, msg )`. -/
def respond (s : rif_state) (req : req_t) (state : Int) (msg : String) : rif_state :=
  { s with responses := s.responses ++ [{ rpipe := req.resp_fifo, state := state, msg := msg }] }

/-- Lines 821-849, the case `RT_ADD`. The name built in `mbuf` (lines 822-826) is written
to the log only; the call of line 829 passes `req->resource`. `none` stands for the
dereference of a nil `req->resource` by `strchr`. -/
def handle_add (K : consts) (E : env_t) (R : rif_env_t) (s : rif_state) (req : req_t) :
    Option rif_state :=
  match req.resource with
  | none => none
  | some res =>
    if (vfd_add_vf K E s.conf req.resource).rc ≠ 0 then
      if (R.vfd_update_nic (vfd_add_vf K E s.conf req.resource).conf).1 = 0 then
        some (respond
          { s with conf := (R.vfd_update_nic (vfd_add_vf K E s.conf req.resource).conf).2,
                   handed := s.handed ++ [req.resource] }
          req 0 (snprintf 2048 ("vf added successfully: " ++ res)))
      else
        some (respond
          { s with conf := (R.vfd_update_nic (vfd_add_vf K E s.conf req.resource).conf).2,
                   handed := s.handed ++ [req.resource] }
          req 0 (snprintf 2048 ("vf add failed: unable to configure the vf for: " ++ res)))
    else
      some (respond
        { s with conf := (vfd_add_vf K E s.conf req.resource).conf,
                 handed := s.handed ++ [req.resource] }
        req 1 (snprintf 2048 ("unable to add vf: " ++ res ++ ": "
          ++ (vfd_add_vf K E s.conf req.resource).reason.getD "(null)")))

/-- Lines 851-873, the case `RT_DEL`, with the conventions of `handle_add`. When the
reconciliation call fails no call of `vfd_response` is made (line 864). -/
def handle_del (K : consts) (E : env_t) (R : rif_env_t) (parms : parms_t) (s : rif_state)
    (req : req_t) : Option rif_state :=
  match req.resource with
  | none => none
  | some res =>
    if (vfd_del_vf K E parms s.conf req.resource).rc ≠ 0 then
      if (R.vfd_update_nic (vfd_del_vf K E parms s.conf req.resource).conf).1 = 0 then
        some (respond
          { s with conf := (R.vfd_update_nic (vfd_del_vf K E parms s.conf req.resource).conf).2,
                   handed := s.handed ++ [req.resource] }
          req 0 (snprintf 2048 ("vf deleted successfully: " ++ res)))
      else
        some
          { s with conf := (R.vfd_update_nic (vfd_del_vf K E parms s.conf req.resource).conf).2,
                   handed := s.handed ++ [req.resource] }
    else
      some (respond
        { s with conf := (vfd_del_vf K E parms s.conf req.resource).conf,
                 handed := s.handed ++ [req.resource] }
        req 1 (snprintf 2048 ("unable to delete vf: " ++ res ++ ": "
          ++ (vfd_del_vf K E parms s.conf req.resource).reason.getD "(null)")))

/-- The test `req->resource != NULL && isdigit( *req->resource )` of line 891. -/
def starts_with_digit (resource : Option String) : Bool :=
  match resource with
  | none => false
  | some r =>
    match r.data.head? with
    | some c => c.isDigit
    | none => false

/-- Lines 881-905, the case `RT_SHOW`. -/
def handle_show (R : rif_env_t) (parms : parms_t) (s : rif_state) (req : req_t) : rif_state :=
  if parms.forreal ≠ 0 then
    if req.resource = some "pfs" then
      match R.gen_stats s.conf 1 with
      | some buf => respond s req 0 buf
      | none => respond s req 1 "unable to generate pf stats"
    else if starts_with_digit req.resource then
      respond s req 1
        "show of specific PF is not supported in this release; use \x27all\x27 or \x27pfs\x27."
    else
      match R.gen_stats s.conf 0 with
      | some buf => respond s req 0 buf
      | none => respond s req 1 "unable to generate stats"
  else
    respond s req 1 "VFD running in \x27no harm\x27 (-n) mode; no stats available."

/-- Lines 907-920, the case `RT_VERBOSE`; the local `rc` is set on a negative level and is
passed as the state of the reply. -/
def handle_verbose (s : rif_state) (req : req_t) : rif_state :=
  if req.log_level ≥ 0 then
    respond s req s.rc (snprintf 2048 ("verbose level changed to: " ++ fmt_d req.log_level))
  else
    respond { s with rc := 1 } req 1
      (snprintf 2048 ("loglevel out of range: " ++ fmt_d req.log_level))

/-- Lines 815-926: the `switch` on the type of the request. -/
def handle_request (K : consts) (E : env_t) (R : rif_env_t) (parms : parms_t) (s : rif_state)
    (req : req_t) : Option rif_state :=
  match req.rtype with
  | rtype_t.RT_PING => some (respond s req 0 (snprintf 2048 ("pong: " ++ R.version)))
  | rtype_t.RT_ADD => handle_add K E R s req
  | rtype_t.RT_DEL => handle_del K E R parms s req
  | rtype_t.RT_DUMP => some (respond s req 0 "dump captured in the log")
  | rtype_t.RT_SHOW => some (handle_show R parms s req)
  | rtype_t.RT_VERBOSE => some (handle_verbose s req)
  | rtype_t.RT_OTHER => some (respond s req 1 "dummy request handler: urrecognised request.")

/-- Lines 811-929: one pass of the loop body, `rd` being what `vfd_read_request` returned
(nil when there was no request). -/
def req_if_pass (K : consts) (E : env_t) (R : rif_env_t) (parms : parms_t) (s : rif_state)
    (rd : Option req_t) : Option rif_state :=
  match rd with
  | none => some s
  | some req =>
    match handle_request K E R parms { s with req_handled := 1 } req with
    | none => none
    | some s2 => some s2

/-- The locals of `vfd_req_if` at entry (lines 801-803) around the store passed in. -/
def rif_init (conf : sriov_conf_t) : rif_state :=
  { conf := conf, rc := 0, req_handled := 0, responses := [], handed := [] }

/-- The loop of `vfd_req_if` (lines 810-933) run over the successive results of
`vfd_read_request`: a single result when `forever` is clear, the results read so far
when it is set. -/
def req_if_loop (K : consts) (E : env_t) (R : rif_env_t) (parms : parms_t) :
    List (Option req_t) → rif_state → Option rif_state
  | [], s => some s
  | rd :: rest, s =>
    match req_if_pass K E R parms s rd with
    | none => none
    | some s2 => req_if_loop K E R parms rest s2

/-- The function `vfd_req_if` (lines 797-936) over the results `reads` of
`vfd_read_request`. -/
def vfd_req_if (K : consts) (E : env_t) (R : rif_env_t) (parms : parms_t) (conf : sriov_conf_t)
    (reads : List (Option req_t)) : Option rif_state :=
  req_if_loop K E R parms reads (rif_init conf)

/-! ## Example data for the traffic classes, the hooks, the removal and the dispatcher -/

/-- Example values of the constants in which the oversubscription flag is bit 0. -/
def K1 : consts :=
  { K0 with PF_LOOPBACK := 2, PF_OVERSUB := 1, PFF_LOOP_BACK := 2, PFF_VF_OVERSUB := 1 }

/-- A descriptor for the example port that requests `pct` per cent of traffic class 0. -/
def mk_tc_vfc (vfid : Int) (pct : Nat) : vf_config_t :=
  { mk_vfc vfid [10] ["aa:bb:cc:dd:ee:ff"] with tcpctgs := [pct, 0, 0, 0, 0, 0, 0, 0] }

/-- A descriptor for the example port whose start hook holds a semicolon. -/
def vfc_hook : vf_config_t :=
  { mk_vfc 1 [10] ["aa:bb:cc:dd:ee:ff"] with start_cb := some "/bin/true; /bin/sh" }

/-- A descriptor that names a device which the example store does not hold. -/
def vfc_other : vf_config_t :=
  { mk_vfc 2 [12] ["aa:bb:cc:dd:ee:12"] with pciid := some "0000:02:00.0" }

/-- More descriptor files. -/
def more_files (fn : String) : Except String vf_config_t :=
  if fn = "tc60a.json" then Except.ok (mk_tc_vfc 1 60)
  else if fn = "tc60b.json" then Except.ok (mk_tc_vfc 2 60)
  else if fn = "tc150.json" then Except.ok (mk_tc_vfc 1 150)
  else if fn = "hook.json" then Except.ok vfc_hook
  else if fn = "other.json" then Except.ok vfc_other
  else if fn = "/var/lib/vfd/config/vf3.json" then Except.ok vfc3
  else example_files fn

/-- The environment of the further examples: file system calls succeed. -/
def E1 : env_t := { E0 with read_config := more_files }

/-- An environment in which descriptor files cannot be unlinked. -/
def E_ro : env_t := { E0 with unlink := fun _ => -1 }

/-- An environment in which the descriptor of VF 3 is found in the configuration
directory only. -/
def E_dir : env_t :=
  { E0 with
    read_config := fun fn =>
      if fn = "/var/lib/vfd/config/vf3.json" then Except.ok vfc3
      else Except.error "No such file or directory" }

/-- The example port with the oversubscription flag of `K1` set. -/
def port_oversub : sriov_port_s := { port0 with flags := 1 }

/-- The example store with its port in oversubscription mode (for `K1`). -/
def conf_oversub : sriov_conf_t := { conf0 with ports := fun _ => port_oversub }

/-- A reconciliation layer that always reports success, and trivial statistics. -/
def R0 : rif_env_t :=
  { vfd_update_nic := fun c => (0, c), gen_stats := fun _ _ => some "stats", version := "v1" }

/-- A reconciliation layer that reports a failure. -/
def R_fail : rif_env_t := { R0 with vfd_update_nic := fun c => (1, c) }

/-- The request to add the descriptor `vf3.json`. -/
def req_add3 : req_t :=
  { rtype := rtype_t.RT_ADD, resource := some "vf3.json", resp_fifo := some "/tmp/resp",
    log_level := 0 }

/-- The request to delete the descriptor `vf3.json`. -/
def req_del3 : req_t :=
  { rtype := rtype_t.RT_DEL, resource := some "vf3.json", resp_fifo := some "/tmp/resp",
    log_level := 0 }

/-! ## The response writer (`vfd_write`, `vfd_response`)

The system call `write` is an oracle `w`: `w k` is what the call number `k` (from 0)
returns. -/

/-- What a call of `vfd_write` leaves: its return code, the number of calls of `write` it
made and the number of bytes that were accepted (`len - n2send`). -/
structure write_t where
  rc : Int
  attempts : Nat
  sent : Int
  deriving DecidableEq

/-- Lines 619-637: the loop of `vfd_write` entered with `n2send` bytes left, `tries` tries
left and `k` calls of `write` made, run for at most `fuel` passes; `none` when the passes
are used up before the loop ends. -/
def write_loop (w : Nat → Int) (len : Int) : Nat → Int → Int → Nat → Option write_t
  | 0, n2send, tries, k =>
    if n2send > 0 ∧ tries > 0 then none
    else some { rc := -1, attempts := k, sent := len - n2send }
  | fuel + 1, n2send, tries, k =>
    if n2send > 0 ∧ tries > 0 then
      if w k < 0 then some { rc := -1, attempts := k + 1, sent := len - n2send }
      else if w k = n2send then some { rc := len, attempts := k + 1, sent := len }
      else if w k > 0 then write_loop w len fuel (n2send - w k) tries (k + 1)
      else write_loop w len fuel n2send (tries - 1) (k + 1)
    else some { rc := -1, attempts := k, sent := len - n2send }

/-- The function `vfd_write` (lines 613-641) on a buffer of `len` bytes. Each pass of the
loop lowers `n2send` or `tries`, so `len + 5` passes are enough (`vfd_write_total`). -/
def vfd_write (w : Nat → Int) (len : Int) : Option write_t :=
  write_loop w len (len.toNat + 5) len 5 0

/-- Sum of the results of the first `n` calls of `write`. -/
def accepted (w : Nat → Int) : Nat → Int
  | 0 => 0
  | n + 1 => accepted w n + w n

/-- Number of calls among the first `n` calls of `write` that returned 0. -/
def zeros (w : Nat → Int) : Nat → Int
  | 0 => 0
  | n + 1 => zeros w n + (if w n = 0 then 1 else 0)

/-- The oracle once its first `n` results have been used. -/
def shift (w : Nat → Int) (n : Nat) : Nat → Int := fun k => w (k + n)

/-- The bytes of `buf` that reached the pipe in a call of `vfd_write` that left `r`. -/
def delivered (buf : String) (r : write_t) : String := String.mk (buf.data.take r.sent.toNat)

/-- Line 669: the opening of a reply. -/
def reply_opening (state : Int) : String :=
  "\x7b \"state\": \"" ++ state_text state ++ "\", \"msg\": \""

/-- Line 672: the terminator of a reply. -/
def reply_terminator : String := "\" \x7d\n"

/-- What a call of `vfd_response` leaves: whether the pipe was opened, the bytes that
reached it and the number of calls of `write` made. -/
structure resp_t where
  opened : Bool
  written : String
  writes : Nat
  deriving DecidableEq

/-- Lines 670-676 once the opening has been written: the message, then the terminator. -/
def response_body (K : consts) (w : Nat → Int) (msg : Option String) (sofar : String)
    (used : Nat) : Option resp_t :=
  match msg with
  | none =>
    match vfd_write (shift w used) (snprintf K.BUF_1K reply_terminator).length with
    | none => none
    | some r3 =>
      some { opened := true,
             written := sofar ++ delivered (snprintf K.BUF_1K reply_terminator) r3,
             writes := used + r3.attempts }
  | some m =>
    match vfd_write (shift w used) m.length with
    | none => none
    | some r2 =>
      if r2.rc > 0 then
        match vfd_write (shift w (used + r2.attempts))
            (snprintf K.BUF_1K reply_terminator).length with
        | none => none
        | some r3 =>
          some { opened := true,
                 written := sofar ++ delivered m r2
                   ++ delivered (snprintf K.BUF_1K reply_terminator) r3,
                 writes := used + r2.attempts + r3.attempts }
      else
        some { opened := true, written := sofar ++ delivered m r2,
               writes := used + r2.attempts }

/-- The function `vfd_response` (lines 650-680); `open_rc` is what `open` returns for the
pipe and `msg` is nil for a nil pointer. -/
def vfd_response (K : consts) (open_rc : Int) (w : Nat → Int) (rpipe : Option String)
    (state : Int) (msg : Option String) : Option resp_t :=
  match rpipe with
  | none => some { opened := false, written := "", writes := 0 }
  | some _ =>
    if open_rc < 0 then some { opened := false, written := "", writes := 0 }
    else
      match vfd_write w (snprintf K.BUF_1K (reply_opening state)).length with
      | none => none
      | some r1 =>
        if r1.rc > 0 then
          response_body K w msg (delivered (snprintf K.BUF_1K (reply_opening state)) r1)
            r1.attempts
        else
          some { opened := true,
                 written := delivered (snprintf K.BUF_1K (reply_opening state)) r1,
                 writes := r1.attempts }

/-! ## The request reader (`vfd_read_request`) -/

/-- What the json accessors yield for one message: the strings found at `action`,
`params.filename`, `params.resource` and `params.r_fifo` (nil when missing) and the value
at `params.loglevel` (nil when `jw_missing`). -/
structure jblob_t where
  action : Option String
  filename : Option String
  resource : Option String
  r_fifo : Option String
  loglevel : Option Int

/-- Lines 738-771: the `switch` on the first character of the action; `none` is the
`default` case, which returns no request. The terminating NUL of an empty action falls in
the default case. -/
def action_rtype (stuff : String) : Option rtype_t :=
  match stuff.data.head? with
  | none => none
  | some c =>
    if c = 'a' ∨ c = 'A' then some rtype_t.RT_ADD
    else if c = 'd' ∨ c = 'D' then
      if stuff = "dump" then some rtype_t.RT_DUMP else some rtype_t.RT_DEL
    else if c = 'p' then some rtype_t.RT_PING
    else if c = 's' ∨ c = 'S' then some rtype_t.RT_SHOW
    else if c = 'v' then some rtype_t.RT_VERBOSE
    else none

/-- The function `vfd_read_request` (lines 701-790) on the raw buffer `rbuf` read from the
fifo, `jw_new` being the json parser (nil when the buffer cannot be parsed). -/
def vfd_read_request (jw_new : String → Option jblob_t) (rbuf : String) : Option req_t :=
  if rbuf = "" then none
  else
    match jw_new rbuf with
    | none => none
    | some jb =>
      match jb.action with
      | none => none
      | some stuff =>
        match action_rtype stuff with
        | none => none
        | some t =>
          some { rtype := t,
                 resource := (match jb.filename with
                              | some f => some f
                              | none => jb.resource),
                 resp_fifo := jb.r_fifo,
                 log_level := jb.loglevel.getD 0 }

/-! ## The population of the port table (`vfd_add_ports`) -/

/-- The sizes of the character arrays `name` and `pciid` of a port (`sizeof( port->name )`,
`sizeof( port->pciid )`); their declaration is not among the sources. -/
structure port_sizes_t where
  name : Nat
  pciid : Nat

/-- What the local pointer `port` designates. Line 89 writes through it before line 91
assigns it, so on the first pass of the loop it holds whatever the stack held: the write
faults, or lands outside the store, or lands on port `j` of the table. -/
inductive port_ptr_t where
  | fault
  | outside
  | at (j : Nat)

/-- The store together with the static flag `called` of `vfd_add_ports`. -/
structure ports_state where
  called : Bool
  conf : sriov_conf_t

/-- Line 89: `port->flags = 0` through the pointer `ptr`; `none` when the write faults. -/
def clear_flags (conf : sriov_conf_t) (ptr : port_ptr_t) : Option sriov_conf_t :=
  match ptr with
  | port_ptr_t.fault => none
  | port_ptr_t.outside => some conf
  | port_ptr_t.at j =>
    some { conf with ports := Function.update conf.ports j { conf.ports j with flags := 0 } }

/-- Lines 92-105: the fields written into the port `port` for the entry number `i` of the
parameters. -/
def fill_port (K : consts) (Z : port_sizes_t) (port : sriov_port_s) (i : Nat) (pc : pciid_t) :
    sriov_port_s :=
  { port with
    last_updated := K.ADDED
    name := snprintf Z.name ("port-" ++ fmt_d i)
    pciid := snprintf Z.pciid pc.id
    mtu := pc.mtu
    flags :=
      (if Nat.land pc.flags K.PFF_VF_OVERSUB ≠ 0 then
        Nat.lor (if Nat.land pc.flags K.PFF_LOOP_BACK ≠ 0 then Nat.lor port.flags K.PF_LOOPBACK
                 else port.flags) K.PF_OVERSUB
       else
        (if Nat.land pc.flags K.PFF_LOOP_BACK ≠ 0 then Nat.lor port.flags K.PF_LOOPBACK
         else port.flags))
    num_mirrors := 0
    num_vfs := 0 }

/-- Lines 88-108: the loop over the entries `i, i+1, ...` of the parameters (`pidx` equals
`i` throughout), `n` more passes, `ptr` being the value of `port` at the top of the pass. -/
def add_ports_loop (K : consts) (Z : port_sizes_t) (parms : parms_t) :
    Nat → Nat → port_ptr_t → sriov_conf_t → Option sriov_conf_t
  | 0, _, _, conf => some conf
  | n + 1, i, ptr, conf =>
    match clear_flags conf ptr with
    | none => none
    | some c1 =>
      add_ports_loop K Z parms n (i + 1) (port_ptr_t.at i)
        { c1 with
          ports := Function.update c1.ports i
            (fill_port K Z (c1.ports i) i
              (parms.pciids.getD i { id := "", mtu := 0, flags := 0 })) }

/-- The function `vfd_add_ports` (lines 78-111); `ptr` is the initial value of the local
`port`. `none` when the stray write of the first pass faults. -/
def vfd_add_ports (K : consts) (Z : port_sizes_t) (parms : parms_t) (ptr : port_ptr_t)
    (st : ports_state) : Option ports_state :=
  if st.called then some st
  else
    match add_ports_loop K Z parms (min K.MAX_PORTS parms.pciids.length) 0 ptr st.conf with
    | none => none
    | some c =>
      some { called := true,
             conf := { c with num_ports := min K.MAX_PORTS parms.pciids.length } }

/-! ## Example data for the writer, the reader and the port table -/

/-- The oracle of `write` that returns the numbers of the list, then 0. -/
def wseq (l : List Int) : Nat → Int := fun k => l.getD k 0

/-- A json layer that finds the action `act` and the resource `vf3.json` in every
message. -/
def jw_action (act : String) : String → Option jblob_t :=
  fun _ =>
    some { action := some act, filename := none, resource := some "vf3.json",
           r_fifo := some "/tmp/resp", loglevel := none }

/-- A request to set the verbosity to `lvl`. -/
def req_verbose (lvl : Int) : req_t :=
  { rtype := rtype_t.RT_VERBOSE, resource := none, resp_fifo := some "/tmp/resp",
    log_level := lvl }

/-- Example sizes of the character arrays of a port. -/
def Z0 : port_sizes_t := { name := 64, pciid := 64 }

/-- Parameters that name two devices. -/
def parms2 : parms_t :=
  { parms0 with
    pciids := [{ id := "0000:01:00.0", mtu := 9000, flags := 0 },
               { id := "0000:01:00.1", mtu := 1500, flags := 0 }] }

/-- Parameters that name another device. -/
def parms3 : parms_t :=
  { parms0 with pciids := [{ id := "0000:07:00.0", mtu := 1500, flags := 0 }] }

/-- A store with an empty port table, before `vfd_add_ports` has been called. -/
def ports_init : ports_state :=
  { called := false, conf := { conf0 with num_ports := 0 } }

/-! ## The copy of the MAC strings into the slot

`copy_macs` holds a copied string whole, whatever its length. In the program `macs[i]` is
an array of characters inside the slot; `strcpy_excess` measures what a copy writes
beyond it. -/

/-- The descriptor of the file `vf4.json`: id 4, one VLAN id, one MAC string. -/
def vfc4 : vf_config_t := mk_vfc 4 [14] ["aa:bb:cc:dd:ee:14"]

/-! ## The loops of the scan -/

theorem find_port_some (conf : sriov_conf_t) (pciid : String) :
    ∀ (n i p : Nat), find_port conf pciid n i = some p →
      i ≤ p ∧ p < i + n ∧ (conf.ports p).pciid = pciid ∧
      ∀ q, i ≤ q → q < p → (conf.ports q).pciid ≠ pciid := by
  intro n
  induction n with
  | zero => intro i p h; simp [find_port] at h
  | succ n ih =>
    intro i p h
    unfold find_port at h
    by_cases hc : (conf.ports i).pciid = pciid
    · rw [if_pos hc] at h
      have hp : i = p := by simpa using h
      subst hp
      exact ⟨le_refl _, by omega, hc, fun q h1 h2 => by omega⟩
    · rw [if_neg hc] at h
      obtain ⟨h1, h2, h3, h4⟩ := ih (i + 1) p h
      refine ⟨by omega, by omega, h3, ?_⟩
      intro q hq1 hq2
      by_cases hqi : q = i
      · subst hqi; exact hc
      · exact h4 q (by omega) hq2

theorem find_port_congr (conf conf2 : sriov_conf_t) (pciid : String)
    (h : ∀ q, (conf2.ports q).pciid = (conf.ports q).pciid) :
    ∀ (n i : Nat), find_port conf2 pciid n i = find_port conf pciid n i := by
  intro n
  induction n with
  | zero => intro i; rfl
  | succ n ih => intro i; simp only [find_port, h, ih]

theorem vlan_total_update_ge (vfs : Nat → vf_s) (k : Nat) (v : vf_s) :
    ∀ n, n ≤ k → vlan_total (Function.update vfs k v) n = vlan_total vfs n := by
  intro n
  induction n with
  | zero => intro _; rfl
  | succ n ih =>
    intro h
    have hne : n ≠ k := by omega
    simp only [vlan_total, ih (by omega), Function.update_noteq hne]

theorem vlan_total_update_lt (vfs : Nat → vf_s) (k : Nat) (v : vf_s) :
    ∀ n, k < n →
      vlan_total (Function.update vfs k v) n = vlan_total vfs n - vlans_of (vfs k) + vlans_of v := by
  intro n
  induction n with
  | zero => intro h; omega
  | succ n ih =>
    intro h
    by_cases hk : k = n
    · subst hk
      simp only [vlan_total, vlan_total_update_ge vfs k v k (le_refl _), Function.update_same]
      omega
    · have hne : n ≠ k := fun e => hk e.symm
      simp only [vlan_total, ih (by omega), Function.update_noteq hne]
      omega

theorem mac_total_update_ge (vfs : Nat → vf_s) (k : Nat) (v : vf_s) :
    ∀ n, n ≤ k → mac_total (Function.update vfs k v) n = mac_total vfs n := by
  intro n
  induction n with
  | zero => intro _; rfl
  | succ n ih =>
    intro h
    have hne : n ≠ k := by omega
    simp only [mac_total, ih (by omega), Function.update_noteq hne]

theorem mac_total_update_lt (vfs : Nat → vf_s) (k : Nat) (v : vf_s) :
    ∀ n, k < n →
      mac_total (Function.update vfs k v) n = mac_total vfs n - macs_of (vfs k) + macs_of v := by
  intro n
  induction n with
  | zero => intro h; omega
  | succ n ih =>
    intro h
    by_cases hk : k = n
    · subst hk
      simp only [mac_total, mac_total_update_ge vfs k v k (le_refl _), Function.update_same]
      omega
    · have hne : n ≠ k := fun e => hk e.symm
      simp only [mac_total, ih (by omega), Function.update_noteq hne]
      omega

/-- What a scan that runs to its end has established: the id was not met, the totals
have grown by the contributions of the slots visited, and `hole` is the first hole met
unless one was known before. -/
theorem scan_vfs_some (port : sriov_port_s) (vfid : Int) :
    ∀ (n i : Nat) (st st2 : scan_t), scan_vfs port vfid n i st = some st2 →
      (∀ j, i ≤ j → j < i + n → (port.vfs j).num < 0 ∨ (port.vfs j).num ≠ vfid) ∧
      st2.tot_vlans = st.tot_vlans + (vlan_total port.vfs (i + n) - vlan_total port.vfs i) ∧
      st2.tot_macs = st.tot_macs + (mac_total port.vfs (i + n) - mac_total port.vfs i) ∧
      (∀ h, st.hole = some h → st2.hole = some h) ∧
      (st.hole = none →
        (st2.hole = none ∧ ∀ j, i ≤ j → j < i + n → ¬ (port.vfs j).num < 0) ∨
        (∃ h, st2.hole = some h ∧ i ≤ h ∧ h < i + n ∧ (port.vfs h).num < 0 ∧
          ∀ j, i ≤ j → j < h → ¬ (port.vfs j).num < 0)) := by
  intro n
  induction n with
  | zero =>
    intro i st st2 h
    simp only [scan_vfs, Option.some.injEq] at h
    subst h
    refine ⟨fun j h1 h2 => by omega, by simp, by simp, fun h hh => hh, fun hh => ?_⟩
    exact Or.inl ⟨hh, fun j h1 h2 => by omega⟩
  | succ n ih =>
    intro i st st2 h
    unfold scan_vfs at h
    have hidx : i + (n + 1) = i + 1 + n := by omega
    by_cases hneg : (port.vfs i).num < 0
    · rw [if_pos hneg] at h
      obtain ⟨a1, a2, a3, a4, a5⟩ := ih (i + 1) _ st2 h
      have hv : vlan_total port.vfs (i + 1) = vlan_total port.vfs i := by
        simp [vlan_total, vlans_of, hneg]
      have hm : mac_total port.vfs (i + 1) = mac_total port.vfs i := by
        simp [mac_total, macs_of, hneg]
      refine ⟨?_, ?_, ?_, ?_, ?_⟩
      · intro j h1 h2
        by_cases hji : j = i
        · subst hji; exact Or.inl hneg
        · exact a1 j (by omega) (by omega)
      · rw [hidx, a2, hv]; split <;> rfl
      · rw [hidx, a3, hm]; split <;> rfl
      · intro h0 hh
        apply a4
        simp [hh]
      · intro hh
        right
        refine ⟨i, a4 i (by simp [hh]), le_refl _, by omega, hneg, fun j h1 h2 => by omega⟩
    · rw [if_neg hneg] at h
      by_cases heq : (port.vfs i).num = vfid
      · rw [if_pos heq] at h; exact absurd h (by simp)
      · rw [if_neg heq] at h
        obtain ⟨a1, a2, a3, a4, a5⟩ := ih (i + 1) _ st2 h
        have hv : vlan_total port.vfs (i + 1) = vlan_total port.vfs i + (port.vfs i).num_vlans := by
          simp [vlan_total, vlans_of, hneg]
        have hm : mac_total port.vfs (i + 1) = mac_total port.vfs i + (port.vfs i).num_macs := by
          simp [mac_total, macs_of, hneg]
        refine ⟨?_, ?_, ?_, ?_, ?_⟩
        · intro j h1 h2
          by_cases hji : j = i
          · subst hji; exact Or.inr heq
          · exact a1 j (by omega) (by omega)
        · rw [hidx, a2, hv]; simp only; omega
        · rw [hidx, a3, hm]; simp only; omega
        · intro h0 hh; exact a4 h0 hh
        · intro hh
          rcases a5 hh with ⟨b1, b2⟩ | ⟨h0, b1, b2, b3, b4, b5⟩
          · left
            refine ⟨b1, fun j h1 h2 => ?_⟩
            by_cases hji : j = i
            · subst hji; exact hneg
            · exact b2 j (by omega) (by omega)
          · right
            refine ⟨h0, b1, by omega, by omega, b4, fun j h1 h2 => ?_⟩
            by_cases hji : j = i
            · subst hji; exact hneg
            · exact b5 j (by omega) h2

/-- A scan that meets the id in an active slot returns early. -/
theorem scan_vfs_none_of_dup (port : sriov_port_s) (vfid : Int) :
    ∀ (n i : Nat) (st : scan_t) (j : Nat), i ≤ j → j < i + n → ¬ (port.vfs j).num < 0 →
      (port.vfs j).num = vfid → scan_vfs port vfid n i st = none := by
  intro n
  induction n with
  | zero => intro i st j h1 h2; omega
  | succ n ih =>
    intro i st j h1 h2 h3 h4
    unfold scan_vfs
    by_cases hji : j = i
    · subst hji
      rw [if_neg h3, if_pos h4]
    · by_cases hneg : (port.vfs i).num < 0
      · rw [if_pos hneg]; exact ih (i + 1) _ j (by omega) (by omega) h3 h4
      · rw [if_neg hneg]
        by_cases heq : (port.vfs i).num = vfid
        · rw [if_pos heq]
        · rw [if_neg heq]; exact ih (i + 1) _ j (by omega) (by omega) h3 h4

/-! ## The scan from the first slot, and the installation -/

/-- The complete scan of a port, in the words of the specification: the id is not active,
the totals are those of the active VFs, and the slot chosen is the lowest hole, or the
slot just past the high-water mark when there is no hole. -/
theorem scan_full (port : sriov_port_s) (vfid : Int) (st : scan_t)
    (h : scan_vfs port vfid port.num_vfs 0 scan_init = some st) :
    (∀ j, j < port.num_vfs → (port.vfs j).num < 0 ∨ (port.vfs j).num ≠ vfid) ∧
    st.tot_vlans = vlan_total port.vfs port.num_vfs ∧
    st.tot_macs = mac_total port.vfs port.num_vfs ∧
    ((vidx_of port st < port.num_vfs ∧ (port.vfs (vidx_of port st)).num < 0 ∧
        ∀ j, j < vidx_of port st → ¬ (port.vfs j).num < 0) ∨
      (vidx_of port st = port.num_vfs ∧ ∀ j, j < port.num_vfs → ¬ (port.vfs j).num < 0)) := by
  obtain ⟨a1, a2, a3, _, a5⟩ := scan_vfs_some port vfid port.num_vfs 0 scan_init st h
  rw [Nat.zero_add] at a1 a2 a3 a5
  refine ⟨fun j hj => a1 j (Nat.zero_le _) hj, ?_, ?_, ?_⟩
  · rw [a2]; simp [scan_init, vlan_total]
  · rw [a3]; simp [scan_init, mac_total]
  · rcases a5 rfl with ⟨b1, b2⟩ | ⟨h0, b1, _, b3, b4, b5⟩
    · right
      exact ⟨by simp [vidx_of, b1], fun j hj => b2 j (Nat.zero_le _) hj⟩
    · left
      have hv : vidx_of port st = h0 := by simp [vidx_of, b1]
      rw [hv]
      exact ⟨b3, b4, fun j hj => b5 j (Nat.zero_le _) hj⟩

theorem install_vf_port (K : consts) (conf : sriov_conf_t) (p vidx : Nat) (vfc : vf_config_t) :
    (install_vf K conf p vidx vfc).ports p =
      { conf.ports p with
        num_vfs := if vidx = (conf.ports p).num_vfs then (conf.ports p).num_vfs + 1
                   else (conf.ports p).num_vfs
        vfs := Function.update (conf.ports p).vfs vidx (new_vf K vfc) } := by
  simp [install_vf]

theorem install_vf_other (K : consts) (conf : sriov_conf_t) (p vidx : Nat) (vfc : vf_config_t)
    (q : Nat) (hq : q ≠ p) : (install_vf K conf p vidx vfc).ports q = conf.ports q := by
  simp [install_vf, Function.update_noteq hq]

theorem install_vf_pciid (K : consts) (conf : sriov_conf_t) (p vidx : Nat) (vfc : vf_config_t)
    (q : Nat) : ((install_vf K conf p vidx vfc).ports q).pciid = (conf.ports q).pciid := by
  by_cases hq : q = p
  · subst hq; rw [install_vf_port]
  · rw [install_vf_other K conf p vidx vfc q hq]

/-- Installing an admitted descriptor in the slot chosen by the scan keeps a port
well-formed. -/
theorem port_wf_install (K : consts) (port : sriov_port_s) (vfc : vf_config_t) (st : scan_t)
    (hwf : port_wf K port)
    (hscan : scan_vfs port vfc.vfid port.num_vfs 0 scan_init = some st)
    (hidx : vidx_of port st < K.MAX_VFS) (hmin : 1 ≤ vfc.vfid) (hmax : vfc.vfid ≤ 31)
    (h58 : passes_checks_5_8 K port vfc st) :
    port_wf K
      { port with
        num_vfs := if vidx_of port st = port.num_vfs then port.num_vfs + 1 else port.num_vfs
        vfs := Function.update port.vfs (vidx_of port st) (new_vf K vfc) } := by
  obtain ⟨w1, w2, w3, w4, w5⟩ := hwf
  obtain ⟨s1, s2, s3, s4⟩ := scan_full port vfc.vfid st hscan
  have hnum : (new_vf K vfc).num = vfc.vfid := rfl
  have hnv : vlans_of (new_vf K vfc) = vfc.nvlans := by
    have : ¬ (new_vf K vfc).num < 0 := by rw [hnum]; omega
    simp only [vlans_of, if_neg this]; rfl
  have hnm : macs_of (new_vf K vfc) = vfc.nmacs := by
    have : ¬ (new_vf K vfc).num < 0 := by rw [hnum]; omega
    simp only [macs_of, if_neg this]; rfl
  have hslot : 1 ≤ (new_vf K vfc).num ∧ (new_vf K vfc).num ≤ 31 ∧
      (new_vf K vfc).num_vlans ≤ K.MAX_VF_VLANS ∧ (new_vf K vfc).num_macs ≤ K.MAX_VF_MACS :=
    ⟨hmin, hmax, h58.vf_vlans, h58.vf_macs⟩
  have hpv := h58.pf_vlans
  have hpm := h58.pf_macs
  generalize vidx_of port st = idx at *
  have hold : ∀ i, i ≠ idx → Function.update port.vfs idx (new_vf K vfc) i = port.vfs i :=
    fun i hi => Function.update_noteq hi _ _
  have hnew : Function.update port.vfs idx (new_vf K vfc) idx = new_vf K vfc :=
    Function.update_same _ _ _
  have hbound : ∀ i, i < (if idx = port.num_vfs then port.num_vfs + 1 else port.num_vfs) →
      i ≠ idx → i < port.num_vfs := by
    intro i hi hne
    split at hi <;> omega
  refine ⟨?_, ?_, ?_, ?_, ?_⟩
  · show (if idx = port.num_vfs then port.num_vfs + 1 else port.num_vfs) ≤ K.MAX_VFS
    split <;> omega
  · intro i hi hact
    dsimp only at hi hact ⊢
    by_cases hii : i = idx
    · subst hii
      rw [hnew]; exact hslot
    · rw [hold i hii] at hact ⊢
      exact w2 i (hbound i hi hii) hact
  · intro i j hi hj hact heq
    have hact2 : 0 ≤ (Function.update port.vfs idx (new_vf K vfc) i).num := hact
    have heq2 : (Function.update port.vfs idx (new_vf K vfc) i).num =
        (Function.update port.vfs idx (new_vf K vfc) j).num := heq
    by_cases hii : i = idx
    · by_cases hjj : j = idx
      · rw [hii, hjj]
      · exfalso
        rw [hii, hnew, hold j hjj, hnum] at heq2
        rcases s1 j (hbound j hj hjj) with h1 | h1
        · omega
        · exact h1 heq2.symm
    · by_cases hjj : j = idx
      · exfalso
        rw [hjj, hnew, hold i hii, hnum] at heq2
        rw [hold i hii] at hact2
        rcases s1 i (hbound i hi hii) with h1 | h1
        · omega
        · exact h1 heq2
      · rw [hold i hii] at hact2
        rw [hold i hii, hold j hjj] at heq2
        exact w3 i j (hbound i hi hii) (hbound j hj hjj) hact2 heq2
  · show vlan_total (Function.update port.vfs idx (new_vf K vfc))
      (if idx = port.num_vfs then port.num_vfs + 1 else port.num_vfs) ≤ K.MAX_PF_VLANS
    rcases s4 with ⟨b1, b2, _⟩ | ⟨b1, _⟩
    · have hne : idx ≠ port.num_vfs := by omega
      rw [if_neg hne, vlan_total_update_lt _ _ _ _ b1, hnv]
      have : vlans_of (port.vfs idx) = 0 := by simp [vlans_of, b2]
      omega
    · rw [if_pos b1, b1]
      simp only [vlan_total, Function.update_same, vlan_total_update_ge _ _ _ _ (le_refl _), hnv]
      omega
  · show mac_total (Function.update port.vfs idx (new_vf K vfc))
      (if idx = port.num_vfs then port.num_vfs + 1 else port.num_vfs) ≤ K.MAX_PF_MACS
    rcases s4 with ⟨b1, b2, _⟩ | ⟨b1, _⟩
    · have hne : idx ≠ port.num_vfs := by omega
      rw [if_neg hne, mac_total_update_lt _ _ _ _ b1, hnm]
      have : macs_of (port.vfs idx) = 0 := by simp [macs_of, b2]
      omega
    · rw [if_pos b1, b1]
      simp only [mac_total, Function.update_same, mac_total_update_ge _ _ _ _ (le_refl _), hnm]
      omega

/-! ## Atomic rejection -/

theorem add_vf_lists_rc_zero (K : consts) (E : env_t) (conf : sriov_conf_t) (p vidx : Nat)
    (vfc : vf_config_t) (h : (add_vf_lists K E conf p vidx vfc).rc = 0) :
    (add_vf_lists K E conf p vidx vfc).conf = conf := by
  revert h
  unfold add_vf_lists
  repeat' split
  all_goals simp [fail]

theorem add_vf_limits_rc_zero (K : consts) (E : env_t) (conf : sriov_conf_t) (p : Nat)
    (st : scan_t) (vfc : vf_config_t) (h : (add_vf_limits K E conf p st vfc).rc = 0) :
    (add_vf_limits K E conf p st vfc).conf = conf := by
  revert h
  unfold add_vf_limits
  repeat' split
  all_goals first | exact add_vf_lists_rc_zero K E conf p _ vfc | simp [fail]

/-! ## How a call runs through the three segments -/

theorem add_vf_lists_of_passes (K : consts) (E : env_t) (conf : sriov_conf_t) (p vidx : Nat)
    (vfc : vf_config_t) (h : passes_checks_9_12 K E conf vfc) :
    add_vf_lists K E conf p vidx vfc =
      { rc := 1, reason := none, conf := install_vf K conf p vidx vfc } := by
  have htc : ¬ (tc_gate K conf ≠ 0 ∧ check_tcs K conf vfc.tcpctgs = 0) := by
    rintro ⟨h1, h2⟩
    rcases h.tcs_ok with h3 | h3
    · exact h1 h3
    · exact h3 h2
  unfold add_vf_lists
  rw [h.vlans_ok, h.macs_ok]
  simp only [if_neg htc, h.start_ok, h.stop_ok]
  rfl

theorem add_vf_lists_success (K : consts) (E : env_t) (conf : sriov_conf_t) (p vidx : Nat)
    (vfc : vf_config_t) (h : (add_vf_lists K E conf p vidx vfc).rc = 1) :
    passes_checks_9_12 K E conf vfc := by
  unfold add_vf_lists at h
  cases hv : check_vlans vfc.vlans with
  | some m => rw [hv] at h; simp [fail] at h
  | none =>
    cases hm : check_macs E vfc.macs with
    | some m => rw [hv, hm] at h; simp [fail] at h
    | none =>
      rw [hv, hm] at h
      simp only at h
      by_cases htc : tc_gate K conf ≠ 0 ∧ check_tcs K conf vfc.tcpctgs = 0
      · rw [if_pos htc] at h; simp [fail] at h
      · rw [if_neg htc] at h
        cases hs : has_semicolon vfc.start_cb with
        | true => rw [hs] at h; simp [fail] at h
        | false =>
          cases ht : has_semicolon vfc.stop_cb with
          | true => rw [hs, ht] at h; simp [fail] at h
          | false =>
            refine ⟨hv, hm, ?_, hs, ht⟩
            by_cases hg : tc_gate K conf = 0
            · exact Or.inl hg
            · exact Or.inr (fun hz => htc ⟨hg, hz⟩)

theorem add_vf_limits_of_passes (K : consts) (E : env_t) (conf : sriov_conf_t) (p : Nat)
    (st : scan_t) (vfc : vf_config_t) (h1 : 1 ≤ vfc.vfid) (h2 : vfc.vfid ≤ 31)
    (h3 : vidx_of (conf.ports p) st < K.MAX_VFS)
    (h : passes_checks_5_8 K (conf.ports p) vfc st) :
    add_vf_limits K E conf p st vfc =
      add_vf_lists K E conf p (vidx_of (conf.ports p) st) vfc := by
  have c1 : ¬ (vidx_of (conf.ports p) st ≥ K.MAX_VFS ∨ vfc.vfid < 1 ∨ vfc.vfid > 31) := by
    omega
  have c2 : ¬ (vfc.vfid ≥ (conf.ports p).nvfs_config) := by have := h.id_configured; omega
  have c3 : ¬ (vfc.nvlans > K.MAX_VF_VLANS) := by have := h.vf_vlans; omega
  have c4 : ¬ (vfc.nvlans + st.tot_vlans > K.MAX_PF_VLANS) := by have := h.pf_vlans; omega
  have c5 : ¬ (vfc.nmacs + st.tot_macs > K.MAX_PF_MACS) := by have := h.pf_macs; omega
  have c6 : ¬ (vfc.nmacs > K.MAX_VF_MACS) := by have := h.vf_macs; omega
  unfold add_vf_limits
  rw [if_neg c1, if_neg c2, if_neg c3, if_neg c4, if_neg c5, if_neg c6, if_neg h.strip_single]

theorem add_vf_limits_success (K : consts) (E : env_t) (conf : sriov_conf_t) (p : Nat)
    (st : scan_t) (vfc : vf_config_t) (h : (add_vf_limits K E conf p st vfc).rc = 1) :
    (1 ≤ vfc.vfid ∧ vfc.vfid ≤ 31 ∧ vidx_of (conf.ports p) st < K.MAX_VFS) ∧
    passes_checks_5_8 K (conf.ports p) vfc st := by
  unfold add_vf_limits at h
  by_cases c1 : vidx_of (conf.ports p) st ≥ K.MAX_VFS ∨ vfc.vfid < 1 ∨ vfc.vfid > 31
  · rw [if_pos c1] at h; simp [fail] at h
  rw [if_neg c1] at h
  by_cases c2 : vfc.vfid ≥ (conf.ports p).nvfs_config
  · rw [if_pos c2] at h; simp [fail] at h
  rw [if_neg c2] at h
  by_cases c3 : vfc.nvlans > K.MAX_VF_VLANS
  · rw [if_pos c3] at h; simp [fail] at h
  rw [if_neg c3] at h
  by_cases c4 : vfc.nvlans + st.tot_vlans > K.MAX_PF_VLANS
  · rw [if_pos c4] at h; simp [fail] at h
  rw [if_neg c4] at h
  by_cases c5 : vfc.nmacs + st.tot_macs > K.MAX_PF_MACS
  · rw [if_pos c5] at h; simp [fail] at h
  rw [if_neg c5] at h
  by_cases c6 : vfc.nmacs > K.MAX_VF_MACS
  · rw [if_pos c6] at h; simp [fail] at h
  rw [if_neg c6] at h
  by_cases c7 : vfc.strip_stag ≠ 0 ∧ vfc.nvlans > 1
  · rw [if_pos c7] at h; simp [fail] at h
  exact ⟨⟨by omega, by omega, by omega⟩, ⟨by omega, by omega, by omega, by omega, by omega, c7⟩⟩

theorem add_vf_of_scan (K : consts) (E : env_t) (conf : sriov_conf_t) (fn : String)
    (vfc : vf_config_t) (pciid : String) (p : Nat)
    (hrd : E.read_config fn = Except.ok vfc) (hpci : vfc.pciid = some pciid)
    (hid : 1 ≤ vfc.vfid) (hport : find_port conf pciid conf.num_ports 0 = some p) :
    vfd_add_vf K E conf (some fn) =
      match scan_vfs (conf.ports p) vfc.vfid (conf.ports p).num_vfs 0 scan_init with
      | none => fail K conf (msg_dup_vfid vfc.vfid pciid)
      | some st => add_vf_limits K E conf p st vfc := by
  have c : ¬ (vfc.vfid < 1) := by omega
  unfold vfd_add_vf
  simp only [hrd, hpci, if_neg c, hport]

/-- A call that returns 1 has passed the twelve checks, on the port and with the scan
locals named, and has installed the descriptor in the slot chosen. -/
theorem add_vf_success (K : consts) (E : env_t) (conf : sriov_conf_t) (fname : Option String)
    (h : (vfd_add_vf K E conf fname).rc = 1) :
    ∃ fn vfc pciid p st, fname = some fn ∧ E.read_config fn = Except.ok vfc ∧
      passes_checks_1_4 K conf vfc pciid p st ∧ passes_checks_5_8 K (conf.ports p) vfc st ∧
      passes_checks_9_12 K E conf vfc ∧
      vfd_add_vf K E conf fname =
        { rc := 1, reason := none,
          conf := install_vf K conf p (vidx_of (conf.ports p) st) vfc } := by
  cases fname with
  | none => simp [vfd_add_vf, fail] at h
  | some fn =>
    cases hrd : E.read_config fn with
    | error sub => simp [vfd_add_vf, hrd, fail] at h
    | ok vfc =>
      cases hpci : vfc.pciid with
      | none => simp [vfd_add_vf, hrd, hpci, fail] at h
      | some pciid =>
        by_cases hid : vfc.vfid < 1
        · simp [vfd_add_vf, hrd, hpci, hid, fail] at h
        · cases hport : find_port conf pciid conf.num_ports 0 with
          | none => simp [vfd_add_vf, hrd, hpci, hid, hport, fail] at h
          | some p =>
            have heq := add_vf_of_scan K E conf fn vfc pciid p hrd hpci (by omega) hport
            cases hscan : scan_vfs (conf.ports p) vfc.vfid (conf.ports p).num_vfs 0 scan_init with
            | none => rw [heq, hscan] at h; simp [fail] at h
            | some st =>
              rw [hscan] at heq
              simp only at heq
              rw [heq] at h
              obtain ⟨⟨a1, a2, a3⟩, a4⟩ := add_vf_limits_success K E conf p st vfc h
              rw [add_vf_limits_of_passes K E conf p st vfc a1 a2 a3 a4] at h heq
              have a5 := add_vf_lists_success K E conf p _ vfc h
              rw [add_vf_lists_of_passes K E conf p _ vfc a5] at heq
              exact ⟨fn, vfc, pciid, p, st, rfl, hrd, ⟨hpci, a1, hport, hscan, a3, a2⟩, a4, a5, heq⟩

/-- The return code of `vfd_add_vf` is 0 or 1. -/
theorem add_vf_rc (K : consts) (E : env_t) (conf : sriov_conf_t) (fname : Option String) :
    (vfd_add_vf K E conf fname).rc = 0 ∨ (vfd_add_vf K E conf fname).rc = 1 := by
  have l1 : ∀ p vidx vfc, (add_vf_lists K E conf p vidx vfc).rc = 0 ∨
      (add_vf_lists K E conf p vidx vfc).rc = 1 := by
    intro p vidx vfc
    unfold add_vf_lists
    repeat' split
    all_goals simp [fail]
  have l2 : ∀ p st vfc, (add_vf_limits K E conf p st vfc).rc = 0 ∨
      (add_vf_limits K E conf p st vfc).rc = 1 := by
    intro p st vfc
    unfold add_vf_limits
    repeat' split
    all_goals first | exact l1 _ _ _ | simp [fail]
  unfold vfd_add_vf
  repeat' split
  all_goals first | exact l2 _ _ _ | simp [fail]

theorem add_vf_rc_zero_conf (K : consts) (E : env_t) (conf : sriov_conf_t)
    (fname : Option String) (h : (vfd_add_vf K E conf fname).rc = 0) :
    (vfd_add_vf K E conf fname).conf = conf := by
  revert h
  unfold vfd_add_vf
  repeat' split
  all_goals first | exact add_vf_limits_rc_zero K E conf _ _ _ | simp [fail]

/-- A descriptor whose id sits in an active slot of its port is rejected as a duplicate. -/
theorem add_vf_dup_reject (K : consts) (E : env_t) (conf : sriov_conf_t) (fn : String)
    (vfc : vf_config_t) (pciid : String) (p i : Nat)
    (hrd : E.read_config fn = Except.ok vfc) (hpci : vfc.pciid = some pciid)
    (hid : 1 ≤ vfc.vfid) (hport : find_port conf pciid conf.num_ports 0 = some p)
    (hi : i < (conf.ports p).num_vfs) (hnum : ((conf.ports p).vfs i).num = vfc.vfid) :
    vfd_add_vf K E conf (some fn) = fail K conf (msg_dup_vfid vfc.vfid pciid) := by
  rw [add_vf_of_scan K E conf fn vfc pciid p hrd hpci hid hport]
  rw [scan_vfs_none_of_dup (conf.ports p) vfc.vfid (conf.ports p).num_vfs 0 scan_init i
    (Nat.zero_le _) (by omega) (by omega) hnum]

/-! ## `vfd_del_vf` only touches a marker -/

theorem del_vf_conf_cases (K : consts) (E : env_t) (parms : parms_t) (conf : sriov_conf_t)
    (fname : Option String) :
    (vfd_del_vf K E parms conf fname).conf = conf ∨
    ∃ p vidx, (vfd_del_vf K E parms conf fname).conf = mark_deleted K conf p vidx := by
  unfold vfd_del_vf
  repeat' split
  all_goals first | (left; rfl) | (right; exact ⟨_, _, rfl⟩)

theorem mark_deleted_slot (K : consts) (conf : sriov_conf_t) (p vidx q j : Nat) :
    (((mark_deleted K conf p vidx).ports q).vfs j).num = ((conf.ports q).vfs j).num ∧
    (((mark_deleted K conf p vidx).ports q).vfs j).num_vlans = ((conf.ports q).vfs j).num_vlans ∧
    (((mark_deleted K conf p vidx).ports q).vfs j).num_macs = ((conf.ports q).vfs j).num_macs ∧
    ((mark_deleted K conf p vidx).ports q).num_vfs = (conf.ports q).num_vfs ∧
    ((mark_deleted K conf p vidx).ports q).pciid = (conf.ports q).pciid := by
  by_cases hq : q = p
  · subst hq
    by_cases hj : j = vidx
    · subst hj; simp [mark_deleted]
    · simp [mark_deleted, Function.update_noteq hj]
  · simp [mark_deleted, Function.update_noteq hq]

/-- Whatever `vfd_del_vf` does, the ids, the counts, the high-water marks and the device
identifiers of the store stay as they were. -/
theorem del_vf_keeps (K : consts) (E : env_t) (parms : parms_t) (conf : sriov_conf_t)
    (fname : Option String) :
    (vfd_del_vf K E parms conf fname).conf.num_ports = conf.num_ports ∧
    ∀ q j,
      ((((vfd_del_vf K E parms conf fname).conf).ports q).vfs j).num = ((conf.ports q).vfs j).num ∧
      ((((vfd_del_vf K E parms conf fname).conf).ports q).vfs j).num_vlans =
        ((conf.ports q).vfs j).num_vlans ∧
      ((((vfd_del_vf K E parms conf fname).conf).ports q).vfs j).num_macs =
        ((conf.ports q).vfs j).num_macs ∧
      (((vfd_del_vf K E parms conf fname).conf).ports q).num_vfs = (conf.ports q).num_vfs ∧
      (((vfd_del_vf K E parms conf fname).conf).ports q).pciid = (conf.ports q).pciid := by
  rcases del_vf_conf_cases K E parms conf fname with h | ⟨p, vidx, h⟩
  · rw [h]; exact ⟨rfl, fun q j => ⟨rfl, rfl, rfl, rfl, rfl⟩⟩
  · rw [h]; exact ⟨rfl, fun q j => mark_deleted_slot K conf p vidx q j⟩

theorem vlan_total_congr (vfs vfs2 : Nat → vf_s)
    (h : ∀ j, vlans_of (vfs2 j) = vlans_of (vfs j)) :
    ∀ n, vlan_total vfs2 n = vlan_total vfs n := by
  intro n
  induction n with
  | zero => rfl
  | succ n ih => simp only [vlan_total, ih, h]

theorem mac_total_congr (vfs vfs2 : Nat → vf_s)
    (h : ∀ j, macs_of (vfs2 j) = macs_of (vfs j)) :
    ∀ n, mac_total vfs2 n = mac_total vfs n := by
  intro n
  induction n with
  | zero => rfl
  | succ n ih => simp only [mac_total, ih, h]

/-- Well-formedness of a port only depends on the high-water mark and on the ids and
counts of the slots. -/
theorem port_wf_congr (K : consts) (port port2 : sriov_port_s)
    (hn : port2.num_vfs = port.num_vfs)
    (h : ∀ j, (port2.vfs j).num = (port.vfs j).num ∧
      (port2.vfs j).num_vlans = (port.vfs j).num_vlans ∧
      (port2.vfs j).num_macs = (port.vfs j).num_macs)
    (hwf : port_wf K port) : port_wf K port2 := by
  obtain ⟨w1, w2, w3, w4, w5⟩ := hwf
  have hv : ∀ j, vlans_of (port2.vfs j) = vlans_of (port.vfs j) := by
    intro j; simp only [vlans_of, (h j).1, (h j).2.1]
  have hm : ∀ j, macs_of (port2.vfs j) = macs_of (port.vfs j) := by
    intro j; simp only [macs_of, (h j).1, (h j).2.2]
  refine ⟨by rw [hn]; exact w1, ?_, ?_, ?_, ?_⟩
  · intro i hi hact
    rw [hn] at hi
    rw [(h i).1] at hact ⊢
    rw [(h i).2.1, (h i).2.2]
    exact w2 i hi hact
  · intro i j hi hj hact heq
    rw [hn] at hi hj
    rw [(h i).1] at hact
    rw [(h i).1, (h j).1] at heq
    exact w3 i j hi hj hact heq
  · rw [hn, vlan_total_congr port.vfs port2.vfs hv]; exact w4
  · rw [hn, mac_total_congr port.vfs port2.vfs hm]; exact w5

/-! ## A successful call, seen from the descriptor -/

theorem add_vf_success_at (K : consts) (E : env_t) (conf : sriov_conf_t) (fn : String)
    (vfc : vf_config_t) (pciid : String) (p : Nat)
    (hrd : E.read_config fn = Except.ok vfc) (hpci : vfc.pciid = some pciid)
    (hport : find_port conf pciid conf.num_ports 0 = some p)
    (hok : (vfd_add_vf K E conf (some fn)).rc = 1) :
    ∃ st, passes_checks_1_4 K conf vfc pciid p st ∧
      passes_checks_5_8 K (conf.ports p) vfc st ∧ passes_checks_9_12 K E conf vfc ∧
      vfd_add_vf K E conf (some fn) =
        { rc := 1, reason := none,
          conf := install_vf K conf p (vidx_of (conf.ports p) st) vfc } := by
  obtain ⟨fn2, vfc2, pciid2, p2, st, h1, h2, h3, h4, h5, h6⟩ :=
    add_vf_success K E conf (some fn) hok
  have e1 : fn2 = fn := by simpa using h1.symm
  subst e1
  have e2 : vfc2 = vfc := by rw [hrd] at h2; simpa using h2.symm
  subst e2
  have e3 : pciid2 = pciid := by have := h3.has_pciid; rw [hpci] at this; simpa using this.symm
  subst e3
  have e4 : p2 = p := by have := h3.port_found; rw [hport] at this; simpa using this.symm
  subst e4
  exact ⟨st, h3, h4, h5, h6⟩

/-- The slot chosen by a complete scan lies below the high-water mark that the
installation leaves. -/
theorem vidx_lt_new_num_vfs (port : sriov_port_s) (vfid : Int) (st : scan_t)
    (h : scan_vfs port vfid port.num_vfs 0 scan_init = some st) :
    vidx_of port st <
      (if vidx_of port st = port.num_vfs then port.num_vfs + 1 else port.num_vfs) := by
  obtain ⟨_, _, _, s4⟩ := scan_full port vfid st h
  rcases s4 with ⟨b1, _, _⟩ | ⟨b1, _⟩
  · have hne : vidx_of port st ≠ port.num_vfs := by omega
    rw [if_neg hne]; exact b1
  · rw [if_pos b1]; omega

/-! ## The check of the VLAN array -/

theorem vlan_dup_loop_iff (vlans : List Int) (i : Nat) :
    ∀ (n j : Nat), vlan_dup_loop vlans i n j = true ↔
      ∃ b, j ≤ b ∧ b < j + n ∧ vlans.getD i 0 = vlans.getD b 0 := by
  intro n
  induction n with
  | zero =>
    intro j
    simp only [vlan_dup_loop]
    constructor
    · intro h; exact absurd h (by simp)
    · rintro ⟨b, h1, h2, _⟩; omega
  | succ n ih =>
    intro j
    unfold vlan_dup_loop
    by_cases hc : vlans.getD i 0 = vlans.getD j 0
    · rw [if_pos hc]
      exact ⟨fun _ => ⟨j, le_refl _, by omega, hc⟩, fun _ => rfl⟩
    · rw [if_neg hc, ih (j + 1)]
      constructor
      · rintro ⟨b, h1, h2, h3⟩
        exact ⟨b, by omega, by omega, h3⟩
      · rintro ⟨b, h1, h2, h3⟩
        have hb : b ≠ j := by rintro rfl; exact hc h3
        exact ⟨b, by omega, by omega, h3⟩

/-- The inner loop started by the outer loop at index `i` finds an id equal to `vlans[i]`
exactly when one sits at a later position of the array. -/
theorem vlan_dup_loop_later (vlans : List Int) (i : Nat) :
    vlan_dup_loop vlans i (vlans.length - (i + 1)) (i + 1) = true ↔
      ∃ b, i < b ∧ b < vlans.length ∧ vlans.getD i 0 = vlans.getD b 0 := by
  rw [vlan_dup_loop_iff]
  constructor
  · rintro ⟨b, h1, h2, h3⟩; exact ⟨b, by omega, by omega, h3⟩
  · rintro ⟨b, h1, h2, h3⟩; exact ⟨b, by omega, by omega, h3⟩

/-- The outer loop fails as soon as one of the indices it visits holds an id that is
repeated at a later position. -/
theorem vlan_loop_some_of_dup (vlans : List Int) :
    ∀ (n i a b : Nat), i ≤ a → a < i + n → a < b → b < vlans.length →
      vlans.getD a 0 = vlans.getD b 0 → vlan_loop vlans n i ≠ none := by
  intro n
  induction n with
  | zero => intro i a b h1 h2; omega
  | succ n ih =>
    intro i a b h1 h2 h3 h4 h5
    unfold vlan_loop
    by_cases hr : vlans.getD i 0 < 1 ∨ vlans.getD i 0 > 4095
    · rw [if_pos hr]; simp
    · rw [if_neg hr]
      by_cases hd : vlan_dup_loop vlans i (vlans.length - (i + 1)) (i + 1) = true
      · rw [if_pos hd]; simp
      · rw [if_neg hd]
        have hai : a ≠ i := by
          rintro rfl
          exact hd ((vlan_dup_loop_later vlans a).2 ⟨b, h3, h4, h5⟩)
        exact ih (i + 1) a b (by omega) (by omega) h3 h4 h5

/-- What a failure of the outer loop reports: an id out of range, or an id that is in
range and repeated at a later position. -/
theorem vlan_loop_some (vlans : List Int) :
    ∀ (n i : Nat) (msg : String), vlan_loop vlans n i = some msg →
      ∃ a, i ≤ a ∧ a < i + n ∧
        (((vlans.getD a 0 < 1 ∨ vlans.getD a 0 > 4095) ∧
            msg = msg_invalid_vlan (vlans.getD a 0)) ∨
          ((∃ b, a < b ∧ b < vlans.length ∧ vlans.getD a 0 = vlans.getD b 0) ∧
            msg = msg_dup_vlan (vlans.getD a 0))) := by
  intro n
  induction n with
  | zero => intro i msg h; simp [vlan_loop] at h
  | succ n ih =>
    intro i msg h
    unfold vlan_loop at h
    by_cases hr : vlans.getD i 0 < 1 ∨ vlans.getD i 0 > 4095
    · rw [if_pos hr] at h
      have hm : msg = msg_invalid_vlan (vlans.getD i 0) := by simpa using h.symm
      exact ⟨i, le_refl _, by omega, Or.inl ⟨hr, hm⟩⟩
    · rw [if_neg hr] at h
      by_cases hd : vlan_dup_loop vlans i (vlans.length - (i + 1)) (i + 1) = true
      · rw [if_pos hd] at h
        have hm : msg = msg_dup_vlan (vlans.getD i 0) := by simpa using h.symm
        exact ⟨i, le_refl _, by omega, Or.inr ⟨(vlan_dup_loop_later vlans i).1 hd, hm⟩⟩
      · rw [if_neg hd] at h
        obtain ⟨a, h1, h2, h3⟩ := ih (i + 1) msg h
        exact ⟨a, by omega, by omega, h3⟩

/-- An array that holds the same id at two positions does not pass the check. -/
theorem check_vlans_some_of_dup (vlans : List Int) (a b : Nat) (hab : a < b)
    (hb : b < vlans.length) (heq : vlans.getD a 0 = vlans.getD b 0) :
    check_vlans vlans ≠ none := by
  have hlen : ¬ vlans.length = 1 := by omega
  unfold check_vlans
  rw [if_neg hlen]
  exact vlan_loop_some_of_dup vlans (vlans.length - 1) 0 a b (Nat.zero_le _) (by omega) hab hb heq

/-- A call that reaches the checks of the arrays with an array of VLAN ids that fails its
check returns the message of that check. -/
theorem add_vf_vlan_fail (K : consts) (E : env_t) (conf : sriov_conf_t) (fn : String)
    (vfc : vf_config_t) (pciid : String) (p : Nat) (st : scan_t) (msg : String)
    (hrd : E.read_config fn = Except.ok vfc)
    (h14 : passes_checks_1_4 K conf vfc pciid p st)
    (h58 : passes_checks_5_8 K (conf.ports p) vfc st)
    (hv : check_vlans vfc.vlans = some msg) :
    vfd_add_vf K E conf (some fn) = fail K conf msg := by
  rw [add_vf_of_scan K E conf fn vfc pciid p hrd h14.has_pciid h14.id_min h14.port_found,
    h14.id_free]
  simp only
  rw [add_vf_limits_of_passes K E conf p st vfc h14.id_min h14.id_max h14.slot_in_range h58]
  unfold add_vf_lists
  rw [hv]

theorem getD_mem_of_lt (l : List Int) (a : Nat) (h : a < l.length) : l.getD a 0 ∈ l := by
  rw [List.getD_eq_getElem l 0 h]
  exact List.getElem_mem h

theorem getD_inj_of_nodup {α : Type} (l : List α) (d : α) (h : l.Nodup) (a b : Nat)
    (ha : a < l.length) (hb : b < l.length) (heq : l.getD a d = l.getD b d) : a = b := by
  rw [List.getD_eq_getElem l d ha, List.getD_eq_getElem l d hb] at heq
  exact h.getElem_inj_iff.1 heq

/-- A list of pairwise distinct VLAN ids that are all in 1..4095 passes the check. -/
theorem check_vlans_none_of_valid (vlans : List Int)
    (hr : ∀ v, v ∈ vlans → 1 ≤ v ∧ v ≤ 4095) (hd : vlans.Nodup) :
    check_vlans vlans = none := by
  unfold check_vlans
  by_cases hlen : vlans.length = 1
  · rw [if_pos hlen]
    have := hr _ (getD_mem_of_lt vlans 0 (by omega))
    have hc : ¬ (vlans.getD 0 0 < 1 ∨ vlans.getD 0 0 > 4095) := by omega
    rw [if_neg hc]
  · rw [if_neg hlen]
    cases hc : vlan_loop vlans (vlans.length - 1) 0 with
    | none => rfl
    | some msg =>
      exfalso
      obtain ⟨a, _, h2, h3⟩ := vlan_loop_some vlans _ 0 msg hc
      rcases h3 with ⟨h4, _⟩ | ⟨⟨b, c1, c2, c3⟩, _⟩
      · have := hr _ (getD_mem_of_lt vlans a (by omega))
        omega
      · have := getD_inj_of_nodup vlans 0 hd a b (by omega) c2 c3
        omega

/-! ## The check of the MAC array -/

theorem mac_dup_loop_iff (macs : List String) (i : Nat) :
    ∀ (n j : Nat), mac_dup_loop macs i n j = true ↔
      ∃ b, j ≤ b ∧ b < j + n ∧ macs.getD i "" = macs.getD b "" := by
  intro n
  induction n with
  | zero =>
    intro j
    simp only [mac_dup_loop]
    constructor
    · intro h; exact absurd h (by simp)
    · rintro ⟨b, h1, h2, _⟩; omega
  | succ n ih =>
    intro j
    unfold mac_dup_loop
    by_cases hc : macs.getD i "" = macs.getD j ""
    · rw [if_pos hc]
      exact ⟨fun _ => ⟨j, le_refl _, by omega, hc⟩, fun _ => rfl⟩
    · rw [if_neg hc, ih (j + 1)]
      constructor
      · rintro ⟨b, h1, h2, h3⟩
        exact ⟨b, by omega, by omega, h3⟩
      · rintro ⟨b, h1, h2, h3⟩
        have hb : b ≠ j := by rintro rfl; exact hc h3
        exact ⟨b, by omega, by omega, h3⟩

/-- What a failure of the outer loop over the MAC strings reports: a string that the
validity function rejects, or a string repeated at a later position. -/
theorem mac_loop_some (E : env_t) (macs : List String) :
    ∀ (n i : Nat) (msg : String), mac_loop E macs n i = some msg →
      ∃ a, i ≤ a ∧ a < i + n ∧
        ((E.is_valid_mac_str (macs.getD a "") < 0 ∧ msg = msg_invalid_mac (macs.getD a "")) ∨
          ((∃ b, a < b ∧ b < macs.length ∧ macs.getD a "" = macs.getD b "") ∧
            msg = msg_dup_mac (macs.getD a ""))) := by
  intro n
  induction n with
  | zero => intro i msg h; simp [mac_loop] at h
  | succ n ih =>
    intro i msg h
    unfold mac_loop at h
    by_cases hr : E.is_valid_mac_str (macs.getD i "") < 0
    · rw [if_pos hr] at h
      have hm : msg = msg_invalid_mac (macs.getD i "") := by simpa using h.symm
      exact ⟨i, le_refl _, by omega, Or.inl ⟨hr, hm⟩⟩
    · rw [if_neg hr] at h
      by_cases hd : mac_dup_loop macs i (macs.length - (i + 1)) (i + 1) = true
      · rw [if_pos hd] at h
        have hm : msg = msg_dup_mac (macs.getD i "") := by simpa using h.symm
        obtain ⟨b, h1, h2, h3⟩ := (mac_dup_loop_iff macs i _ _).1 hd
        exact ⟨i, le_refl _, by omega, Or.inr ⟨⟨b, by omega, by omega, h3⟩, hm⟩⟩
      · rw [if_neg hd] at h
        obtain ⟨a, h1, h2, h3⟩ := ih (i + 1) msg h
        exact ⟨a, by omega, by omega, h3⟩

/-- A list of pairwise distinct MAC strings that the validity function accepts passes the
check. -/
theorem check_macs_none_of_valid (E : env_t) (macs : List String)
    (hr : ∀ m, m ∈ macs → 0 ≤ E.is_valid_mac_str m) (hd : macs.Nodup) :
    check_macs E macs = none := by
  have hmem : ∀ a, a < macs.length → macs.getD a "" ∈ macs := by
    intro a ha
    rw [List.getD_eq_getElem macs "" ha]
    exact List.getElem_mem ha
  unfold check_macs
  by_cases hlen : macs.length = 1
  · rw [if_pos hlen]
    have := hr _ (hmem 0 (by omega))
    have hc : ¬ (E.is_valid_mac_str (macs.getD 0 "") < 0) := by omega
    rw [if_neg hc]
  · rw [if_neg hlen]
    cases hc : mac_loop E macs (macs.length - 1) 0 with
    | none => rfl
    | some msg =>
      exfalso
      obtain ⟨a, _, h2, h3⟩ := mac_loop_some E macs _ 0 msg hc
      rcases h3 with ⟨h4, _⟩ | ⟨⟨b, c1, c2, c3⟩, _⟩
      · have := hr _ (hmem a (by omega))
        omega
      · have := getD_inj_of_nodup macs "" hd a b (by omega) c2 c3
        omega

/-! ## The claims -/

/-- C1. Atomic rejection: whenever `vfd_add_vf` returns 0, whichever validation step
rejected the descriptor, the store it leaves is the store it was given. -/
theorem add_vf_atomic_rejection (K : consts) (E : env_t) (conf : sriov_conf_t)
    (fname : Option String) (h : (vfd_add_vf K E conf fname).rc = 0) :
    (vfd_add_vf K E conf fname).conf = conf :=
  add_vf_rc_zero_conf K E conf fname h

/-- Instance of C1: the descriptor with a repeated VLAN id is rejected and the example store is left
as it was. -/
theorem add_vf_atomic_rejection_witness :
    (vfd_add_vf K0 E0 conf0 (some "vlan_dup.json")).rc = 0 ∧
    (vfd_add_vf K0 E0 conf0 (some "vlan_dup.json")).conf = conf0 :=
  ⟨by decide, add_vf_atomic_rejection K0 E0 conf0 (some "vlan_dup.json") (by decide)⟩

/-- Admission under the checks of the code: a descriptor that passes the twelve checks as
`vfd_add_vf` performs them on port `p` (`passes_checks_1_4`, `passes_checks_5_8`, whose
bound on the id is `vfid < nvfs_config`, and `passes_checks_9_12`) is admitted: the call
returns 1, clears the reason, and the slot chosen holds the record built from the
descriptor, whose `num` is the id and whose marker is `ADDED`. Lists of valid and pairwise
distinct VLAN ids and MAC strings pass checks 9 and 10 by `check_vlans_none_of_valid` and
`check_macs_none_of_valid`. -/
theorem add_vf_admits_valid (K : consts) (E : env_t) (conf : sriov_conf_t) (fn : String)
    (vfc : vf_config_t) (pciid : String) (p : Nat) (st : scan_t)
    (hrd : E.read_config fn = Except.ok vfc)
    (h14 : passes_checks_1_4 K conf vfc pciid p st)
    (h58 : passes_checks_5_8 K (conf.ports p) vfc st)
    (h912 : passes_checks_9_12 K E conf vfc) :
    (vfd_add_vf K E conf (some fn)).rc = 1 ∧
    (vfd_add_vf K E conf (some fn)).reason = none ∧
    ((vfd_add_vf K E conf (some fn)).conf.ports p).vfs (vidx_of (conf.ports p) st) =
      new_vf K vfc ∧
    (((vfd_add_vf K E conf (some fn)).conf.ports p).vfs (vidx_of (conf.ports p) st)).num =
      vfc.vfid ∧
    (((vfd_add_vf K E conf (some fn)).conf.ports p).vfs
      (vidx_of (conf.ports p) st)).last_updated = K.ADDED := by
  have heq : vfd_add_vf K E conf (some fn) =
      { rc := 1, reason := none,
        conf := install_vf K conf p (vidx_of (conf.ports p) st) vfc } := by
    rw [add_vf_of_scan K E conf fn vfc pciid p hrd h14.has_pciid h14.id_min h14.port_found,
      h14.id_free]
    simp only
    rw [add_vf_limits_of_passes K E conf p st vfc h14.id_min h14.id_max h14.slot_in_range h58,
      add_vf_lists_of_passes K E conf p _ vfc h912]
  have hslot : ((install_vf K conf p (vidx_of (conf.ports p) st) vfc).ports p).vfs
      (vidx_of (conf.ports p) st) = new_vf K vfc := by
    rw [install_vf_port]; simp
  rw [heq]
  refine ⟨rfl, rfl, hslot, ?_, ?_⟩
  · show (((install_vf K conf p (vidx_of (conf.ports p) st) vfc).ports p).vfs
      (vidx_of (conf.ports p) st)).num = vfc.vfid
    rw [hslot]; rfl
  · show (((install_vf K conf p (vidx_of (conf.ports p) st) vfc).ports p).vfs
      (vidx_of (conf.ports p) st)).last_updated = K.ADDED
    rw [hslot]; rfl

/-- The basic admission scenario: on port `0000:01:00.0` with 4 configured
VFs the descriptor with id 3, VLANs 10 and 20, one MAC and 50 per cent of class 0 passes
the checks; it is admitted into slot 0 with `num = 3` and marker `ADDED`. -/
theorem add_vf_admits_valid_witness :
    (vfd_add_vf K0 E0 conf0 (some "vf3.json")).rc = 1 ∧
    (vfd_add_vf K0 E0 conf0 (some "vf3.json")).reason = none ∧
    ((vfd_add_vf K0 E0 conf0 (some "vf3.json")).conf.ports 0).vfs 0 = new_vf K0 vfc3 ∧
    (((vfd_add_vf K0 E0 conf0 (some "vf3.json")).conf.ports 0).vfs 0).num = 3 ∧
    (((vfd_add_vf K0 E0 conf0 (some "vf3.json")).conf.ports 0).vfs 0).last_updated = 1 :=
  add_vf_admits_valid K0 E0 conf0 "vf3.json" vfc3 "0000:01:00.0" 0 scan_init rfl
    ⟨rfl, by decide, by decide, rfl, by decide, by decide⟩
    ⟨by decide, by decide, by decide, by decide, by decide, by decide⟩
    ⟨check_vlans_none_of_valid [10, 20] (by decide) (by decide),
      check_macs_none_of_valid E0 ["aa:bb:cc:dd:ee:ff"] (by decide) (by decide),
      by decide, by decide, by decide⟩

/-- C3. Duplicate-id rejection: a descriptor (well-formed, id at least 1) whose id is the
`num` of a slot among the first `num_vfs` of its port, whatever the marker of that slot, is
rejected with the reason `vfid N already exists on port P` and the store is left as it was
(`fail` is the return of 0 with that reason and the store passed in). In particular, once a
descriptor has been admitted, a further descriptor with the same device and id is rejected
in the same way, also when `vfd_del_vf` has been called in between, since it leaves the id
of the slot in place. -/
theorem add_vf_duplicate_id (K : consts) (E : env_t) (conf : sriov_conf_t) (fn : String)
    (vfc : vf_config_t) (pciid : String) (p : Nat)
    (hrd : E.read_config fn = Except.ok vfc) (hpci : vfc.pciid = some pciid)
    (hid : 1 ≤ vfc.vfid) (hport : find_port conf pciid conf.num_ports 0 = some p) :
    (∀ i, i < (conf.ports p).num_vfs → ((conf.ports p).vfs i).num = vfc.vfid →
      (vfd_add_vf K E conf (some fn)).rc = 0 ∧
      (vfd_add_vf K E conf (some fn)).reason =
        some (snprintf K.BUF_1K (msg_dup_vfid vfc.vfid pciid)) ∧
      (vfd_add_vf K E conf (some fn)).conf = conf) ∧
    ((vfd_add_vf K E conf (some fn)).rc = 1 →
      ∀ (parms : parms_t) (fnd : Option String) (fn2 : String) (vfc2 : vf_config_t),
        E.read_config fn2 = Except.ok vfc2 → vfc2.pciid = some pciid →
        vfc2.vfid = vfc.vfid →
        vfd_add_vf K E (vfd_add_vf K E conf (some fn)).conf (some fn2) =
          fail K (vfd_add_vf K E conf (some fn)).conf (msg_dup_vfid vfc.vfid pciid) ∧
        vfd_add_vf K E (vfd_del_vf K E parms (vfd_add_vf K E conf (some fn)).conf fnd).conf
            (some fn2) =
          fail K (vfd_del_vf K E parms (vfd_add_vf K E conf (some fn)).conf fnd).conf
            (msg_dup_vfid vfc.vfid pciid)) := by
  constructor
  · intro i hi hnum
    rw [add_vf_dup_reject K E conf fn vfc pciid p i hrd hpci hid hport hi hnum]
    exact ⟨rfl, rfl, rfl⟩
  · intro hok parms fnd fn2 vfc2 hrd2 hpci2 hvfid
    obtain ⟨st, h14, _, _, heq⟩ := add_vf_success_at K E conf fn vfc pciid p hrd hpci hport hok
    rw [heq]
    simp only
    have hlt := vidx_lt_new_num_vfs (conf.ports p) vfc.vfid st h14.id_free
    generalize vidx_of (conf.ports p) st = idx at hlt
    have hport1 : find_port (install_vf K conf p idx vfc) pciid
        (install_vf K conf p idx vfc).num_ports 0 = some p := by
      rw [find_port_congr conf _ pciid (install_vf_pciid K conf p idx vfc)]
      exact hport
    have hn1 : ((install_vf K conf p idx vfc).ports p).num_vfs =
        (if idx = (conf.ports p).num_vfs then (conf.ports p).num_vfs + 1
         else (conf.ports p).num_vfs) := by
      rw [install_vf_port]
    have hs1 : (((install_vf K conf p idx vfc).ports p).vfs idx).num = vfc2.vfid := by
      rw [install_vf_port, hvfid]; simp [new_vf]
    have hid2 : 1 ≤ vfc2.vfid := by omega
    constructor
    · rw [← hvfid]
      exact add_vf_dup_reject K E _ fn2 vfc2 pciid p idx hrd2 hpci2 hid2 hport1
        (by rw [hn1]; exact hlt) hs1
    · obtain ⟨k1, k2⟩ := del_vf_keeps K E parms (install_vf K conf p idx vfc) fnd
      have hport2 : find_port (vfd_del_vf K E parms (install_vf K conf p idx vfc) fnd).conf pciid
          (vfd_del_vf K E parms (install_vf K conf p idx vfc) fnd).conf.num_ports 0 = some p := by
        rw [find_port_congr (install_vf K conf p idx vfc) _ pciid (fun q => (k2 q 0).2.2.2.2), k1]
        exact hport1
      rw [← hvfid]
      exact add_vf_dup_reject K E _ fn2 vfc2 pciid p idx hrd2 hpci2 hid2 hport2
        (by rw [(k2 p idx).2.2.2.1, hn1]; exact hlt) (by rw [(k2 p idx).1]; exact hs1)

/-- Instance of C3: with VF 3 admitted on the example port, a second descriptor with id 3
is rejected with `vfid 3 already exists on port 0000:01:00.0`, the store is left as it was,
and this is still so after `vfd_del_vf` has marked VF 3 for deletion. -/
theorem add_vf_duplicate_id_witness :
    ((vfd_add_vf K0 E0 conf1 (some "vf3b.json")).rc = 0 ∧
      (vfd_add_vf K0 E0 conf1 (some "vf3b.json")).reason =
        some (snprintf K0.BUF_1K (msg_dup_vfid 3 "0000:01:00.0")) ∧
      (vfd_add_vf K0 E0 conf1 (some "vf3b.json")).conf = conf1) ∧
    (vfd_add_vf K0 E0 conf1 (some "vf3b.json")).reason =
      some "vfid 3 already exists on port 0000:01:00.0" ∧
    (vfd_add_vf K0 E0 (vfd_del_vf K0 E0 parms0 conf1 (some "vf3.json")).conf
      (some "vf3b.json")).rc = 0 :=
  ⟨(add_vf_duplicate_id K0 E0 conf1 "vf3b.json" (mk_vfc 3 [30] ["aa:bb:cc:dd:ee:01"])
      "0000:01:00.0" 0 rfl rfl (by decide) (by decide)).1 0 (by decide) (by decide),
    by decide, by decide⟩

/-- Well-formedness is kept by the embedded `vfd_add_vf` and `vfd_del_vf`: when every port
of the table has its high-water mark within `MAX_VFS`, active VFs with pairwise distinct
ids in 1..31 and VLAN and MAC counts within the per-VF caps, and totals within the per-port
caps, the same holds of the store left by either call, whether it succeeds or fails. The
embedded slot holds a MAC string of any length, so this is a statement about the program
for the calls in which no copy of line 452 writes past its array. -/
theorem store_wf_invariant (K : consts) (E : env_t) (parms : parms_t) (conf : sriov_conf_t)
    (fname : Option String) (hwf : store_wf K conf) :
    store_wf K (vfd_add_vf K E conf fname).conf ∧
    store_wf K (vfd_del_vf K E parms conf fname).conf := by
  constructor
  · rcases add_vf_rc K E conf fname with h0 | h1
    · rw [add_vf_rc_zero_conf K E conf fname h0]; exact hwf
    · obtain ⟨fn, vfc, pciid, p, st, _, _, h14, h58, _, heq⟩ := add_vf_success K E conf fname h1
      rw [heq]
      intro q hq
      have hq2 : q < conf.num_ports := hq
      by_cases hqp : q = p
      · subst hqp
        show port_wf K ((install_vf K conf q (vidx_of (conf.ports q) st) vfc).ports q)
        rw [install_vf_port]
        exact port_wf_install K (conf.ports q) vfc st (hwf q hq2) h14.id_free h14.slot_in_range
          h14.id_min h14.id_max h58
      · show port_wf K ((install_vf K conf p (vidx_of (conf.ports p) st) vfc).ports q)
        rw [install_vf_other K conf p _ vfc q hqp]
        exact hwf q hq2
  · obtain ⟨k1, k2⟩ := del_vf_keeps K E parms conf fname
    intro q hq
    rw [k1] at hq
    exact port_wf_congr K (conf.ports q) _ (k2 q 0).2.2.2.1
      (fun j => ⟨(k2 q j).1, (k2 q j).2.1, (k2 q j).2.2.1⟩) (hwf q hq)

/-- The example store is well-formed, hence so is the store holding VFs 1,
2 and 3, the store left by the rejected re-admission of id 3 and the store in which VF 2
is marked for deletion. -/
theorem store_wf_invariant_witness :
    store_wf K0 conf0 ∧ store_wf K0 conf123 ∧
    store_wf K0 (vfd_add_vf K0 E0 conf123 (some "vf3b.json")).conf ∧
    store_wf K0 conf_marked := by
  have wf0 : store_wf K0 conf0 := by
    intro p _
    exact ⟨Nat.zero_le _, fun i hi => absurd hi (Nat.not_lt_zero i),
      fun i j hi => absurd hi (Nat.not_lt_zero i), by show (0 : Int) ≤ 64; decide,
      by show (0 : Int) ≤ 128; decide⟩
  have wf1 := (store_wf_invariant K0 E0 parms0 conf0 (some "vf1.json") wf0).1
  have wf2 := (store_wf_invariant K0 E0 parms0 _ (some "vf2.json") wf1).1
  have wf3 : store_wf K0 conf123 :=
    (store_wf_invariant K0 E0 parms0 _ (some "vf3.json") wf2).1
  exact ⟨wf0, wf3, (store_wf_invariant K0 E0 parms0 conf123 (some "vf3b.json") wf3).1,
    (store_wf_invariant K0 E0 parms0 conf123 (some "vf2.json") wf3).2⟩

/-- Hole reuse and high-water mark in the embedding: on a successful call for a descriptor
of port `p`, if slot `h` below `num_vfs` is the lowest hole, the record is installed at `h`
and `num_vfs` is unchanged; if there is no hole below `num_vfs`, it is installed at index
`num_vfs`, `num_vfs` grows by exactly 1 and there is still no hole below it. Every other
slot of the port, every other field of the port, every other port and the rest of the
store are as they were in the embedded store, whose slots hold a MAC string of any length:
for the program this is so for the calls in which no copy of line 452 writes past its
array. -/
theorem add_vf_hole_reuse (K : consts) (E : env_t) (conf : sriov_conf_t) (fn : String)
    (vfc : vf_config_t) (pciid : String) (p : Nat)
    (hrd : E.read_config fn = Except.ok vfc) (hpci : vfc.pciid = some pciid)
    (hport : find_port conf pciid conf.num_ports 0 = some p)
    (hok : (vfd_add_vf K E conf (some fn)).rc = 1) :
    (∀ h, h < (conf.ports p).num_vfs → ((conf.ports p).vfs h).num < 0 →
      (∀ j, j < h → ¬ ((conf.ports p).vfs j).num < 0) →
      ((vfd_add_vf K E conf (some fn)).conf.ports p).vfs h = new_vf K vfc ∧
      ((vfd_add_vf K E conf (some fn)).conf.ports p).num_vfs = (conf.ports p).num_vfs ∧
      ∀ j, j ≠ h →
        ((vfd_add_vf K E conf (some fn)).conf.ports p).vfs j = (conf.ports p).vfs j) ∧
    ((∀ j, j < (conf.ports p).num_vfs → ¬ ((conf.ports p).vfs j).num < 0) →
      ((vfd_add_vf K E conf (some fn)).conf.ports p).vfs (conf.ports p).num_vfs =
        new_vf K vfc ∧
      ((vfd_add_vf K E conf (some fn)).conf.ports p).num_vfs = (conf.ports p).num_vfs + 1 ∧
      (∀ j, j ≠ (conf.ports p).num_vfs →
        ((vfd_add_vf K E conf (some fn)).conf.ports p).vfs j = (conf.ports p).vfs j) ∧
      ∀ j, j < (conf.ports p).num_vfs + 1 →
        ¬ (((vfd_add_vf K E conf (some fn)).conf.ports p).vfs j).num < 0) ∧
    (((vfd_add_vf K E conf (some fn)).conf.ports p).name = (conf.ports p).name ∧
      ((vfd_add_vf K E conf (some fn)).conf.ports p).pciid = (conf.ports p).pciid ∧
      ((vfd_add_vf K E conf (some fn)).conf.ports p).last_updated =
        (conf.ports p).last_updated ∧
      ((vfd_add_vf K E conf (some fn)).conf.ports p).mtu = (conf.ports p).mtu ∧
      ((vfd_add_vf K E conf (some fn)).conf.ports p).flags = (conf.ports p).flags ∧
      ((vfd_add_vf K E conf (some fn)).conf.ports p).nvfs_config =
        (conf.ports p).nvfs_config ∧
      ((vfd_add_vf K E conf (some fn)).conf.ports p).num_mirrors =
        (conf.ports p).num_mirrors) ∧
    (∀ q, q ≠ p → (vfd_add_vf K E conf (some fn)).conf.ports q = conf.ports q) ∧
    (vfd_add_vf K E conf (some fn)).conf.num_ports = conf.num_ports ∧
    (vfd_add_vf K E conf (some fn)).conf.flags = conf.flags ∧
    (vfd_add_vf K E conf (some fn)).conf.vfs = conf.vfs := by
  obtain ⟨st, h14, _, _, heq⟩ := add_vf_success_at K E conf fn vfc pciid p hrd hpci hport hok
  obtain ⟨_, _, _, s4⟩ := scan_full (conf.ports p) vfc.vfid st h14.id_free
  rw [heq]
  simp only
  generalize vidx_of (conf.ports p) st = idx at s4
  rw [install_vf_port]
  refine ⟨?_, ?_, ⟨rfl, rfl, rfl, rfl, rfl, rfl, rfl⟩,
    fun q hq => install_vf_other K conf p idx vfc q hq, rfl, rfl, rfl⟩
  · intro h hh hhole hlow
    have hidx : idx = h := by
      rcases s4 with ⟨b1, b2, b3⟩ | ⟨_, b2⟩
      · rcases Nat.lt_trichotomy idx h with c | c | c
        · exact absurd b2 (hlow idx c)
        · exact c
        · exact absurd hhole (b3 h c)
      · exact absurd hhole (b2 h hh)
    subst hidx
    have hne : idx ≠ (conf.ports p).num_vfs := by omega
    exact ⟨Function.update_same _ _ _, if_neg hne, fun j hj => Function.update_noteq hj _ _⟩
  · intro hnone
    have hidx : idx = (conf.ports p).num_vfs := by
      rcases s4 with ⟨b1, b2, _⟩ | ⟨b1, _⟩
      · exact absurd b2 (hnone idx b1)
      · exact b1
    subst hidx
    refine ⟨Function.update_same _ _ _, if_pos rfl, fun j hj => Function.update_noteq hj _ _,
      fun j hj => ?_⟩
    by_cases hjn : j = (conf.ports p).num_vfs
    · rw [hjn]
      simp only [Function.update_same]
      have : (new_vf K vfc).num = vfc.vfid := rfl
      have := h14.id_min
      omega
    · simp only [Function.update_noteq hjn]
      exact hnone j (by omega)

/-- The re-admission scenario: after the admissions of VFs 1, 2 and 3, the deletion of
VF 2 and the clearing of its slot (slot 1), the re-admission of id 2 succeeds, the record sits at slot 1
and `num_vfs` is still 3. -/
theorem add_vf_hole_reuse_witness :
    (vfd_add_vf K0 E0 conf_freed (some "vf2.json")).rc = 1 ∧
    (conf_freed.ports 0).num_vfs = 3 ∧
    ((vfd_add_vf K0 E0 conf_freed (some "vf2.json")).conf.ports 0).vfs 1 =
      new_vf K0 (mk_vfc 2 [12] ["aa:bb:cc:dd:ee:12"]) ∧
    ((vfd_add_vf K0 E0 conf_freed (some "vf2.json")).conf.ports 0).num_vfs = 3 := by
  have h := (add_vf_hole_reuse K0 E0 conf_freed "vf2.json" (mk_vfc 2 [12] ["aa:bb:cc:dd:ee:12"])
    "0000:01:00.0" 0 rfl rfl (by decide) (by decide)).1 1 (by decide) (by decide)
    (by intro j hj; interval_cases j; decide)
  exact ⟨by decide, by decide, h.1, h.2.1⟩

/-- C6. A descriptor whose id is outside 1..31 is rejected and the store is left as it
was, whatever the store. -/
theorem add_vf_id_out_of_range (K : consts) (E : env_t) (conf : sriov_conf_t) (fn : String)
    (vfc : vf_config_t) (hrd : E.read_config fn = Except.ok vfc)
    (hid : vfc.vfid ≤ 0 ∨ 32 ≤ vfc.vfid) :
    (vfd_add_vf K E conf (some fn)).rc = 0 ∧ (vfd_add_vf K E conf (some fn)).conf = conf := by
  have h0 : (vfd_add_vf K E conf (some fn)).rc = 0 := by
    rcases add_vf_rc K E conf (some fn) with h | h
    · exact h
    · exfalso
      obtain ⟨fn2, vfc2, pciid, p, st, h1, h2, h3, _⟩ := add_vf_success K E conf (some fn) h
      have e1 : fn2 = fn := by simpa using h1.symm
      subst e1
      have e2 : vfc2 = vfc := by rw [hrd] at h2; simpa using h2.symm
      subst e2
      have := h3.id_min
      have := h3.id_max
      omega
  exact ⟨h0, add_vf_rc_zero_conf K E conf (some fn) h0⟩

/-- Instance of C6: the descriptor with id 32 is rejected on the store holding VF 3. -/
theorem add_vf_id_out_of_range_witness :
    (vfd_add_vf K0 E0 conf1 (some "vf32.json")).rc = 0 ∧
    (vfd_add_vf K0 E0 conf1 (some "vf32.json")).conf = conf1 :=
  add_vf_id_out_of_range K0 E0 conf1 "vf32.json" (mk_vfc 32 [15] ["aa:bb:cc:dd:ee:15"]) rfl
    (by decide)

/-- C7, evaluated at the failing input. On the example port the descriptor with the VLAN
list `[10, 5000]` is admitted: the last id of a list of two or more is never compared with
the range, and 5000 is stored in the installed VF. -/
theorem add_vf_vlan_last_unchecked :
    (vfd_add_vf K0 E0 conf0 (some "vlan_last.json")).rc = 1 ∧
    (((vfd_add_vf K0 E0 conf0 (some "vlan_last.json")).conf.ports 0).vfs 0).num_vlans = 2 ∧
    (((vfd_add_vf K0 E0 conf0 (some "vlan_last.json")).conf.ports 0).vfs 0).vlans 1 = 5000 := by
  decide

/-- C8, as stated, fails. The VLAN list `[4096, 7, 7]` holds the id 7 at two positions, yet
the call is rejected with the range reason of the id 4096 met first, not with a
duplicate-VLAN reason. -/
theorem add_vf_vlan_duplicate_counterexample :
    ([4096, 7, 7] : List Int).getD 1 0 = ([4096, 7, 7] : List Int).getD 2 0 ∧
    E0.read_config "vlan_range_dup.json" =
      Except.ok (mk_vfc 3 [4096, 7, 7] ["aa:bb:cc:dd:ee:ff"]) ∧
    (vfd_add_vf K0 E0 conf0 (some "vlan_range_dup.json")).reason =
      some "invalid vlan id: 4096" ∧
    (vfd_add_vf K0 E0 conf0 (some "vlan_range_dup.json")).reason ≠
      some (snprintf K0.BUF_1K (msg_dup_vlan 7)) ∧
    (vfd_add_vf K0 E0 conf0 (some "vlan_range_dup.json")).reason ≠
      some (snprintf K0.BUF_1K (msg_dup_vlan 4096)) := by
  refine ⟨by decide, rfl, by decide, by decide, by decide⟩

/-- C8, amended. A descriptor whose VLAN list holds the same id at two positions is
rejected and the store is left as it was, whatever the store; when it passes checks 1 to 8
and every id of the list is in 1..4095, the reason is `dupliate vlan in list: N` for an id
`N` that the list holds at two positions. A descriptor that passes checks 1 to 8 and whose
VLAN list is a single id outside 1..4095 (0 or 4096, say) is rejected with
`invalid vlan id: N` and the store is left as it was. -/
theorem add_vf_vlan_duplicate (K : consts) (E : env_t) (conf : sriov_conf_t) (fn : String)
    (vfc : vf_config_t) (hrd : E.read_config fn = Except.ok vfc) :
    ((∃ a b, a < b ∧ b < vfc.vlans.length ∧ vfc.vlans.getD a 0 = vfc.vlans.getD b 0) →
      (vfd_add_vf K E conf (some fn)).rc = 0 ∧
      (vfd_add_vf K E conf (some fn)).conf = conf ∧
      ∀ pciid p st, passes_checks_1_4 K conf vfc pciid p st →
        passes_checks_5_8 K (conf.ports p) vfc st →
        (∀ v, v ∈ vfc.vlans → 1 ≤ v ∧ v ≤ 4095) →
        ∃ a b, a < b ∧ b < vfc.vlans.length ∧ vfc.vlans.getD a 0 = vfc.vlans.getD b 0 ∧
          (vfd_add_vf K E conf (some fn)).reason =
            some (snprintf K.BUF_1K (msg_dup_vlan (vfc.vlans.getD a 0)))) ∧
    (∀ v pciid p st, vfc.vlans = [v] → (v < 1 ∨ v > 4095) →
      passes_checks_1_4 K conf vfc pciid p st → passes_checks_5_8 K (conf.ports p) vfc st →
      (vfd_add_vf K E conf (some fn)).rc = 0 ∧
      (vfd_add_vf K E conf (some fn)).reason = some (snprintf K.BUF_1K (msg_invalid_vlan v)) ∧
      (vfd_add_vf K E conf (some fn)).conf = conf) := by
  constructor
  · rintro ⟨a, b, hab, hb, heq⟩
    have hne := check_vlans_some_of_dup vfc.vlans a b hab hb heq
    have h0 : (vfd_add_vf K E conf (some fn)).rc = 0 := by
      rcases add_vf_rc K E conf (some fn) with h | h
      · exact h
      · exfalso
        obtain ⟨fn2, vfc2, _, _, _, h1, h2, _, _, h5, _⟩ := add_vf_success K E conf (some fn) h
        have e1 : fn2 = fn := by simpa using h1.symm
        subst e1
        have e2 : vfc2 = vfc := by rw [hrd] at h2; simpa using h2.symm
        subst e2
        exact hne h5.vlans_ok
    refine ⟨h0, add_vf_rc_zero_conf K E conf (some fn) h0, ?_⟩
    intro pciid p st h14 h58 hrange
    have hlen : ¬ vfc.vlans.length = 1 := by omega
    cases hc : check_vlans vfc.vlans with
    | none => exact absurd hc hne
    | some msg =>
      rw [add_vf_vlan_fail K E conf fn vfc pciid p st msg hrd h14 h58 hc]
      unfold check_vlans at hc
      rw [if_neg hlen] at hc
      obtain ⟨a2, _, h2, h3⟩ := vlan_loop_some vfc.vlans _ 0 msg hc
      rcases h3 with ⟨hr, _⟩ | ⟨⟨b2, c1, c2, c3⟩, hm⟩
      · exfalso
        have := hrange _ (getD_mem_of_lt vfc.vlans a2 (by omega))
        omega
      · exact ⟨a2, b2, c1, c2, c3, by rw [hm]; rfl⟩
  · intro v pciid p st hv hr h14 h58
    have hc : check_vlans vfc.vlans = some (msg_invalid_vlan v) := by
      rw [hv]
      simp only [check_vlans, List.length_singleton, if_true, List.getD_cons_zero, if_pos hr]
    rw [add_vf_vlan_fail K E conf fn vfc pciid p st _ hrd h14 h58 hc]
    exact ⟨rfl, rfl, rfl⟩

/-- Instance of C8 as amended: on the example port the VLAN list `[10, 20, 10]` is rejected
with `dupliate vlan in list: 10`, the singleton list `[0]` with `invalid vlan id: 0`, and
the store is left as it was. -/
theorem add_vf_vlan_duplicate_witness :
    ((vfd_add_vf K0 E0 conf0 (some "vlan_dup.json")).rc = 0 ∧
      (vfd_add_vf K0 E0 conf0 (some "vlan_dup.json")).conf = conf0) ∧
    (vfd_add_vf K0 E0 conf0 (some "vlan_dup.json")).reason =
      some "dupliate vlan in list: 10" ∧
    ((vfd_add_vf K0 E0 conf0 (some "vlan_zero.json")).rc = 0 ∧
      (vfd_add_vf K0 E0 conf0 (some "vlan_zero.json")).reason =
        some (snprintf K0.BUF_1K (msg_invalid_vlan 0)) ∧
      (vfd_add_vf K0 E0 conf0 (some "vlan_zero.json")).conf = conf0) ∧
    (vfd_add_vf K0 E0 conf0 (some "vlan_zero.json")).reason = some "invalid vlan id: 0" := by
  have h1 := (add_vf_vlan_duplicate K0 E0 conf0 "vlan_dup.json"
    (mk_vfc 3 [10, 20, 10] ["aa:bb:cc:dd:ee:ff"]) rfl).1 ⟨0, 2, by decide, by decide, by decide⟩
  have h2 := (add_vf_vlan_duplicate K0 E0 conf0 "vlan_zero.json"
    (mk_vfc 3 [0] ["aa:bb:cc:dd:ee:ff"]) rfl).2 0 "0000:01:00.0" 0 scan_init rfl (by decide)
    ⟨rfl, by decide, by decide, rfl, by decide, by decide⟩
    ⟨by decide, by decide, by decide, by decide, by decide, by decide⟩
  exact ⟨⟨h1.1, h1.2.1⟩, by decide, h2, by decide⟩

/-- C9, evaluated at the failing input. On the example port the descriptor with the MAC
list `["aa:bb:cc:dd:ee:ff", "not-a-mac"]` is admitted although the validity function
rejects its second string: the last string of a list of two or more is never passed to
`is_valid_mac_str`, and it is copied into the installed VF. -/
theorem add_vf_mac_last_unchecked :
    E0.is_valid_mac_str "not-a-mac" < 0 ∧
    (vfd_add_vf K0 E0 conf0 (some "mac_last.json")).rc = 1 ∧
    (((vfd_add_vf K0 E0 conf0 (some "mac_last.json")).conf.ports 0).vfs 0).num_macs = 2 ∧
    (((vfd_add_vf K0 E0 conf0 (some "mac_last.json")).conf.ports 0).vfs 0).macs 1 =
      "not-a-mac" := by
  decide

/-- C10, evaluated at the failing input. On the example port, configured for 4 VFs, the
descriptor with id 4 passes checks 1 to 4 and is then rejected with the reason
`only 4 VFs are configured`, although 4 does not exceed 4: the code compares with `>=`. -/
theorem add_vf_id_equal_to_configured :
    (conf0.ports 0).nvfs_config = 4 ∧
    passes_checks_1_4 K0 conf0 (mk_vfc 4 [14] ["aa:bb:cc:dd:ee:14"]) "0000:01:00.0" 0
      scan_init ∧
    (vfd_add_vf K0 E0 conf0 (some "vf4.json")).rc = 0 ∧
    (vfd_add_vf K0 E0 conf0 (some "vf4.json")).reason =
      some "vf 4 is out of range; only 4 VFs are configured on port 0000:01:00.0" := by
  refine ⟨by decide, ⟨rfl, by decide, by decide, rfl, by decide, by decide⟩, by decide,
    by decide⟩

/-! ## Traffic classes, round trip and hooks -/

theorem sum_tcs_congr (K : consts) (conf conf2 : sriov_conf_t) (h : conf2.vfs = conf.vfs) :
    ∀ (n i : Nat) (totals : Nat → Int), sum_tcs K conf2 n i totals = sum_tcs K conf n i totals := by
  intro n
  induction n with
  | zero => intro i totals; rfl
  | succ n ih => intro i totals; simp only [sum_tcs, h, ih]

/-- The traffic class check and its gate only read `conf->vfs` and `conf->flags`, which no
admission changes: their verdict is the same before and after any call of `vfd_add_vf`. -/
theorem add_vf_keeps_tc_verdict (K : consts) (E : env_t) (conf : sriov_conf_t)
    (fname : Option String) (tcpctgs : List Nat) :
    check_tcs K (vfd_add_vf K E conf fname).conf tcpctgs = check_tcs K conf tcpctgs ∧
    tc_gate K (vfd_add_vf K E conf fname).conf = tc_gate K conf := by
  have hkeep : (vfd_add_vf K E conf fname).conf.vfs = conf.vfs ∧
      (vfd_add_vf K E conf fname).conf.flags = conf.flags := by
    rcases add_vf_rc K E conf fname with h0 | h1
    · rw [add_vf_rc_zero_conf K E conf fname h0]; exact ⟨rfl, rfl⟩
    · obtain ⟨_, _, _, _, _, _, _, _, _, _, heq⟩ := add_vf_success K E conf fname h1
      rw [heq]; exact ⟨rfl, rfl⟩
  constructor
  · unfold check_tcs
    rw [sum_tcs_congr K conf _ hkeep.1]
  · unfold tc_gate
    rw [hkeep.2]

theorem copy_vlans_get (src : List Int) :
    ∀ (n i : Nat) (dst : Nat → Int) (k : Nat),
      copy_vlans src n i dst k = if i ≤ k ∧ k < i + n then src.getD k 0 else dst k := by
  intro n
  induction n with
  | zero =>
    intro i dst k
    have hc : ¬ (i ≤ k ∧ k < i + 0) := by omega
    simp only [copy_vlans, if_neg hc]
  | succ n ih =>
    intro i dst k
    simp only [copy_vlans, ih]
    by_cases hk : k = i
    · subst hk
      have c1 : ¬ (k + 1 ≤ k ∧ k < k + 1 + n) := by omega
      have c2 : k ≤ k ∧ k < k + (n + 1) := by omega
      rw [if_neg c1, if_pos c2, Function.update_same]
    · by_cases hr : i + 1 ≤ k ∧ k < i + 1 + n
      · have c2 : i ≤ k ∧ k < i + (n + 1) := by omega
        rw [if_pos hr, if_pos c2]
      · have c2 : ¬ (i ≤ k ∧ k < i + (n + 1)) := by omega
        rw [if_neg hr, if_neg c2, Function.update_noteq hk]

theorem copy_macs_get (src : List String) :
    ∀ (n i : Nat) (dst : Nat → String) (k : Nat),
      copy_macs src n i dst k = if i ≤ k ∧ k < i + n then src.getD k "" else dst k := by
  intro n
  induction n with
  | zero =>
    intro i dst k
    have hc : ¬ (i ≤ k ∧ k < i + 0) := by omega
    simp only [copy_macs, if_neg hc]
  | succ n ih =>
    intro i dst k
    simp only [copy_macs, ih]
    by_cases hk : k = i
    · subst hk
      have c1 : ¬ (k + 1 ≤ k ∧ k < k + 1 + n) := by omega
      have c2 : k ≤ k ∧ k < k + (n + 1) := by omega
      rw [if_neg c1, if_pos c2, Function.update_same]
    · by_cases hr : i + 1 ≤ k ∧ k < i + 1 + n
      · have c2 : i ≤ k ∧ k < i + (n + 1) := by omega
        rw [if_pos hr, if_pos c2]
      · have c2 : ¬ (i ≤ k ∧ k < i + (n + 1)) := by omega
        rw [if_neg hr, if_neg c2, Function.update_noteq hk]

/-- What the record built from a descriptor holds: the VLAN ids and the MAC strings of the
descriptor, in order, and traffic class percentages that are all zero, since lines 400-454
never copy `tcpctgs`. -/
theorem new_vf_lists (K : consts) (vfc : vf_config_t) :
    (new_vf K vfc).num_vlans = vfc.vlans.length ∧
    (∀ k, k < vfc.vlans.length → (new_vf K vfc).vlans k = vfc.vlans.getD k 0) ∧
    (new_vf K vfc).num_macs = vfc.macs.length ∧
    (∀ k, k < vfc.macs.length → (new_vf K vfc).macs k = vfc.macs.getD k "") ∧
    (∀ k, (new_vf K vfc).tc_pctgs k = 0) := by
  refine ⟨rfl, ?_, rfl, ?_, fun k => rfl⟩
  · intro k hk
    show copy_vlans vfc.vlans vfc.vlans.length 0 zero_vf.vlans k = _
    rw [copy_vlans_get, if_pos ⟨Nat.zero_le _, by omega⟩]
  · intro k hk
    show copy_macs vfc.macs vfc.macs.length 0 zero_vf.macs k = _
    rw [copy_macs_get, if_pos ⟨Nat.zero_le _, by omega⟩]

theorem has_semicolon_iff (cb : Option String) :
    has_semicolon cb = true ↔ ∃ s, cb = some s ∧ ';' ∈ s.data := by
  cases cb with
  | none => simp [has_semicolon]
  | some s => simp [has_semicolon]

/-- C11, evaluated at the failing input. On the example port, which is strict (its flags
are clear), two descriptors that each request 60 per cent of traffic class 0 are both
admitted, with either value of the oversubscription flag (`K0`: bit 1, the check is never
reached; `K1`: bit 0, the check runs on `conf->vfs`), so that 120 per cent of class 0 has
been admitted; and the record of the first VF holds 0 per cent, not 60. -/
theorem add_vf_tc_cap_not_enforced :
    Nat.land port0.flags K0.PF_OVERSUB = 0 ∧ Nat.land port0.flags K1.PF_OVERSUB = 0 ∧
    (mk_tc_vfc 1 60).tcpctgs.getD 0 0 + (mk_tc_vfc 2 60).tcpctgs.getD 0 0 = 120 ∧
    (vfd_add_vf K0 E1 conf0 (some "tc60a.json")).rc = 1 ∧
    (vfd_add_vf K0 E1 (vfd_add_vf K0 E1 conf0 (some "tc60a.json")).conf
      (some "tc60b.json")).rc = 1 ∧
    (((vfd_add_vf K0 E1 conf0 (some "tc60a.json")).conf.ports 0).vfs 0).tc_pctgs 0 = 0 ∧
    tc_gate K1 conf0 = 1 ∧
    (vfd_add_vf K1 E1 conf0 (some "tc60a.json")).rc = 1 ∧
    (vfd_add_vf K1 E1 (vfd_add_vf K1 E1 conf0 (some "tc60a.json")).conf
      (some "tc60b.json")).rc = 1 ∧
    (((vfd_add_vf K1 E1 (vfd_add_vf K1 E1 conf0 (some "tc60a.json")).conf
      (some "tc60b.json")).conf.ports 0).vfs 0).num = 1 ∧
    (((vfd_add_vf K1 E1 (vfd_add_vf K1 E1 conf0 (some "tc60a.json")).conf
      (some "tc60b.json")).conf.ports 0).vfs 0).tc_pctgs 0 = 0 ∧
    (((vfd_add_vf K1 E1 (vfd_add_vf K1 E1 conf0 (some "tc60a.json")).conf
      (some "tc60b.json")).conf.ports 0).vfs 1).num = 2 := by
  refine ⟨by decide, by decide, by decide, by decide, by decide, by decide, by decide,
    by decide, by decide, by decide, by decide, by decide⟩

/-- C12, evaluated at the failing inputs. The gate of line 364 is `(!conf->flags) &
PF_OVERSUB` and never reads the flags of the port. With the flag in bit 1 (`K0`) the gate
is 0 and a descriptor that requests 150 per cent of class 0 is admitted on the strict
example port; with the flag in bit 0 (`K1`) the gate is 1 on a port whose oversubscription
flag is set, and the same descriptor is rejected there by the traffic class check. -/
theorem add_vf_tc_gate_ignores_port :
    Nat.land port0.flags K0.PF_OVERSUB = 0 ∧
    tc_gate K0 conf0 = 0 ∧
    check_tcs K0 conf0 (mk_tc_vfc 1 150).tcpctgs = 0 ∧
    (vfd_add_vf K0 E1 conf0 (some "tc150.json")).rc = 1 ∧
    Nat.land (conf_oversub.ports 0).flags K1.PF_OVERSUB ≠ 0 ∧
    tc_gate K1 conf_oversub = 1 ∧
    (vfd_add_vf K1 E1 conf_oversub (some "tc150.json")).rc = 0 ∧
    (vfd_add_vf K1 E1 conf_oversub (some "tc150.json")).reason =
      some (snprintf K1.BUF_1K msg_tc) := by
  refine ⟨by decide, by decide, by decide, by decide, by decide, by decide, by decide,
    by decide⟩

/-- C13, evaluated at the failing input. The descriptor of the basic admission scenario
requests 50 per cent of traffic class 0; the record read back after its admission holds
its two VLAN ids and its MAC string, and 0 per cent for class 0. -/
theorem add_vf_round_trip_drops_tcs :
    vfc3.tcpctgs.getD 0 0 = 50 ∧
    (vfd_add_vf K0 E0 conf0 (some "vf3.json")).rc = 1 ∧
    (((vfd_add_vf K0 E0 conf0 (some "vf3.json")).conf.ports 0).vfs 0).num_vlans = 2 ∧
    (((vfd_add_vf K0 E0 conf0 (some "vf3.json")).conf.ports 0).vfs 0).vlans 0 = 10 ∧
    (((vfd_add_vf K0 E0 conf0 (some "vf3.json")).conf.ports 0).vfs 0).vlans 1 = 20 ∧
    (((vfd_add_vf K0 E0 conf0 (some "vf3.json")).conf.ports 0).vfs 0).num_macs = 1 ∧
    (((vfd_add_vf K0 E0 conf0 (some "vf3.json")).conf.ports 0).vfs 0).macs 0 =
      "aa:bb:cc:dd:ee:ff" ∧
    (((vfd_add_vf K0 E0 conf0 (some "vf3.json")).conf.ports 0).vfs 0).tc_pctgs 0 = 0 := by
  refine ⟨by decide, by decide, by decide, by decide, by decide, by decide, by decide,
    by decide⟩

/-- C14. Hook command sanitisation: a descriptor whose start hook or stop hook is present
and holds a semicolon is rejected and the store is left as it was, whatever the store; and
whenever a descriptor is admitted, the record installed for it (in some slot of some port)
has no semicolon in its `start_cb` nor in its `stop_cb`. -/
theorem add_vf_hook_sanitised (K : consts) (E : env_t) (conf : sriov_conf_t) (fn : String)
    (vfc : vf_config_t) (hrd : E.read_config fn = Except.ok vfc) :
    (((∃ s, vfc.start_cb = some s ∧ ';' ∈ s.data) ∨ (∃ s, vfc.stop_cb = some s ∧ ';' ∈ s.data)) →
      (vfd_add_vf K E conf (some fn)).rc = 0 ∧ (vfd_add_vf K E conf (some fn)).conf = conf) ∧
    ((vfd_add_vf K E conf (some fn)).rc = 1 →
      ∃ p idx, ((vfd_add_vf K E conf (some fn)).conf.ports p).vfs idx = new_vf K vfc ∧
        (∀ s, (((vfd_add_vf K E conf (some fn)).conf.ports p).vfs idx).start_cb = some s →
          ';' ∉ s.data) ∧
        (∀ s, (((vfd_add_vf K E conf (some fn)).conf.ports p).vfs idx).stop_cb = some s →
          ';' ∉ s.data)) := by
  have hsucc : (vfd_add_vf K E conf (some fn)).rc = 1 →
      ∃ p idx, ((vfd_add_vf K E conf (some fn)).conf.ports p).vfs idx = new_vf K vfc ∧
        has_semicolon vfc.start_cb = false ∧ has_semicolon vfc.stop_cb = false := by
    intro h
    obtain ⟨fn2, vfc2, _, p, st, h1, h2, _, _, h5, heq⟩ := add_vf_success K E conf (some fn) h
    have e1 : fn2 = fn := by simpa using h1.symm
    subst e1
    have e2 : vfc2 = vfc := by rw [hrd] at h2; simpa using h2.symm
    subst e2
    refine ⟨p, vidx_of (conf.ports p) st, ?_, h5.start_ok, h5.stop_ok⟩
    rw [heq]
    simp only
    rw [install_vf_port]
    exact Function.update_same _ _ _
  constructor
  · intro hsemi
    have h0 : (vfd_add_vf K E conf (some fn)).rc = 0 := by
      rcases add_vf_rc K E conf (some fn) with h | h
      · exact h
      · exfalso
        obtain ⟨_, _, _, a1, a2⟩ := hsucc h
        rcases hsemi with hs | hs
        · have := (has_semicolon_iff vfc.start_cb).2 hs
          rw [a1] at this; exact absurd this (by simp)
        · have := (has_semicolon_iff vfc.stop_cb).2 hs
          rw [a2] at this; exact absurd this (by simp)
    exact ⟨h0, add_vf_rc_zero_conf K E conf (some fn) h0⟩
  · intro h
    obtain ⟨p, idx, a0, a1, a2⟩ := hsucc h
    refine ⟨p, idx, a0, ?_, ?_⟩
    · intro s hs hmem
      rw [a0] at hs
      have : has_semicolon vfc.start_cb = true :=
        (has_semicolon_iff vfc.start_cb).2 ⟨s, hs, hmem⟩
      rw [a1] at this; exact absurd this (by simp)
    · intro s hs hmem
      rw [a0] at hs
      have : has_semicolon vfc.stop_cb = true :=
        (has_semicolon_iff vfc.stop_cb).2 ⟨s, hs, hmem⟩
      rw [a2] at this; exact absurd this (by simp)

/-- Instance of C14: the descriptor whose start hook is `/bin/true; /bin/sh` is rejected on
the example store, which is left as it was. -/
theorem add_vf_hook_sanitised_witness :
    (vfd_add_vf K0 E1 conf0 (some "hook.json")).rc = 0 ∧
    (vfd_add_vf K0 E1 conf0 (some "hook.json")).conf = conf0 ∧
    (vfd_add_vf K0 E1 conf0 (some "hook.json")).reason =
      some "start_cb command contains invalid character: ;" :=
  ⟨((add_vf_hook_sanitised K0 E1 conf0 "hook.json" vfc_hook rfl).1
      (Or.inl ⟨"/bin/true; /bin/sh", rfl, by decide⟩)).1,
    ((add_vf_hook_sanitised K0 E1 conf0 "hook.json" vfc_hook rfl).1
      (Or.inl ⟨"/bin/true; /bin/sh", rfl, by decide⟩)).2, by decide⟩

/-! ## The removal -/

theorem del_vf_rc_zero_conf (K : consts) (E : env_t) (parms : parms_t) (conf : sriov_conf_t)
    (fname : Option String) (h : (vfd_del_vf K E parms conf fname).rc = 0) :
    (vfd_del_vf K E parms conf fname).conf = conf := by
  revert h
  unfold vfd_del_vf
  repeat' split
  all_goals simp [fail]

/-- A call of `vfd_del_vf` that gets as far as the port of the descriptor returns 1 and
marks the first slot that holds the id, if there is one. -/
theorem del_vf_on_port (K : consts) (E : env_t) (parms : parms_t) (conf : sriov_conf_t)
    (fn : String) (vfc : vf_config_t) (pciid : String) (p : Nat)
    (hrd : E.read_config fn = Except.ok vfc) (hfile : file_retired K E parms fn)
    (hpci : vfc.pciid = some pciid) (hid : 1 ≤ vfc.vfid)
    (hport : find_port conf pciid conf.num_ports 0 = some p) :
    vfd_del_vf K E parms conf (some fn) =
      match find_vf (conf.ports p) vfc.vfid (conf.ports p).num_vfs 0 with
      | some vidx => { rc := 1, reason := none, conf := mark_deleted K conf p vidx }
      | none => { rc := 1, reason := none, conf := conf } := by
  have c : ¬ (vfc.vfid < 1) := by omega
  unfold vfd_del_vf
  simp only [hrd, if_neg hfile.1, if_neg hfile.2, hpci, if_neg c, hport]

/-- A call of `vfd_del_vf` that returns 1 has read a descriptor with a device and an id of
at least 1, has retired its file and has found its port. -/
theorem del_vf_success (K : consts) (E : env_t) (parms : parms_t) (conf : sriov_conf_t)
    (fname : Option String) (h : (vfd_del_vf K E parms conf fname).rc = 1) :
    ∃ fn vfc pciid p, fname = some fn ∧ E.read_config fn = Except.ok vfc ∧
      file_retired K E parms fn ∧ vfc.pciid = some pciid ∧ 1 ≤ vfc.vfid ∧
      find_port conf pciid conf.num_ports 0 = some p := by
  cases fname with
  | none => simp [vfd_del_vf, fail] at h
  | some fn =>
    cases hrd : E.read_config fn with
    | error sub => simp [vfd_del_vf, hrd, fail] at h
    | ok vfc =>
      by_cases c1 : parms.delete_keep ≠ 0 ∧ E.rename fn (snprintf K.BUF_1K (fn ++ "-")) < 0
      · simp [vfd_del_vf, hrd, c1, fail] at h
      · by_cases c2 : parms.delete_keep = 0 ∧ E.unlink fn < 0
        · simp [vfd_del_vf, hrd, c2, fail] at h
        · cases hpci : vfc.pciid with
          | none =>
            unfold vfd_del_vf at h
            simp only [hrd, if_neg c1, if_neg c2, hpci] at h
            simp [fail] at h
          | some pciid =>
            by_cases hid : vfc.vfid < 1
            · unfold vfd_del_vf at h
              simp only [hrd, if_neg c1, if_neg c2, hpci, if_pos hid] at h
              simp [fail] at h
            · cases hport : find_port conf pciid conf.num_ports 0 with
              | none =>
                unfold vfd_del_vf at h
                simp only [hrd, if_neg c1, if_neg c2, hpci, if_neg hid, hport] at h
                simp [fail] at h
              | some p =>
                exact ⟨fn, vfc, pciid, p, rfl, hrd, ⟨c1, c2⟩, hpci, by omega, hport⟩

theorem find_vf_eq_some (port : sriov_port_s) (vfid : Int) :
    ∀ (n i k : Nat), i ≤ k → k < i + n → (port.vfs k).num = vfid →
      (∀ j, i ≤ j → j < k → (port.vfs j).num ≠ vfid) → find_vf port vfid n i = some k := by
  intro n
  induction n with
  | zero => intro i k h1 h2; omega
  | succ n ih =>
    intro i k h1 h2 h3 h4
    unfold find_vf
    by_cases hki : k = i
    · subst hki; rw [if_pos h3]
    · rw [if_neg (h4 i (le_refl _) (by omega))]
      exact ih (i + 1) k (by omega) (by omega) h3 (fun j hj1 hj2 => h4 j (by omega) hj2)

theorem find_vf_eq_none (port : sriov_port_s) (vfid : Int) :
    ∀ (n i : Nat), (∀ j, i ≤ j → j < i + n → (port.vfs j).num ≠ vfid) →
      find_vf port vfid n i = none := by
  intro n
  induction n with
  | zero => intro i _; rfl
  | succ n ih =>
    intro i h
    unfold find_vf
    rw [if_neg (h i (le_refl _) (by omega))]
    exact ih (i + 1) (fun j hj1 hj2 => h j (by omega) (by omega))

theorem find_port_eq_none (conf : sriov_conf_t) (pciid : String) :
    ∀ (n i : Nat), (∀ q, i ≤ q → q < i + n → (conf.ports q).pciid ≠ pciid) →
      find_port conf pciid n i = none := by
  intro n
  induction n with
  | zero => intro i _; rfl
  | succ n ih =>
    intro i h
    unfold find_port
    rw [if_neg (h i (le_refl _) (by omega))]
    exact ih (i + 1) (fun q hq1 hq2 => h q (by omega) (by omega))

/-- C15. Remover atomic failure: whenever `vfd_del_vf` returns 0 the store it leaves is the
store it was given; in particular, when the descriptor is read and retiring its file fails
(the rename when `delete_keep` is set, the unlink otherwise), the call returns 0 with the
reason of that failure and the store, markers included, is left as it was. -/
theorem del_vf_atomic_failure (K : consts) (E : env_t) (parms : parms_t) (conf : sriov_conf_t)
    (fname : Option String) :
    ((vfd_del_vf K E parms conf fname).rc = 0 →
      (vfd_del_vf K E parms conf fname).conf = conf) ∧
    (∀ fn vfc, fname = some fn → E.read_config fn = Except.ok vfc →
      (parms.delete_keep ≠ 0 ∧ E.rename fn (snprintf K.BUF_1K (fn ++ "-")) < 0 →
        vfd_del_vf K E parms conf fname = fail K conf (msg_rename fn E.strerror)) ∧
      (parms.delete_keep = 0 ∧ E.unlink fn < 0 →
        vfd_del_vf K E parms conf fname = fail K conf (msg_unlink fn E.strerror))) := by
  refine ⟨del_vf_rc_zero_conf K E parms conf fname, ?_⟩
  intro fn vfc hfn hrd
  subst hfn
  constructor
  · intro h
    unfold vfd_del_vf
    simp only [hrd, if_pos h]
  · intro h
    have c1 : ¬ (parms.delete_keep ≠ 0 ∧ E.rename fn (snprintf K.BUF_1K (fn ++ "-")) < 0) :=
      fun hc => hc.1 h.1
    unfold vfd_del_vf
    simp only [hrd, if_neg c1, if_pos h]

/-- Instance of C15: when the descriptor file of VF 3 cannot be unlinked, `vfd_del_vf`
returns 0 with the reason of the unlink and VF 3 keeps its marker `ADDED`. -/
theorem del_vf_atomic_failure_witness :
    (vfd_del_vf K0 E_ro parms0 conf1 (some "vf3.json")).rc = 0 ∧
    (vfd_del_vf K0 E_ro parms0 conf1 (some "vf3.json")).conf = conf1 ∧
    (vfd_del_vf K0 E_ro parms0 conf1 (some "vf3.json")).reason =
      some "unable to delete config file: vf3.json: Permission denied" ∧
    (((vfd_del_vf K0 E_ro parms0 conf1 (some "vf3.json")).conf.ports 0).vfs 0).last_updated =
      K0.ADDED :=
  ⟨by decide,
    (del_vf_atomic_failure K0 E_ro parms0 conf1 (some "vf3.json")).1 (by decide),
    by decide, by decide⟩

/-- C16. Deletion marking frame: when `vfd_del_vf` succeeds for a descriptor of port `p`
and slot `i` is the first slot below `num_vfs` whose `num` is the id of the descriptor, the
store left is the store given with the marker of that slot set to `DELETED`: every other
field of the slot (its `num`, which is at least 1, its VLAN and MAC lists), `num_vfs` and
the other fields of the port, every other slot, every other port and the rest of the store
are as they were. -/
theorem del_vf_marks_only (K : consts) (E : env_t) (parms : parms_t) (conf : sriov_conf_t)
    (fn : String) (vfc : vf_config_t) (pciid : String) (p i : Nat)
    (hrd : E.read_config fn = Except.ok vfc) (hpci : vfc.pciid = some pciid)
    (hport : find_port conf pciid conf.num_ports 0 = some p)
    (hok : (vfd_del_vf K E parms conf (some fn)).rc = 1)
    (hi : i < (conf.ports p).num_vfs) (hnum : ((conf.ports p).vfs i).num = vfc.vfid)
    (hfirst : ∀ j, j < i → ((conf.ports p).vfs j).num ≠ vfc.vfid) :
    (vfd_del_vf K E parms conf (some fn)).reason = none ∧
    ((vfd_del_vf K E parms conf (some fn)).conf.ports p).vfs i =
      { (conf.ports p).vfs i with last_updated := K.DELETED } ∧
    1 ≤ (((vfd_del_vf K E parms conf (some fn)).conf.ports p).vfs i).num ∧
    (∀ j, j ≠ i →
      ((vfd_del_vf K E parms conf (some fn)).conf.ports p).vfs j = (conf.ports p).vfs j) ∧
    (vfd_del_vf K E parms conf (some fn)).conf.ports p =
      { conf.ports p with vfs := ((vfd_del_vf K E parms conf (some fn)).conf.ports p).vfs } ∧
    (∀ q, q ≠ p → (vfd_del_vf K E parms conf (some fn)).conf.ports q = conf.ports q) ∧
    (vfd_del_vf K E parms conf (some fn)).conf =
      { conf with ports := (vfd_del_vf K E parms conf (some fn)).conf.ports } := by
  obtain ⟨fn2, vfc2, pciid2, p2, h1, h2, hfile, h4, hid, h6⟩ :=
    del_vf_success K E parms conf (some fn) hok
  have e1 : fn2 = fn := by simpa using h1.symm
  subst e1
  have e2 : vfc2 = vfc := by rw [hrd] at h2; simpa using h2.symm
  subst e2
  have heq := del_vf_on_port K E parms conf fn2 vfc2 pciid p hrd hfile hpci hid hport
  rw [find_vf_eq_some (conf.ports p) vfc2.vfid (conf.ports p).num_vfs 0 i (Nat.zero_le _)
    (by omega) hnum (fun j _ hj => hfirst j hj)] at heq
  rw [heq]
  simp only [mark_deleted, Function.update_same]
  refine ⟨trivial, trivial, by rw [hnum]; exact hid, ?_, trivial, ?_, trivial⟩
  · intro j hj
    exact Function.update_noteq hj _ _
  · intro q hq
    exact Function.update_noteq hq _ _

/-- Instance of C16: deleting VF 2 from the store that holds VFs 1, 2 and 3 sets the marker
of slot 1 to `DELETED` and leaves its id, the other slots and `num_vfs` as they were. -/
theorem del_vf_marks_only_witness :
    (vfd_del_vf K0 E0 parms0 conf123 (some "vf2.json")).rc = 1 ∧
    ((vfd_del_vf K0 E0 parms0 conf123 (some "vf2.json")).conf.ports 0).vfs 1 =
      { (conf123.ports 0).vfs 1 with last_updated := K0.DELETED } ∧
    (((vfd_del_vf K0 E0 parms0 conf123 (some "vf2.json")).conf.ports 0).vfs 1).num = 2 ∧
    (((vfd_del_vf K0 E0 parms0 conf123 (some "vf2.json")).conf.ports 0).vfs 1).last_updated =
      -1 ∧
    ((vfd_del_vf K0 E0 parms0 conf123 (some "vf2.json")).conf.ports 0).num_vfs = 3 := by
  have h := del_vf_marks_only K0 E0 parms0 conf123 "vf2.json"
    (mk_vfc 2 [12] ["aa:bb:cc:dd:ee:12"]) "0000:01:00.0" 0 1 rfl rfl (by decide) (by decide)
    (by decide) (by decide) (by intro j hj; interval_cases j; decide)
  exact ⟨by decide, h.2.1, by decide, by decide, by decide⟩

/-- C17, as stated, fails. The descriptor `other.json` is readable, its file is retired
and the store holds no port with its device identifier, yet `vfd_del_vf` returns 0 with
the reason `could not find port`. -/
theorem del_vf_absent_counterexample :
    E1.read_config "other.json" = Except.ok vfc_other ∧
    file_retired K0 E1 parms0 "other.json" ∧
    find_port conf1 "0000:02:00.0" conf1.num_ports 0 = none ∧
    (vfd_del_vf K0 E1 parms0 conf1 (some "other.json")).rc = 0 ∧
    (vfd_del_vf K0 E1 parms0 conf1 (some "other.json")).reason =
      some "vf: could not find port 0000:02:00.0 in the config" := by
  refine ⟨rfl, ⟨by decide, by decide⟩, by decide, by decide, by decide⟩

/-- C17, amended. For a readable descriptor with a device and an id of at least 1 whose
file is retired: when the store holds the port of the device and none of its first
`num_vfs` slots has the id, `vfd_del_vf` returns 1 with no reason and leaves the store as
it was; when the store holds no port with the device identifier, it returns 0 with the
reason `could not find port` and leaves the store as it was. -/
theorem del_vf_absent (K : consts) (E : env_t) (parms : parms_t) (conf : sriov_conf_t)
    (fn : String) (vfc : vf_config_t) (pciid : String)
    (hrd : E.read_config fn = Except.ok vfc) (hfile : file_retired K E parms fn)
    (hpci : vfc.pciid = some pciid) (hid : 1 ≤ vfc.vfid) :
    (∀ p, find_port conf pciid conf.num_ports 0 = some p →
      (∀ j, j < (conf.ports p).num_vfs → ((conf.ports p).vfs j).num ≠ vfc.vfid) →
      (vfd_del_vf K E parms conf (some fn)).rc = 1 ∧
      (vfd_del_vf K E parms conf (some fn)).reason = none ∧
      (vfd_del_vf K E parms conf (some fn)).conf = conf) ∧
    ((∀ q, q < conf.num_ports → (conf.ports q).pciid ≠ pciid) →
      (vfd_del_vf K E parms conf (some fn)).rc = 0 ∧
      (vfd_del_vf K E parms conf (some fn)).reason =
        some (snprintf K.BUF_1K (msg_no_port vfc.name pciid)) ∧
      (vfd_del_vf K E parms conf (some fn)).conf = conf) := by
  constructor
  · intro p hport hnone
    rw [del_vf_on_port K E parms conf fn vfc pciid p hrd hfile hpci hid hport,
      find_vf_eq_none (conf.ports p) vfc.vfid (conf.ports p).num_vfs 0
        (fun j _ hj => hnone j (by omega))]
    exact ⟨rfl, rfl, rfl⟩
  · intro hnone
    have hport : find_port conf pciid conf.num_ports 0 = none :=
      find_port_eq_none conf pciid conf.num_ports 0 (fun q _ hq => hnone q (by omega))
    have c : ¬ (vfc.vfid < 1) := by omega
    have heq : vfd_del_vf K E parms conf (some fn) = fail K conf (msg_no_port vfc.name pciid) := by
      unfold vfd_del_vf
      simp only [hrd, if_neg hfile.1, if_neg hfile.2, hpci, if_neg c, hport]
    rw [heq]
    exact ⟨rfl, rfl, rfl⟩

/-- Instance of C17 as amended: on the store that holds VF 3 only, deleting VF 1 returns 1
with no reason and leaves the store as it was; deleting a VF of the device `0000:02:00.0`
returns 0. -/
theorem del_vf_absent_witness :
    ((vfd_del_vf K0 E0 parms0 conf1 (some "vf1.json")).rc = 1 ∧
      (vfd_del_vf K0 E0 parms0 conf1 (some "vf1.json")).reason = none ∧
      (vfd_del_vf K0 E0 parms0 conf1 (some "vf1.json")).conf = conf1) ∧
    ((vfd_del_vf K0 E1 parms0 conf1 (some "other.json")).rc = 0 ∧
      (vfd_del_vf K0 E1 parms0 conf1 (some "other.json")).reason =
        some (snprintf K0.BUF_1K (msg_no_port "vf" "0000:02:00.0")) ∧
      (vfd_del_vf K0 E1 parms0 conf1 (some "other.json")).conf = conf1) :=
  ⟨(del_vf_absent K0 E0 parms0 conf1 "vf1.json" (mk_vfc 1 [11] ["aa:bb:cc:dd:ee:11"])
      "0000:01:00.0" rfl ⟨by decide, by decide⟩ rfl (by decide)).1 0 (by decide)
      (by intro j hj; have hj1 : j < 1 := hj; interval_cases j; decide),
    (del_vf_absent K0 E1 parms0 conf1 "other.json" vfc_other "0000:02:00.0" rfl
      ⟨by decide, by decide⟩ rfl (by decide)).2
      (by intro q hq; have hq1 : q < 1 := hq; interval_cases q; decide)⟩

/-! ## The dispatcher -/

/-- The calls of `vfd_response` and the file names handed to the Loader and the Remover
while one request is handled. A request that is handled makes exactly one call of
`vfd_response`, on its response pipe, except a deletion that the Remover accepts and whose
reconciliation fails, which makes none; an add or delete request hands `req->resource`,
as received, to `vfd_add_vf` or `vfd_del_vf`. -/
theorem handle_request_calls (K : consts) (E : env_t) (R : rif_env_t) (parms : parms_t)
    (s s2 : rif_state) (req : req_t) (h : handle_request K E R parms s req = some s2) :
    ((req.rtype = rtype_t.RT_DEL ∧ (vfd_del_vf K E parms s.conf req.resource).rc ≠ 0 ∧
        (R.vfd_update_nic (vfd_del_vf K E parms s.conf req.resource).conf).1 ≠ 0) →
      s2.responses = s.responses) ∧
    (¬ (req.rtype = rtype_t.RT_DEL ∧ (vfd_del_vf K E parms s.conf req.resource).rc ≠ 0 ∧
        (R.vfd_update_nic (vfd_del_vf K E parms s.conf req.resource).conf).1 ≠ 0) →
      ∃ state msg, s2.responses =
        s.responses ++ [{ rpipe := req.resp_fifo, state := state, msg := msg }]) ∧
    ((req.rtype = rtype_t.RT_ADD ∨ req.rtype = rtype_t.RT_DEL) →
      s2.handed = s.handed ++ [req.resource]) := by
  cases ht : req.rtype
  case RT_PING =>
    simp only [handle_request, ht, Option.some.injEq] at h
    subst h
    simp [respond]
  case RT_DUMP =>
    simp only [handle_request, ht, Option.some.injEq] at h
    subst h
    simp [respond]
  case RT_OTHER =>
    simp only [handle_request, ht, Option.some.injEq] at h
    subst h
    simp [respond]
  case RT_VERBOSE =>
    simp only [handle_request, ht, Option.some.injEq] at h
    subst h
    unfold handle_verbose
    split <;> simp [respond]
  case RT_SHOW =>
    simp only [handle_request, ht, Option.some.injEq] at h
    subst h
    unfold handle_show
    repeat' split
    all_goals simp [respond]
  case RT_ADD =>
    simp only [handle_request, ht] at h
    unfold handle_add at h
    cases hres : req.resource with
    | none => rw [hres] at h; simp at h
    | some res =>
      rw [hres] at h
      simp only at h
      split at h
      · split at h
        all_goals (simp only [Option.some.injEq] at h; subst h; simp [respond])
      · simp only [Option.some.injEq] at h; subst h; simp [respond]
  case RT_DEL =>
    simp only [handle_request, ht] at h
    unfold handle_del at h
    cases hres : req.resource with
    | none => rw [hres] at h; simp at h
    | some res =>
      rw [hres] at h
      simp only at h
      by_cases c1 : (vfd_del_vf K E parms s.conf (some res)).rc ≠ 0
      · rw [if_pos c1] at h
        by_cases c2 : (R.vfd_update_nic (vfd_del_vf K E parms s.conf (some res)).conf).1 = 0
        · rw [if_pos c2] at h
          simp only [Option.some.injEq] at h; subst h
          simp [respond, c2]
        · rw [if_neg c2] at h
          simp only [Option.some.injEq] at h; subst h
          simp [c1, c2]
      · rw [if_neg c1] at h
        simp only [Option.some.injEq] at h; subst h
        simp [respond, c1]

/-- C18, evaluated at the failing input. On the store that holds VF 3, the request to
delete `vf3.json` is handled (`req_handled` is 1), the Remover returns 1 and the
reconciliation call returns 1: no call of `vfd_response` is made. With a reconciliation
that succeeds the same request is answered once. -/
theorem req_if_delete_without_reply :
    (vfd_del_vf K0 E0 parms0 conf1 (some "vf3.json")).rc = 1 ∧
    (R_fail.vfd_update_nic (vfd_del_vf K0 E0 parms0 conf1 (some "vf3.json")).conf).1 = 1 ∧
    (vfd_req_if K0 E0 R_fail parms0 conf1 [some req_del3]).map
      (fun s => (s.req_handled, s.responses)) = some (1, []) ∧
    (vfd_req_if K0 E0 R0 parms0 conf1 [some req_del3]).map
      (fun s => (s.req_handled, s.responses)) =
      some (1, [{ rpipe := some "/tmp/resp", state := 0,
                  msg := "vf deleted successfully: vf3.json" }]) := by
  refine ⟨by decide, by decide, by decide, by decide⟩

/-- C19, evaluated at the failing input. On the example store the request to add
`vf3.json` is admitted by `vfd_add_vf` and the reconciliation call returns 1: the single
reply carries the message `vf add failed: ...` with state 0, which `vfd_response` writes
as `OK`. -/
theorem req_if_add_nic_failure_reported_ok :
    (vfd_add_vf K0 E0 conf0 (some "vf3.json")).rc = 1 ∧
    (R_fail.vfd_update_nic (vfd_add_vf K0 E0 conf0 (some "vf3.json")).conf).1 = 1 ∧
    (vfd_req_if K0 E0 R_fail parms0 conf0 [some req_add3]).map (fun s => s.responses) =
      some [{ rpipe := some "/tmp/resp", state := 0,
              msg := "vf add failed: unable to configure the vf for: vf3.json" }] ∧
    state_text 0 = "OK" := by
  refine ⟨by decide, by decide, by decide, by decide⟩

/-- C20, evaluated at the failing input. The descriptor of VF 3 lies in the configuration
directory `/var/lib/vfd/config` and the request names it `vf3.json`: the resolved path is
`/var/lib/vfd/config/vf3.json`, on which `vfd_add_vf` succeeds, but the name handed to
`vfd_add_vf` is `vf3.json`, which cannot be read, and the request is refused. The same
holds of the name handed to `vfd_del_vf`. -/
theorem req_if_hands_unresolved_path :
    resolve_path parms0 "vf3.json" = "/var/lib/vfd/config/vf3.json" ∧
    (vfd_add_vf K0 E_dir conf0 (some (resolve_path parms0 "vf3.json"))).rc = 1 ∧
    (vfd_req_if K0 E_dir R0 parms0 conf0 [some req_add3]).map
      (fun s => (s.handed, s.responses)) =
      some ([some "vf3.json"],
        [{ rpipe := some "/tmp/resp", state := 1,
           msg := "unable to add vf: vf3.json: unable to read config file: vf3.json: No such file or directory" }]) ∧
    (vfd_req_if K0 E_dir R0 parms0 conf1 [some req_del3]).map
      (fun s => (s.handed, s.responses)) =
      some ([some "vf3.json"],
        [{ rpipe := some "/tmp/resp", state := 1,
           msg := "unable to delete vf: vf3.json: unable to read config file: vf3.json: No such file or directory" }]) := by
  refine ⟨by decide, by decide, by decide, by decide⟩

/-! ## The response writer -/

theorem zeros_mono (w : Nat → Int) : ∀ (b a : Nat), a ≤ b → zeros w a ≤ zeros w b := by
  intro b
  induction b with
  | zero => intro a h; have : a = 0 := by omega
            subst this; exact le_refl _
  | succ b ih =>
    intro a h
    by_cases hab : a = b + 1
    · subst hab; exact le_refl _
    · have h1 := ih a (by omega)
      have h2 : zeros w (b + 1) = zeros w b + (if w b = 0 then 1 else 0) := rfl
      rw [h2]
      split <;> omega

/-- The run of the loop of `vfd_write` from a state reached after `k` calls of `write`.
Either the loop is not entered, or it ends at some call number `e`: every call before `e`
accepted fewer bytes than were left, and call `e` returned an error, or accepted all that
was left, or (which `write` cannot do) more than was left, or was the fifth call of the
whole run to accept nothing. At most `n2send + tries - 1` calls are made. -/
theorem write_loop_run (w : Nat → Int) (len : Int) :
    ∀ (fuel : Nat) (n2send tries : Int) (k : Nat),
      n2send = len - accepted w k → tries = 5 - zeros w k → 0 ≤ tries →
      n2send.toNat + tries.toNat ≤ fuel →
      ∃ r, write_loop w len fuel n2send tries k = some r ∧
        ((¬ (n2send > 0 ∧ tries > 0) ∧ r = { rc := -1, attempts := k, sent := len - n2send }) ∨
          (n2send > 0 ∧ tries > 0 ∧
            ∃ e, k ≤ e ∧ r.attempts = e + 1 ∧ (e : Int) + 1 ≤ k + (n2send + tries - 1) ∧
              (∀ j, k ≤ j → j < e → 0 ≤ w j ∧ w j < len - accepted w j) ∧
              0 < len - accepted w e ∧ zeros w e < 5 ∧
              ((w e < 0 ∧ r.rc = -1 ∧ r.sent = accepted w e) ∨
                (w e = len - accepted w e ∧ r.rc = len ∧ r.sent = len) ∨
                (w e > len - accepted w e ∧ r.rc = -1 ∧ r.sent = accepted w (e + 1)) ∨
                (w e = 0 ∧ zeros w (e + 1) = 5 ∧ r.rc = -1 ∧ r.sent = accepted w e)))) := by
  intro fuel
  induction fuel with
  | zero =>
    intro n2send tries k h1 h2 h3 h4
    have hc : ¬ (n2send > 0 ∧ tries > 0) := by omega
    exact ⟨_, by simp only [write_loop, if_neg hc], Or.inl ⟨hc, rfl⟩⟩
  | succ fuel ih =>
    intro n2send tries k h1 h2 h3 h4
    by_cases hc : n2send > 0 ∧ tries > 0
    · have hacc : accepted w (k + 1) = accepted w k + w k := rfl
      have hzer : zeros w (k + 1) = zeros w k + (if w k = 0 then 1 else 0) := rfl
      unfold write_loop
      rw [if_pos hc]
      by_cases c1 : w k < 0
      · rw [if_pos c1]
        refine ⟨_, rfl, Or.inr ⟨hc.1, hc.2, k, le_refl _, rfl, by omega,
          fun j hj1 hj2 => by omega, by omega, by omega, Or.inl ⟨c1, rfl, ?_⟩⟩⟩
        show len - n2send = accepted w k
        omega
      · rw [if_neg c1]
        by_cases c2 : w k = n2send
        · rw [if_pos c2]
          exact ⟨_, rfl, Or.inr ⟨hc.1, hc.2, k, le_refl _, rfl, by omega,
            fun j hj1 hj2 => by omega, by omega, by omega,
            Or.inr (Or.inl ⟨by omega, rfl, rfl⟩)⟩⟩
        · rw [if_neg c2]
          by_cases c3 : w k > 0
          · rw [if_pos c3]
            have hz : zeros w (k + 1) = zeros w k := by
              rw [hzer]
              have : ¬ w k = 0 := by omega
              rw [if_neg this]; omega
            obtain ⟨r, hr, hcase⟩ := ih (n2send - w k) tries (k + 1) (by rw [hacc]; omega)
              (by rw [hz]; exact h2) h3 (by omega)
            refine ⟨r, hr, Or.inr ⟨hc.1, hc.2, ?_⟩⟩
            rcases hcase with ⟨hn, hreq⟩ | ⟨hp1, _, e, e1, e2, e3, e4, e5, e6, e7⟩
            · have hover : w k > n2send := by omega
              refine ⟨k, le_refl _, by rw [hreq], by omega, fun j hj1 hj2 => by omega,
                by omega, by omega, Or.inr (Or.inr (Or.inl ⟨by omega, by rw [hreq], ?_⟩))⟩
              rw [hreq]
              show len - (n2send - w k) = accepted w (k + 1)
              rw [hacc]; omega
            · refine ⟨e, by omega, e2, by omega, ?_, e5, e6, e7⟩
              intro j hj1 hj2
              by_cases hjk : j = k
              · subst hjk; omega
              · exact e4 j (by omega) hj2
          · rw [if_neg c3]
            have hw0 : w k = 0 := by omega
            have hz : zeros w (k + 1) = zeros w k + 1 := by
              rw [hzer, if_pos hw0]
            obtain ⟨r, hr, hcase⟩ := ih n2send (tries - 1) (k + 1) (by rw [hacc]; omega)
              (by rw [hz]; omega) (by omega) (by omega)
            refine ⟨r, hr, Or.inr ⟨hc.1, hc.2, ?_⟩⟩
            rcases hcase with ⟨hn, hreq⟩ | ⟨_, _, e, e1, e2, e3, e4, e5, e6, e7⟩
            · refine ⟨k, le_refl _, by rw [hreq], by omega, fun j hj1 hj2 => by omega,
                by omega, by omega,
                Or.inr (Or.inr (Or.inr ⟨hw0, by omega, by rw [hreq], ?_⟩))⟩
              rw [hreq]
              show len - n2send = accepted w k
              omega
            · refine ⟨e, by omega, e2, by omega, ?_, e5, e6, e7⟩
              intro j hj1 hj2
              by_cases hjk : j = k
              · subst hjk; omega
              · exact e4 j (by omega) hj2
    · refine ⟨{ rc := -1, attempts := k, sent := len - n2send }, ?_, Or.inl ⟨hc, rfl⟩⟩
      unfold write_loop
      rw [if_neg hc]

/-- The run of `vfd_write`: `write_loop_run` from the entry of the function. -/
theorem vfd_write_run (w : Nat → Int) (len : Int) :
    ∃ r, vfd_write w len = some r ∧
      ((¬ 0 < len ∧ r = { rc := -1, attempts := 0, sent := 0 }) ∨
        (0 < len ∧
          ∃ e, r.attempts = e + 1 ∧ (e : Int) + 1 ≤ len + 4 ∧
            (∀ j, j < e → 0 ≤ w j ∧ w j < len - accepted w j) ∧
            0 < len - accepted w e ∧ zeros w e < 5 ∧
            ((w e < 0 ∧ r.rc = -1 ∧ r.sent = accepted w e) ∨
              (w e = len - accepted w e ∧ r.rc = len ∧ r.sent = len) ∨
              (w e > len - accepted w e ∧ r.rc = -1 ∧ r.sent = accepted w (e + 1)) ∨
              (w e = 0 ∧ zeros w (e + 1) = 5 ∧ r.rc = -1 ∧ r.sent = accepted w e)))) := by
  have h0a : accepted w 0 = 0 := rfl
  have h0z : zeros w 0 = 0 := rfl
  obtain ⟨r, hr, hcase⟩ := write_loop_run w len (len.toNat + 5) len 5 0 (by rw [h0a]; omega)
    (by rw [h0z]; omega) (by omega) (by omega)
  refine ⟨r, hr, ?_⟩
  rcases hcase with ⟨hn, hreq⟩ | ⟨hp, _, e, _, e2, e3, e4, e5, e6, e7⟩
  · left
    refine ⟨by omega, ?_⟩
    rw [hreq]
    have : len - len = 0 := by omega
    rw [this]
  · right
    exact ⟨hp, e, e2, by omega, fun j hj => e4 j (Nat.zero_le _) hj, e5, e6, e7⟩

/-- C21, as stated, fails. For a buffer of 2 bytes and the results 0, 0, 0, 0, 1, 0, 1 of
`write`, no result is negative, no five results in a row are 0 and the bytes accepted
total 2; yet `vfd_write` gives up at the sixth call and returns -1: the partial write of
the fifth call has not restored the budget. -/
theorem vfd_write_budget_counterexample :
    (∀ k, k < 7 → 0 ≤ wseq [0, 0, 0, 0, 1, 0, 1] k) ∧
    (∀ k, k < 3 → ¬ (wseq [0, 0, 0, 0, 1, 0, 1] k = 0 ∧ wseq [0, 0, 0, 0, 1, 0, 1] (k + 1) = 0 ∧
      wseq [0, 0, 0, 0, 1, 0, 1] (k + 2) = 0 ∧ wseq [0, 0, 0, 0, 1, 0, 1] (k + 3) = 0 ∧
      wseq [0, 0, 0, 0, 1, 0, 1] (k + 4) = 0)) ∧
    accepted (wseq [0, 0, 0, 0, 1, 0, 1]) 7 = 2 ∧
    vfd_write (wseq [0, 0, 0, 0, 1, 0, 1]) 2 = some { rc := -1, attempts := 6, sent := 1 } := by
  refine ⟨by decide, by decide, by decide, by decide⟩

/-- C21, amended. The budget of `vfd_write` is 5 calls of `write` that accept nothing,
counted over the whole call; a call that accepts some but not all of the bytes left does
not use the budget and does not restore it. For a buffer of `len > 0` bytes and results
of which the first `n` each accept fewer bytes than are left (none of them an error): if
call `n` accepts all that is left and fewer than 5 of the calls before it accepted
nothing, `vfd_write` returns `len` after `n + 1` calls; if call `n` accepts nothing and
is the fifth to do so, `vfd_write` returns -1 after `n + 1` calls. -/
theorem vfd_write_budget (w : Nat → Int) (len : Int) (n : Nat) (hlen : 0 < len)
    (hrun : ∀ j, j < n → 0 ≤ w j ∧ w j < len - accepted w j) :
    (w n = len - accepted w n → zeros w n < 5 →
      vfd_write w len = some { rc := len, attempts := n + 1, sent := len }) ∧
    (w n = 0 → zeros w n = 4 →
      vfd_write w len = some { rc := -1, attempts := n + 1, sent := accepted w n }) := by
  obtain ⟨r, hr, hcase⟩ := vfd_write_run w len
  rcases hcase with ⟨hn, _⟩ | ⟨_, e, e2, _, e4, e5, e6, e7⟩
  · exact absurd hlen hn
  have hzn : zeros w (n + 1) = zeros w n + (if w n = 0 then 1 else 0) := rfl
  have hze : zeros w (e + 1) = zeros w e + (if w e = 0 then 1 else 0) := rfl
  have hrem : 0 < len - accepted w n := by
    cases n with
    | zero => show 0 < len - 0; omega
    | succ m =>
      have := hrun m (by omega)
      have hacc : accepted w (m + 1) = accepted w m + w m := rfl
      rw [hacc]; omega
  constructor
  · intro hw hz
    have hen : e = n := by
      rcases Nat.lt_trichotomy e n with c | c | c
      · exfalso
        have h1 := hrun e c
        have h2 := zeros_mono w n (e + 1) (by omega)
        rcases e7 with ⟨a, _⟩ | ⟨a, _⟩ | ⟨a, _⟩ | ⟨_, a, _⟩ <;> omega
      · exact c
      · exfalso
        have := e4 n c
        omega
    subst hen
    rw [hr]
    rcases e7 with ⟨a, _⟩ | ⟨_, a, b⟩ | ⟨a, _⟩ | ⟨a, _⟩
    · omega
    · cases r
      simp only at e2 a b
      subst e2; subst a; subst b; rfl
    · omega
    · omega
  · intro hw hz
    have hen : e = n := by
      rcases Nat.lt_trichotomy e n with c | c | c
      · exfalso
        have h1 := hrun e c
        have h2 := zeros_mono w n (e + 1) (by omega)
        rcases e7 with ⟨a, _⟩ | ⟨a, _⟩ | ⟨a, _⟩ | ⟨_, a, _⟩ <;> omega
      · exact c
      · exfalso
        have h2 := zeros_mono w e (n + 1) (by omega)
        rw [hzn, if_pos hw] at h2
        omega
    subst hen
    rw [hr]
    rcases e7 with ⟨a, _⟩ | ⟨a, _⟩ | ⟨a, _⟩ | ⟨_, _, a, b⟩
    · omega
    · omega
    · omega
    · cases r
      simp only at e2 a b
      subst e2; subst a; subst b; rfl

/-- Instance of C21 as amended: for a buffer of 2 bytes and the results 0, 0, 0, 0, 1, 1
four calls accept nothing, the fifth accepts one byte and the sixth the other:
`vfd_write` returns 2 after 6 calls. -/
theorem vfd_write_budget_witness :
    vfd_write (wseq [0, 0, 0, 0, 1, 1]) 2 = some { rc := 2, attempts := 6, sent := 2 } :=
  (vfd_write_budget (wseq [0, 0, 0, 0, 1, 1]) 2 5 (by decide)
    (by intro j hj; interval_cases j <;> decide)).1 (by decide) (by decide)

/-- C22. Bounded delivery: for a buffer of `len > 0` bytes and any results of `write`,
`vfd_write` returns after at least one and at most `len + 4` calls of `write`; it returns
`len` or -1, and `len` exactly when its last call accepted all the bytes that were left;
when it returns -1 the last call returned an error, or was the fifth call to accept
nothing, or returned more than it was asked to write (which `write` does not do). Every
call before the last accepted fewer bytes than were left. -/
theorem vfd_write_bounded (w : Nat → Int) (len : Int) (hlen : 0 < len) :
    ∃ r, vfd_write w len = some r ∧ 1 ≤ r.attempts ∧ (r.attempts : Int) ≤ len + 4 ∧
      (r.rc = len ∨ r.rc = -1) ∧
      (r.rc = len ↔ w (r.attempts - 1) = len - accepted w (r.attempts - 1)) ∧
      (r.rc = -1 →
        w (r.attempts - 1) < 0 ∨ zeros w r.attempts = 5 ∨
        w (r.attempts - 1) > len - accepted w (r.attempts - 1)) ∧
      (w (r.attempts - 1) ≤ len - accepted w (r.attempts - 1) → r.rc = -1 →
        w (r.attempts - 1) < 0 ∨ zeros w r.attempts = 5) ∧
      (∀ j, j + 1 < r.attempts → 0 ≤ w j ∧ w j < len - accepted w j) := by
  obtain ⟨r, hr, hcase⟩ := vfd_write_run w len
  rcases hcase with ⟨hn, _⟩ | ⟨_, e, e2, e3, e4, e5, e6, e7⟩
  · exact absurd hlen hn
  have hlast : r.attempts - 1 = e := by omega
  refine ⟨r, hr, by omega, by omega, ?_, ?_, ?_, ?_, ?_⟩
  · rcases e7 with ⟨_, a, _⟩ | ⟨_, a, _⟩ | ⟨_, a, _⟩ | ⟨_, _, a, _⟩
    · exact Or.inr a
    · exact Or.inl a
    · exact Or.inr a
    · exact Or.inr a
  · rw [hlast]
    rcases e7 with ⟨a, b, _⟩ | ⟨a, b, _⟩ | ⟨a, b, _⟩ | ⟨a, _, b, _⟩
    · constructor <;> intro h <;> omega
    · exact ⟨fun _ => a, fun _ => b⟩
    · constructor <;> intro h <;> omega
    · constructor <;> intro h <;> omega
  · intro _
    rw [hlast, e2]
    rcases e7 with ⟨a, _⟩ | ⟨a, b, _⟩ | ⟨a, _⟩ | ⟨_, a, _⟩
    · exact Or.inl a
    · omega
    · exact Or.inr (Or.inr a)
    · exact Or.inr (Or.inl a)
  · intro hle _
    rw [hlast] at hle ⊢
    rw [e2]
    rcases e7 with ⟨a, _⟩ | ⟨a, b, _⟩ | ⟨a, _⟩ | ⟨_, a, _⟩
    · exact Or.inl a
    · omega
    · omega
    · exact Or.inr a
  · intro j hj
    exact e4 j (by omega)

/-- Instance of C22: for a buffer of 3 bytes and the results 1, 0, 1, 0, 0, 0, 0 the loop
makes its 7 = 3 + 4 calls and returns -1 on the fifth call that accepts nothing. -/
theorem vfd_write_bounded_witness :
    vfd_write (wseq [1, 0, 1, 0, 0, 0, 0]) 3 = some { rc := -1, attempts := 7, sent := 2 } ∧
    ∃ r, vfd_write (wseq [1, 0, 1, 0, 0, 0, 0]) 3 = some r ∧ 1 ≤ r.attempts ∧
      (r.attempts : Int) ≤ 3 + 4 ∧ (r.rc = 3 ∨ r.rc = -1) := by
  obtain ⟨r, h1, h2, h3, h4, _⟩ := vfd_write_bounded (wseq [1, 0, 1, 0, 0, 0, 0]) 3 (by decide)
  exact ⟨by decide, r, h1, h2, h3, h4⟩

/-! ## The request reader, the dispatcher loop, the port table -/

/-- C23, as stated, fails. For the action `Add`, whose first character is the upper-case
`A`, `vfd_read_request` returns a request of type add; so it does, with types delete and
show, for `Delete` and `Show`. -/
theorem read_request_action_counterexample :
    (vfd_read_request (jw_action "Add") "msg").map (fun r => r.rtype) =
      some rtype_t.RT_ADD ∧
    (vfd_read_request (jw_action "Delete") "msg").map (fun r => r.rtype) =
      some rtype_t.RT_DEL ∧
    (vfd_read_request (jw_action "Show") "msg").map (fun r => r.rtype) =
      some rtype_t.RT_SHOW := by
  refine ⟨by decide, by decide, by decide⟩

/-- C23, amended. For a message that parses and carries the action `s`, the type of the
request returned by `vfd_read_request` is add when `s` starts with `a` or `A`, dump when
`s` is `dump`, delete when `s` starts with `d` or `D` and is not `dump`, ping when it
starts with `p`, show when it starts with `s` or `S`, set-verbosity when it starts with
`v`; in every other case (the empty string, `P`, `V` and any other first character) no
request is returned. -/
theorem read_request_action_table (jw_new : String → Option jblob_t) (rbuf : String)
    (jb : jblob_t) (s : String) (hbuf : rbuf ≠ "") (hjw : jw_new rbuf = some jb)
    (hact : jb.action = some s) :
    ((s.data.head? = some 'a' ∨ s.data.head? = some 'A') →
      (vfd_read_request jw_new rbuf).map (fun r => r.rtype) = some rtype_t.RT_ADD) ∧
    (s = "dump" →
      (vfd_read_request jw_new rbuf).map (fun r => r.rtype) = some rtype_t.RT_DUMP) ∧
    ((s.data.head? = some 'd' ∨ s.data.head? = some 'D') → s ≠ "dump" →
      (vfd_read_request jw_new rbuf).map (fun r => r.rtype) = some rtype_t.RT_DEL) ∧
    (s.data.head? = some 'p' →
      (vfd_read_request jw_new rbuf).map (fun r => r.rtype) = some rtype_t.RT_PING) ∧
    ((s.data.head? = some 's' ∨ s.data.head? = some 'S') →
      (vfd_read_request jw_new rbuf).map (fun r => r.rtype) = some rtype_t.RT_SHOW) ∧
    (s.data.head? = some 'v' →
      (vfd_read_request jw_new rbuf).map (fun r => r.rtype) = some rtype_t.RT_VERBOSE) ∧
    ((∀ c, s.data.head? = some c →
        c ≠ 'a' ∧ c ≠ 'A' ∧ c ≠ 'd' ∧ c ≠ 'D' ∧ c ≠ 'p' ∧ c ≠ 's' ∧ c ≠ 'S' ∧ c ≠ 'v') →
      vfd_read_request jw_new rbuf = none) := by
  have hmap : (vfd_read_request jw_new rbuf).map (fun r => r.rtype) = action_rtype s := by
    unfold vfd_read_request
    rw [if_neg hbuf]
    simp only [hjw, hact]
    cases action_rtype s <;> rfl
  have hnone : action_rtype s = none → vfd_read_request jw_new rbuf = none := by
    intro h
    unfold vfd_read_request
    rw [if_neg hbuf]
    simp only [hjw, hact, h]
  refine ⟨?_, ?_, ?_, ?_, ?_, ?_, ?_⟩
  · intro h
    rw [hmap]
    unfold action_rtype
    rcases h with h | h <;> rw [h] <;> rfl
  · intro h
    rw [hmap, h]
    rfl
  · intro h hnd
    rw [hmap]
    unfold action_rtype
    rcases h with h | h <;> rw [h] <;> simp [hnd]
  · intro h
    rw [hmap]
    unfold action_rtype
    rw [h]; rfl
  · intro h
    rw [hmap]
    unfold action_rtype
    rcases h with h | h <;> rw [h] <;> rfl
  · intro h
    rw [hmap]
    unfold action_rtype
    rw [h]; rfl
  · intro h
    apply hnone
    unfold action_rtype
    cases hh : s.data.head? with
    | none => rfl
    | some c =>
      obtain ⟨n1, n2, n3, n4, n5, n6, n7, n8⟩ := h c hh
      simp [n1, n2, n3, n4, n5, n6, n7, n8]

/-- Instance of C23 as amended: the action `delete` gives a request of type delete, and
the action `Ping`, whose first character is the upper-case `P`, gives no request. -/
theorem read_request_action_table_witness :
    (vfd_read_request (jw_action "delete") "msg").map (fun r => r.rtype) =
      some rtype_t.RT_DEL ∧
    vfd_read_request (jw_action "Ping") "msg" = none :=
  ⟨(read_request_action_table (jw_action "delete") "msg"
      { action := some "delete", filename := none, resource := some "vf3.json",
        r_fifo := some "/tmp/resp", loglevel := none } "delete" (by decide) rfl rfl).2.2.1
      (Or.inl (by decide)) (by decide),
    (read_request_action_table (jw_action "Ping") "msg"
      { action := some "Ping", filename := none, resource := some "vf3.json",
        r_fifo := some "/tmp/resp", loglevel := none } "Ping" (by decide) rfl rfl).2.2.2.2.2.2
      (by
        intro c hc
        have : c = 'P' := by
          have h : some 'P' = some c := hc
          injection h with h
          exact h.symm
        subst this
        decide)⟩

/-- C24, evaluated at the failing input. In one invocation of `vfd_req_if` that handles a
set-verbosity request with level -1 and then one with level 2, the second reply carries
the message `verbose level changed to: 2` with state 1, which `vfd_response` writes as
`ERROR`: the local `rc`, set by the first request, is not reset. Handled alone, the second
request is answered with state 0. -/
theorem req_if_verbose_state_sticks :
    (vfd_req_if K0 E0 R0 parms0 conf0 [some (req_verbose (-1)), some (req_verbose 2)]).map
      (fun s => s.responses) =
      some [{ rpipe := some "/tmp/resp", state := 1, msg := "loglevel out of range: -1" },
            { rpipe := some "/tmp/resp", state := 1, msg := "verbose level changed to: 2" }] ∧
    state_text 1 = "ERROR" ∧
    (vfd_req_if K0 E0 R0 parms0 conf0 [some (req_verbose 2)]).map (fun s => s.responses) =
      some [{ rpipe := some "/tmp/resp", state := 0, msg := "verbose level changed to: 2" }] := by
  refine ⟨by decide, by decide, by decide⟩

/-- The loop of `vfd_add_ports` ends when the stray write of its first pass does not fault. -/
theorem add_ports_loop_some (K : consts) (Z : port_sizes_t) (parms : parms_t) :
    ∀ (n i : Nat) (ptr : port_ptr_t) (conf : sriov_conf_t), ptr ≠ port_ptr_t.fault →
      ∃ c, add_ports_loop K Z parms n i ptr conf = some c := by
  intro n
  induction n with
  | zero => intro i ptr conf _; exact ⟨conf, rfl⟩
  | succ n ih =>
    intro i ptr conf hp
    rcases ptr with _ | _ | j
    · exact absurd rfl hp
    · simp only [add_ports_loop, clear_flags]
      exact ih _ _ _ (by intro h; cases h)
    · simp only [add_ports_loop, clear_flags]
      exact ih _ _ _ (by intro h; cases h)

/-- C25. Idempotent port population: a second call of `vfd_add_ports`, whatever its
parameters, leaves the state that the first call returned with (the port table, its
`num_ports` and every field of every port) as it is; calling twice is calling once. The
first call returns whenever the write of line 89 through the unassigned pointer does not
fault. -/
theorem add_ports_idempotent (K : consts) (Z : port_sizes_t) (parms parms_b : parms_t)
    (ptr ptr_b : port_ptr_t) (st : ports_state) :
    (∀ st1, vfd_add_ports K Z parms ptr st = some st1 →
      vfd_add_ports K Z parms_b ptr_b st1 = some st1) ∧
    (ptr ≠ port_ptr_t.fault → ∃ st1, vfd_add_ports K Z parms ptr st = some st1) ∧
    (vfd_add_ports K Z parms ptr st).bind (vfd_add_ports K Z parms_b ptr_b) =
      vfd_add_ports K Z parms ptr st := by
  have hcalled : ∀ st1, vfd_add_ports K Z parms ptr st = some st1 → st1.called = true := by
    intro st1 h
    unfold vfd_add_ports at h
    by_cases hc : st.called = true
    · rw [if_pos hc] at h
      have : st = st1 := by simpa using h
      rw [← this]; exact hc
    · rw [if_neg hc] at h
      cases hl : add_ports_loop K Z parms (min K.MAX_PORTS parms.pciids.length) 0 ptr st.conf with
      | none => rw [hl] at h; simp at h
      | some c =>
        rw [hl] at h
        have : { called := true,
                 conf := { c with num_ports := min K.MAX_PORTS parms.pciids.length } } = st1 := by
          simpa using h
        rw [← this]
  have hnoop : ∀ st1, vfd_add_ports K Z parms ptr st = some st1 →
      vfd_add_ports K Z parms_b ptr_b st1 = some st1 := by
    intro st1 h
    unfold vfd_add_ports
    rw [if_pos (hcalled st1 h)]
  refine ⟨hnoop, ?_, ?_⟩
  · intro hp
    unfold vfd_add_ports
    by_cases hc : st.called = true
    · rw [if_pos hc]; exact ⟨st, rfl⟩
    · rw [if_neg hc]
      obtain ⟨c, hc2⟩ :=
        add_ports_loop_some K Z parms (min K.MAX_PORTS parms.pciids.length) 0 ptr st.conf hp
      rw [hc2]
      exact ⟨_, rfl⟩
  · cases h : vfd_add_ports K Z parms ptr st with
    | none => rfl
    | some st1 => exact hnoop st1 h

/-- Instance of C25: the first call populates the table with the two devices of its
parameters; a second call that names another device leaves `num_ports` and the ports as
they were. -/
theorem add_ports_idempotent_witness :
    (vfd_add_ports K0 Z0 parms2 port_ptr_t.outside ports_init).map
      (fun s => (s.called, s.conf.num_ports, (s.conf.ports 0).pciid, (s.conf.ports 1).pciid)) =
      some (true, 2, "0000:01:00.0", "0000:01:00.1") ∧
    ((vfd_add_ports K0 Z0 parms2 port_ptr_t.outside ports_init).bind
      (vfd_add_ports K0 Z0 parms3 port_ptr_t.outside)).map
      (fun s => (s.called, s.conf.num_ports, (s.conf.ports 0).pciid, (s.conf.ports 1).pciid)) =
      some (true, 2, "0000:01:00.0", "0000:01:00.1") := by
  constructor
  · decide
  · rw [(add_ports_idempotent K0 Z0 parms2 parms3 port_ptr_t.outside port_ptr_t.outside
      ports_init).2.2]
    decide

/-! ## Normalisation of the installed record -/

/-- The `switch` of lines 425-444 as a table on the first character. -/
theorem link_of_table (s : String) :
    link_of s =
      match s.data.head? with
      | none => 0
      | some c =>
        if c = 'a' ∨ c = 'A' then 0
        else if c = 'd' ∨ c = 'D' then -1
        else if c = 'u' ∨ c = 'U' then 1
        else 0 := by
  unfold link_of
  cases hh : s.data.head? with
  | none => rfl
  | some c =>
    simp only
    split
    · rename_i h; injection h with h; subst h; decide
    · rename_i h; injection h with h; subst h; decide
    · rename_i h; injection h with h; subst h; decide
    · rename_i h; injection h with h; subst h; decide
    · rename_i h; injection h with h; subst h; decide
    · rename_i h; injection h with h; subst h; decide
    · rename_i h1 h2 h3 h4 h5 h6
      have n1 : c ≠ 'a' := fun e => h1 (by rw [e])
      have n2 : c ≠ 'A' := fun e => h2 (by rw [e])
      have n3 : c ≠ 'd' := fun e => h3 (by rw [e])
      have n4 : c ≠ 'D' := fun e => h4 (by rw [e])
      have n5 : c ≠ 'u' := fun e => h5 (by rw [e])
      have n6 : c ≠ 'U' := fun e => h6 (by rw [e])
      simp [n1, n2, n3, n4, n5, n6]

theorem mac_loop_congr (E E2 : env_t) (macs : List String)
    (h : E2.is_valid_mac_str = E.is_valid_mac_str) :
    ∀ (n i : Nat), mac_loop E2 macs n i = mac_loop E macs n i := by
  intro n
  induction n with
  | zero => intro i; rfl
  | succ n ih => intro i; simp only [mac_loop, h, ih]

theorem check_macs_congr (E E2 : env_t) (macs : List String)
    (h : E2.is_valid_mac_str = E.is_valid_mac_str) : check_macs E2 macs = check_macs E macs := by
  simp only [check_macs, h, mac_loop_congr E E2 macs h]

/-- A descriptor that passes the twelve checks is admitted. -/
theorem add_vf_of_passes (K : consts) (E : env_t) (conf : sriov_conf_t) (fn : String)
    (vfc : vf_config_t) (pciid : String) (p : Nat) (st : scan_t)
    (hrd : E.read_config fn = Except.ok vfc)
    (h14 : passes_checks_1_4 K conf vfc pciid p st)
    (h58 : passes_checks_5_8 K (conf.ports p) vfc st)
    (h912 : passes_checks_9_12 K E conf vfc) :
    vfd_add_vf K E conf (some fn) =
      { rc := 1, reason := none,
        conf := install_vf K conf p (vidx_of (conf.ports p) st) vfc } := by
  rw [add_vf_of_scan K E conf fn vfc pciid p hrd h14.has_pciid h14.id_min h14.port_found,
    h14.id_free]
  simp only
  rw [add_vf_limits_of_passes K E conf p st vfc h14.id_min h14.id_max h14.slot_in_range h58,
    add_vf_lists_of_passes K E conf p _ vfc h912]

/-- C26. Normalisation of the installed record: the record installed for an admitted
descriptor has `allow_untagged = 0`, `vlan_anti_spoof = 1` and `mac_anti_spoof = 1`
whatever the descriptor says, and its `link` is given by the first character of the
link-status token: 0 for `a` or `A`, -1 for `d` or `D`, 1 for `u` or `U`, 0 for any other
first character and for the empty token. The token plays no part in the admission: the
same descriptor with any other token is admitted as well. -/
theorem add_vf_normalised (K : consts) (E : env_t) (conf : sriov_conf_t) (fn : String)
    (vfc : vf_config_t) (hrd : E.read_config fn = Except.ok vfc)
    (hok : (vfd_add_vf K E conf (some fn)).rc = 1) :
    (∃ p idx, ((vfd_add_vf K E conf (some fn)).conf.ports p).vfs idx = new_vf K vfc ∧
      (((vfd_add_vf K E conf (some fn)).conf.ports p).vfs idx).allow_untagged = 0 ∧
      (((vfd_add_vf K E conf (some fn)).conf.ports p).vfs idx).vlan_anti_spoof = 1 ∧
      (((vfd_add_vf K E conf (some fn)).conf.ports p).vfs idx).mac_anti_spoof = 1 ∧
      (vfc.link_status.data.head? = none →
        (((vfd_add_vf K E conf (some fn)).conf.ports p).vfs idx).link = 0) ∧
      (∀ c, vfc.link_status.data.head? = some c →
        ((c = 'a' ∨ c = 'A') →
          (((vfd_add_vf K E conf (some fn)).conf.ports p).vfs idx).link = 0) ∧
        ((c = 'd' ∨ c = 'D') →
          (((vfd_add_vf K E conf (some fn)).conf.ports p).vfs idx).link = -1) ∧
        ((c = 'u' ∨ c = 'U') →
          (((vfd_add_vf K E conf (some fn)).conf.ports p).vfs idx).link = 1) ∧
        ((c ≠ 'a' ∧ c ≠ 'A' ∧ c ≠ 'd' ∧ c ≠ 'D' ∧ c ≠ 'u' ∧ c ≠ 'U') →
          (((vfd_add_vf K E conf (some fn)).conf.ports p).vfs idx).link = 0))) ∧
    (∀ (E2 : env_t) (fn2 ls : String),
      E2.read_config fn2 = Except.ok { vfc with link_status := ls } →
      E2.is_valid_mac_str = E.is_valid_mac_str →
      (vfd_add_vf K E2 conf (some fn2)).rc = 1) := by
  obtain ⟨fn0, vfc0, pciid, p, st, h1, h2, h14, h58, h912, heq⟩ :=
    add_vf_success K E conf (some fn) hok
  have e1 : fn0 = fn := by simpa using h1.symm
  subst e1
  have e2 : vfc0 = vfc := by rw [hrd] at h2; simpa using h2.symm
  subst e2
  constructor
  · refine ⟨p, vidx_of (conf.ports p) st, ?_⟩
    have hslot : ((vfd_add_vf K E conf (some fn0)).conf.ports p).vfs (vidx_of (conf.ports p) st) =
        new_vf K vfc0 := by
      rw [heq]
      simp only
      rw [install_vf_port]
      exact Function.update_same _ _ _
    rw [hslot]
    have hlink : (new_vf K vfc0).link = link_of vfc0.link_status := rfl
    refine ⟨rfl, rfl, rfl, rfl, ?_, ?_⟩
    · intro hn
      rw [hlink, link_of_table, hn]
    · intro c hc
      rw [hlink, link_of_table, hc]
      simp only
      refine ⟨?_, ?_, ?_, ?_⟩
      · intro h
        rw [if_pos h]
      · intro h
        have n1 : ¬ (c = 'a' ∨ c = 'A') := by
          rcases h with h | h <;> subst h <;> decide
        rw [if_neg n1, if_pos h]
      · intro h
        have n1 : ¬ (c = 'a' ∨ c = 'A') := by
          rcases h with h | h <;> subst h <;> decide
        have n2 : ¬ (c = 'd' ∨ c = 'D') := by
          rcases h with h | h <;> subst h <;> decide
        rw [if_neg n1, if_neg n2, if_pos h]
      · rintro ⟨n1, n2, n3, n4, n5, n6⟩
        simp [n1, n2, n3, n4, n5, n6]
  · intro E2 fn2 ls hrd2 hmac
    have h14b : passes_checks_1_4 K conf { vfc0 with link_status := ls } pciid p st :=
      ⟨h14.has_pciid, h14.id_min, h14.port_found, h14.id_free, h14.slot_in_range, h14.id_max⟩
    have h58b : passes_checks_5_8 K (conf.ports p) { vfc0 with link_status := ls } st :=
      ⟨h58.id_configured, h58.vf_vlans, h58.pf_vlans, h58.pf_macs, h58.vf_macs,
        h58.strip_single⟩
    have h912b : passes_checks_9_12 K E2 conf { vfc0 with link_status := ls } :=
      ⟨h912.vlans_ok, by rw [check_macs_congr E E2 _ hmac]; exact h912.macs_ok, h912.tcs_ok,
        h912.start_ok, h912.stop_ok⟩
    rw [add_vf_of_passes K E2 conf fn2 _ pciid p st hrd2 h14b h58b h912b]

/-- Instance of C26: the descriptor of the basic admission scenario is admitted with the
fixed flags; the same descriptor with the token `floating` is admitted too, and the link
of the record built for it is 0. -/
theorem add_vf_normalised_witness :
    (vfd_add_vf K0 E0 conf0 (some "vf3.json")).rc = 1 ∧
    (∃ p idx, ((vfd_add_vf K0 E0 conf0 (some "vf3.json")).conf.ports p).vfs idx =
        new_vf K0 vfc3 ∧
      (((vfd_add_vf K0 E0 conf0 (some "vf3.json")).conf.ports p).vfs idx).allow_untagged = 0 ∧
      (((vfd_add_vf K0 E0 conf0 (some "vf3.json")).conf.ports p).vfs idx).vlan_anti_spoof = 1 ∧
      (((vfd_add_vf K0 E0 conf0 (some "vf3.json")).conf.ports p).vfs idx).mac_anti_spoof = 1) ∧
    (vfd_add_vf K0
      { E0 with read_config := fun _ => Except.ok { vfc3 with link_status := "floating" } }
      conf0 (some "vf3.json")).rc = 1 ∧
    (new_vf K0 { vfc3 with link_status := "floating" }).link = 0 ∧
    (new_vf K0 { vfc3 with link_status := "Down" }).link = -1 ∧
    (new_vf K0 { vfc3 with link_status := "up" }).link = 1 := by
  obtain ⟨⟨p, idx, h1, h2, h3, h4, _⟩, hany⟩ :=
    add_vf_normalised K0 E0 conf0 "vf3.json" vfc3 rfl (by decide)
  exact ⟨by decide, ⟨p, idx, h1, h2, h3, h4⟩,
    hany { E0 with read_config := fun _ => Except.ok { vfc3 with link_status := "floating" } }
      "vf3.json" "floating" rfl rfl,
    by decide, by decide, by decide⟩

/-! ## The reply to an empty message -/

/-- With no byte to send the loop of `vfd_write` is not entered. -/
theorem vfd_write_zero (w : Nat → Int) :
    vfd_write w 0 = some { rc := -1, attempts := 0, sent := 0 } := by
  rfl

/-- A call of `vfd_write` that returns a positive code has sent the whole buffer. -/
theorem delivered_all (w : Nat → Int) (buf : String) (r : write_t)
    (h : vfd_write w buf.length = some r) (hrc : r.rc > 0) : delivered buf r = buf := by
  obtain ⟨r0, h0, hcase⟩ := vfd_write_run w buf.length
  rw [h] at h0
  have e : r = r0 := by simpa using h0
  subst e
  have hsent : r.sent = buf.length := by
    rcases hcase with ⟨_, hr⟩ | ⟨_, e, _, _, _, _, _, hl⟩
    · rw [hr] at hrc
      exact absurd hrc (by decide)
    · rcases hl with ⟨_, h1, _⟩ | ⟨_, _, h2⟩ | ⟨_, h1, _⟩ | ⟨_, _, h1, _⟩
      · omega
      · exact h2
      · omega
      · omega
  unfold delivered
  rw [hsent]
  have : ((buf.length : Int)).toNat = buf.data.length := Int.toNat_ofNat _
  rw [this, List.take_length]

/-- C27. Zero-length write is reported as a failure: `vfd_write` with `len = 0` makes no call
of `write` and returns -1; so `vfd_response` on an opened pipe with the empty message makes
the calls of `write` of the opening and no other, and what reaches the pipe is what was
delivered of the opening (all of it when that write succeeded), with no terminator, whereas
with a nil message the terminator is attempted after the opening. -/
theorem response_empty_msg_unterminated (K : consts) (open_rc : Int) (w : Nat → Int)
    (rpipe : String) (state : Int) (hopen : 0 ≤ open_rc) :
    vfd_write w 0 = some { rc := -1, attempts := 0, sent := 0 } ∧
    ∃ r1, vfd_write w (snprintf K.BUF_1K (reply_opening state)).length = some r1 ∧
      vfd_response K open_rc w (some rpipe) state (some "") =
        some { opened := true,
               written := delivered (snprintf K.BUF_1K (reply_opening state)) r1,
               writes := r1.attempts } ∧
      (r1.rc > 0 →
        delivered (snprintf K.BUF_1K (reply_opening state)) r1 =
            snprintf K.BUF_1K (reply_opening state) ∧
        ∃ r3, vfd_write (shift w r1.attempts) (snprintf K.BUF_1K reply_terminator).length =
            some r3 ∧
          vfd_response K open_rc w (some rpipe) state none =
            some { opened := true,
                   written := snprintf K.BUF_1K (reply_opening state) ++
                     delivered (snprintf K.BUF_1K reply_terminator) r3,
                   writes := r1.attempts + r3.attempts }) := by
  refine ⟨vfd_write_zero w, ?_⟩
  obtain ⟨r1, h1, _⟩ := vfd_write_run w (snprintf K.BUF_1K (reply_opening state)).length
  have hno : ¬ open_rc < 0 := by omega
  refine ⟨r1, h1, ?_, ?_⟩
  · unfold vfd_response
    simp only [hno, if_false, h1]
    by_cases hrc : r1.rc > 0
    · rw [if_pos hrc]
      unfold response_body
      have hz : vfd_write (shift w r1.attempts) ("" : String).length =
          some { rc := -1, attempts := 0, sent := 0 } := vfd_write_zero _
      simp only [hz]
      rw [if_neg (by decide)]
      have he : delivered "" { rc := -1, attempts := 0, sent := 0 } = "" := rfl
      rw [he]
      simp
    · rw [if_neg hrc]
  · intro hrc
    have hall := delivered_all w _ r1 h1 hrc
    refine ⟨hall, ?_⟩
    obtain ⟨r3, h3, _⟩ :=
      vfd_write_run (shift w r1.attempts) (snprintf K.BUF_1K reply_terminator).length
    refine ⟨r3, h3, ?_⟩
    unfold vfd_response
    simp only [hno, if_false, h1]
    rw [if_pos hrc]
    unfold response_body
    simp only [h3, hall]

/-- Instance of C27 on a pipe that accepts every write in full: the reply to the empty
message is the opening alone, after one call of `write`; the reply to `pong` and the reply
with a nil message are closed by the terminator. -/
theorem response_empty_msg_unterminated_witness :
    (0 : Int) ≤ 3 ∧
    vfd_response K0 3 (wseq [25, 4, 4]) (some "/tmp/resp") 0 (some "") =
      some { opened := true, written := "\x7b \"state\": \"OK\", \"msg\": \"", writes := 1 } ∧
    vfd_response K0 3 (wseq [25, 4, 4]) (some "/tmp/resp") 0 (some "pong") =
      some { opened := true, written := "\x7b \"state\": \"OK\", \"msg\": \"pong\" \x7d\n",
             writes := 3 } ∧
    vfd_response K0 3 (wseq [25, 4, 4]) (some "/tmp/resp") 0 none =
      some { opened := true, written := "\x7b \"state\": \"OK\", \"msg\": \"\" \x7d\n",
             writes := 2 } ∧
    vfd_write (wseq [25, 4, 4]) 0 = some { rc := -1, attempts := 0, sent := 0 } :=
  ⟨by decide, by decide, by decide, by decide,
    (response_empty_msg_unterminated K0 3 (wseq [25, 4, 4]) "/tmp/resp" 0 (by decide)).1⟩

/-! ## A valid descriptor at the configured count; the copy of an unvetted MAC string -/

/-- C2, evaluated at the failing input. On the example port, configured for 4 VFs and
holding none, the descriptor of `vf4.json` meets every condition of the validation sequence
as the specification words it: its port is in the table, its id 4 is in 1..31, is held by
no slot and does not exceed the 4 configured VFs, its VLAN and MAC counts are within the
per-VF and per-port caps, its one VLAN id is in 1..4095, its one MAC string is accepted
by `is_valid_mac_str`, its traffic classes total 50 and it has no hook. Yet `vfd_add_vf`
returns 0 with the reason `only 4 VFs are configured` and leaves the store as it was:
line 229 compares with `>=`. The same port admits the descriptor of the scenario, with
id 3. -/
theorem add_vf_valid_descriptor_rejected :
    E0.read_config "vf4.json" = Except.ok vfc4 ∧
    vfc4.pciid = some "0000:01:00.0" ∧
    find_port conf0 "0000:01:00.0" conf0.num_ports 0 = some 0 ∧
    (1 ≤ vfc4.vfid ∧ vfc4.vfid ≤ 31) ∧
    (conf0.ports 0).num_vfs = 0 ∧
    (vfc4.vfid = 4 ∧ (conf0.ports 0).nvfs_config = 4 ∧
      vfc4.vfid ≤ (conf0.ports 0).nvfs_config) ∧
    (vfc4.nvlans ≤ K0.MAX_VF_VLANS ∧ vfc4.nmacs ≤ K0.MAX_VF_MACS) ∧
    (vfc4.nvlans + vlan_total (conf0.ports 0).vfs (conf0.ports 0).num_vfs ≤ K0.MAX_PF_VLANS ∧
      vfc4.nmacs + mac_total (conf0.ports 0).vfs (conf0.ports 0).num_vfs ≤ K0.MAX_PF_MACS) ∧
    vfc4.vlans = [14] ∧
    (vfc4.macs = ["aa:bb:cc:dd:ee:14"] ∧ 0 ≤ E0.is_valid_mac_str "aa:bb:cc:dd:ee:14") ∧
    vfc4.tcpctgs = [50, 0, 0, 0, 0, 0, 0, 0] ∧
    (vfc4.start_cb = none ∧ vfc4.stop_cb = none) ∧
    (vfd_add_vf K0 E0 conf0 (some "vf4.json")).rc = 0 ∧
    (vfd_add_vf K0 E0 conf0 (some "vf4.json")).reason =
      some "vf 4 is out of range; only 4 VFs are configured on port 0000:01:00.0" ∧
    (vfd_add_vf K0 E0 conf0 (some "vf4.json")).conf = conf0 ∧
    (vfd_add_vf K0 E0 conf0 (some "vf3.json")).rc = 1 := by
  refine ⟨rfl, rfl, by decide, by decide, by decide, by decide, by decide, by decide,
    by decide, by decide, by decide, by decide, by decide, by decide, ?_, by decide⟩
  exact add_vf_rc_zero_conf K0 E0 conf0 (some "vf4.json") (by decide)

end Vfd
